import Mathlib

/-!
# deploy: project detection, builder dispatch and artifact packaging

A shallow embedding of the Go packages `internal/detector`, `internal/builder`
and the parts of `internal/utils` they rely on.

* Go strings are Lean strings; functions of the Go standard library
  (`strings.Contains`, `filepath.Base`, `filepath.Clean`, `filepath.Join`) are
  structural functions on the character list, following their Unix behaviour.
* The file system, the external tools and the clock are explicit inputs:
  `os.Stat` is a function from paths to one of three outcomes, and every
  external call made by a builder reads its outcome from an environment record.
* The process working directory and the sequence of effectful calls are
  explicit state (`World`).
* A Go result pair `(*T, error)` is a pair of options; `none` is `nil`.
-/

set_option autoImplicit false

namespace Deploy

/-! ## Strings and paths (Go standard library) -/

/-- Substring test on character lists, the body of `strings.Contains`. -/
def containsChars : List Char → List Char → Bool
  | [], sub => sub.isEmpty
  | c :: cs, sub => sub.isPrefixOf (c :: cs) || containsChars cs sub

/-- Go `strings.Contains(s, substr)`. -/
def Contains (s substr : String) : Bool :=
  containsChars s.data substr.data

/-- Go `strings.HasSuffix(s, suffix)`. -/
def HasSuffix (s suffix : String) : Bool :=
  suffix.data.reverse.isPrefixOf s.data.reverse

/-- Drop the trailing separators of a path. -/
def stripTrailingSlashes (cs : List Char) : List Char :=
  (cs.reverse.dropWhile (fun c => c == '/')).reverse

/-- The characters after the last separator of a path. -/
def lastElement (cs : List Char) : List Char :=
  (cs.reverse.takeWhile (fun c => c != '/')).reverse

/-- Go `filepath.Base(path)` on Unix: the last element of the path, after
trailing separators are removed; `"."` for the empty path and `"/"` for a path
of separators only. -/
def Base (path : String) : String :=
  if path = "" then "."
  else
    let e := lastElement (stripTrailingSlashes path.data)
    if e = [] then "/" else String.mk e

/-- Split a path at every separator (empty elements are kept). -/
def splitSlash : List Char → List (List Char)
  | [] => [[]]
  | c :: cs =>
    if c = '/' then [] :: splitSlash cs
    else
      match splitSlash cs with
      | [] => [[c]]
      | x :: xs => (c :: x) :: xs

/-- One element of the lexical processing of `filepath.Clean`; `out` is the
stack of kept elements, innermost first. -/
def cleanStep (rooted : Bool) (out : List (List Char)) (comp : List Char) :
    List (List Char) :=
  if comp = [] ∨ comp = ['.'] then out
  else if comp = ['.', '.'] then
    match out with
    | top :: rest => if top = ['.', '.'] then comp :: out else rest
    | [] => if rooted then [] else [comp]
  else comp :: out

/-- Go `filepath.Clean(path)` on Unix. -/
def Clean (path : String) : String :=
  let cs := path.data
  let rooted := cs.head? == some '/'
  let out := ((splitSlash cs).foldl (cleanStep rooted) []).reverse
  let body := List.intercalate ['/'] out
  if rooted then String.mk ('/' :: body)
  else if out = [] then "."
  else String.mk body

/-- Go `filepath.Join(a, b)`: the non-empty prefix of the elements is joined
with the separator and cleaned; all elements empty gives the empty string. -/
def Join (a b : String) : String :=
  if a ≠ "" then Clean (a ++ "/" ++ b)
  else if b ≠ "" then Clean b
  else ""

/-! ## Errors -/

/-- Go error values that occur in the packages. -/
inductive GoError where
  /-- A package-level `errors.New` value. -/
  | sentinel (text : String)
  /-- The value of `fmt.Errorf` without `%w`. -/
  | errorf (text : String)
  /-- The value of `fmt.Errorf` whose format ends in `%w`: the text before the
  wrapped error, and the wrapped error. -/
  | wrap (text : String) (inner : GoError)
  /-- An error returned by the operating system or by a child process. -/
  | external (text : String)
deriving DecidableEq, Repr

/-- The method `Error()`. -/
def GoError.Error : GoError → String
  | .sentinel t => t
  | .errorf t => t
  | .wrap t inner => t ++ inner.Error
  | .external t => t

/-- Go `errors.Is(err, target)`. -/
def errorsIs : GoError → GoError → Bool
  | .wrap t inner, target =>
    decide (GoError.wrap t inner = target) || errorsIs inner target
  | e, target => decide (e = target)

def ErrUnsupportedProjectType : GoError := .sentinel "不支持的项目类型"
def ErrBuildFailed : GoError := .sentinel "构建失败"
def ErrValidationFailed : GoError := .sentinel "构建环境验证失败"
def ErrArtifactNotFound : GoError := .sentinel "构建产物未找到"

/-! ## File system -/

/-- The three classes of outcome of `os.Stat(path)`: no error, an error for
which `os.IsNotExist` holds, any other error (permission denied, not a
directory, too many links, I/O error). -/
inductive StatResult where
  | ok
  | notExist
  | otherErr
deriving DecidableEq, Repr

/-- A file-system state as seen through `os.Stat`. -/
abbrev FileSystem := String → StatResult

/-- Function `FileExists` of `internal/utils`: `os.Stat` returns no error. -/
def FileExists (fs : FileSystem) (path : String) : Bool :=
  decide (fs path = .ok)

/-! ## internal/detector -/

abbrev ProjectType := String

def ProjectTypeNPM : ProjectType := "npm"
def ProjectTypeMaven : ProjectType := "maven"
def ProjectTypeGradle : ProjectType := "gradle"
def ProjectTypeUnknown : ProjectType := "unknown"

structure ProjectInfo where
  Type' : ProjectType
  Name : String
  Version : String
  BuildCommand : String
  ArtifactPath : String
deriving DecidableEq, Repr

def detectNPMProject (fs : FileSystem) (projectPath : String) :
    Option ProjectInfo × Option GoError :=
  let packageJsonPath := Join projectPath "package.json"
  if fs packageJsonPath = .notExist then
    (none, some (.errorf "package.json 不存在"))
  else
    (some { Type' := ProjectTypeNPM, Name := Base projectPath, Version := "",
            BuildCommand := "npm run build", ArtifactPath := "dist" }, none)

def detectMavenProject (fs : FileSystem) (projectPath : String) :
    Option ProjectInfo × Option GoError :=
  let pomXmlPath := Join projectPath "pom.xml"
  if fs pomXmlPath = .notExist then
    (none, some (.errorf "pom.xml 不存在"))
  else
    (some { Type' := ProjectTypeMaven, Name := Base projectPath, Version := "",
            BuildCommand := "mvn clean package -DskipTests",
            ArtifactPath := "target/*.jar" }, none)

def detectGradleProject (fs : FileSystem) (projectPath : String) :
    Option ProjectInfo × Option GoError :=
  let buildGradlePath := Join projectPath "build.gradle"
  let buildGradleKtsPath := Join projectPath "build.gradle.kts"
  if fs buildGradlePath ≠ .ok ∧ fs buildGradleKtsPath ≠ .ok then
    (none, some (.errorf "build.gradle 或 build.gradle.kts 不存在"))
  else
    (some { Type' := ProjectTypeGradle, Name := Base projectPath, Version := "",
            BuildCommand := "./gradlew build",
            ArtifactPath := "build/libs/*.jar" }, none)

/-- The path `DetectProject` works on: the empty path stands for `"."`. -/
def detectPath (projectPath : String) : String :=
  if projectPath = "" then "." else projectPath

def DetectProject (fs : FileSystem) (projectPath : String) :
    Option ProjectInfo × Option GoError :=
  let projectPath := detectPath projectPath
  match detectNPMProject fs projectPath with
  | (info, none) => (info, none)
  | (_, some _) =>
    match detectMavenProject fs projectPath with
    | (info, none) => (info, none)
    | (_, some _) =>
      match detectGradleProject fs projectPath with
      | (info, none) => (info, none)
      | (_, some _) =>
        (some { Type' := ProjectTypeUnknown, Name := Base projectPath,
                Version := "", BuildCommand := "", ArtifactPath := "" },
         some (.errorf "无法识别项目类型"))

def IsNPMProject (fs : FileSystem) (projectPath : String) : Bool :=
  decide (fs (Join projectPath "package.json") = .ok)

def IsMavenProject (fs : FileSystem) (projectPath : String) : Bool :=
  decide (fs (Join projectPath "pom.xml") = .ok)

def IsGradleProject (fs : FileSystem) (projectPath : String) : Bool :=
  decide (fs (Join projectPath "build.gradle") = .ok) ||
    decide (fs (Join projectPath "build.gradle.kts") = .ok)

/-- The type of the project information returned by a detection, if any. -/
def detectedType (r : Option ProjectInfo × Option GoError) : Option ProjectType :=
  r.1.map (fun info => info.Type')

/-! ## internal/config -/

structure ProjectConfig where
  Name : String
  Type' : String
deriving DecidableEq, Repr

structure NPMConfig where
  BuildCommand : String
  BuildDir : String
  InstallCommand : String
  NodeVersion : String
deriving DecidableEq, Repr

structure JavaConfig where
  BuildTool : String
  BuildCommand : String
  ArtifactPath : String
  JavaVersion : String
deriving DecidableEq, Repr

/-- The fields of `config.Config` read by the builders. -/
structure Config where
  Project : ProjectConfig
  NPM : NPMConfig
  Java : JavaConfig
deriving DecidableEq, Repr

/-! ## internal/builder: data -/

structure BuildResult where
  Success : Bool
  ArtifactPath : String
  Version : String
  BuildTime : String
  Files : List String
  Size : Int
  Message : String
deriving DecidableEq, Repr

structure BuildOptions where
  ProjectPath : String
  Environment : String
  OutputPath : String
  Version : String
  Verbose : Bool
  SkipTests : Bool
deriving DecidableEq, Repr

/-- A `BuildResult` literal that sets `Success: false` and `Message` only. -/
def failedResult (message : String) : BuildResult :=
  { Success := false, ArtifactPath := "", Version := "", BuildTime := "",
    Files := [], Size := 0, Message := message }

/-! ## Effects: the world and its environment -/

/-- An effectful call, as recorded in the order it is made. -/
inductive Event where
  | DetectProject (path : String)
  | NewBuilder (t : ProjectType)
  | Validate (t : ProjectType)
  | Build (t : ProjectType)
  | exec (name : String) (args : List String)
  | getwd
  | chdir (path : String)
  | chmod (path : String)
  | mkdirAll (path : String)
  | create (path : String)
  | copy (src dst : String)
  | tarHeader (name : String)
  | tarData (path : String) (size : Int)
  | statSize (path : String)
  | tarClose
  | gzipClose
  | fileClose (path : String)
deriving DecidableEq, Repr

/-- The state a build acts on: the process working directory (named by the
path last passed to a successful `os.Chdir`) and the calls made so far. -/
structure World where
  cwd : String
  trace : List Event
deriving DecidableEq, Repr

def World.record (w : World) (e : Event) : World :=
  { w with trace := w.trace ++ [e] }

/-- One callback of `filepath.Walk`: the path, the file information and the
error that `Walk` passes to the walk function. -/
structure WalkEntry where
  path : String
  Name : String
  IsDir : Bool
  Size : Int
  err : Option GoError
deriving DecidableEq, Repr

/-- The outcomes of the calls a builder makes to the operating system, to
external tools, to the clock and to `filepath.Rel`, `archive/tar`. A `none`
error is `nil`. -/
structure Env where
  /-- Outcome class of `os.Stat(path)`. -/
  stat : FileSystem
  /-- The error value of a failing `os.Stat(path)`. -/
  statErr : String → GoError
  /-- Result of `Size()` on the information returned by `os.Stat(path)`, when
  the call is made after the calls of `trace`: a file that is being written
  grows with the writes and with the closing of its writers. -/
  statSize : String → List Event → Int
  /-- Error of `os.Getwd()`; its result is the working directory. -/
  getwd : Option GoError
  /-- Error of `os.Chdir(path)`. -/
  chdir : String → Option GoError
  /-- Error of running the command `name args...` (`Run`, `Output`,
  `CombinedOutput`). -/
  run : String → List String → Option GoError
  /-- Value of `time.Now().Format("20060102-150405")`. -/
  now : String
  /-- Value of `time.Since(startTime).String()`. -/
  since : String
  mkdirAll : String → Option GoError
  create : String → Option GoError
  open' : String → Option GoError
  /-- Error of `destFile.ReadFrom(sourceFile)` for the files at `src`, `dst`. -/
  readFrom : String → String → Option GoError
  /-- The callbacks `filepath.Walk(root, fn)` makes, in order, as long as `fn`
  returns no error. -/
  walk : String → List WalkEntry
  /-- Result of `filepath.Rel(basepath, targpath)`. -/
  rel : String → String → String × Option GoError
  /-- Error of `tar.FileInfoHeader(info, "")` for the file at `path`. -/
  fileInfoHeader : String → Option GoError
  /-- Error of `tarWriter.WriteHeader` for the entry `name`. -/
  writeHeader : String → Option GoError
  /-- Result of `io.Copy(tarWriter, file)` for the file at `path`. -/
  ioCopy : String → Int × Option GoError

/-- Go `os.Chdir(path)`: on success the working directory becomes `path`. -/
def osChdir (env : Env) (path : String) (w : World) : Option GoError × World :=
  let w := w.record (.chdir path)
  match env.chdir path with
  | some e => (some e, w)
  | none => (none, { w with cwd := path })

/-- How a call ends: it returns a value, or a run-time panic unwinds it. -/
inductive Outcome (α : Type) where
  | returned (val : α)
  | panicked (msg : String)
deriving DecidableEq, Repr

/-- Go `unicode.IsSpace`. -/
def isSpace (c : Char) : Bool :=
  let n := c.toNat
  (9 ≤ n && n ≤ 13) || n == 32 || n == 0x85 || n == 0xA0 || n == 0x1680 ||
    (0x2000 ≤ n && n ≤ 0x200A) || n == 0x2028 || n == 0x2029 || n == 0x202F ||
    n == 0x205F || n == 0x3000

/-- Body of `strings.Fields`; `cur` is the current word, last character first. -/
def fieldsChars : List Char → List Char → List String
  | [], cur => if cur = [] then [] else [String.mk cur.reverse]
  | c :: cs, cur =>
    if isSpace c then
      if cur = [] then fieldsChars cs [] else String.mk cur.reverse :: fieldsChars cs []
    else fieldsChars cs (c :: cur)

/-- Go `strings.Fields(s)`. -/
def Fields (s : String) : List String :=
  fieldsChars s.data []

/-- The statement pair `parts := strings.Fields(command)` and
`exec.Command(parts[0], parts[1:]...).Run()`: with an empty word list the
call panics, and the run-time error names the slice `parts[1:]`. -/
def runFields (env : Env) (command : String) (w : World) :
    Outcome (Option GoError) × World :=
  match Fields command with
  | [] => (.panicked "slice bounds out of range [1:0]", w)
  | name :: args => (.returned (env.run name args), w.record (.exec name args))

/-- Go `exec.Command(name, args...)` followed by `Run`, `Output` or
`CombinedOutput`; only the error is kept. -/
def execCommand (env : Env) (name : String) (args : List String) (w : World) :
    Option GoError × World :=
  (env.run name args, w.record (.exec name args))

/-- The result of a `packageArtifacts` method:
`(artifactPath, files, size, err)`. -/
structure Packaged where
  artifactPath : String
  files : List String
  size : Int
  err : Option GoError
deriving DecidableEq, Repr

/-- The return statement `return "", nil, 0, err` of `packageArtifacts`. -/
def Packaged.fail (e : GoError) : Packaged :=
  { artifactPath := "", files := [], size := 0, err := some e }

/-! ## internal/builder: NPM -/

structure NPMBuilder where
  config : Config
  options : BuildOptions
deriving DecidableEq, Repr

def NewNPMBuilder (config : Config) (options : BuildOptions) : NPMBuilder :=
  { config := config, options := options }

def NPMBuilder.GetType (_n : NPMBuilder) : ProjectType := ProjectTypeNPM

def NPMBuilder.checkNodeJS (_n : NPMBuilder) (env : Env) (w : World) :
    Option GoError × World :=
  match execCommand env "node" ["--version"] w with
  | (some _, w) => (some (.errorf "Node.js 未安装或不在 PATH 中"), w)
  | (none, w) => (none, w)

def NPMBuilder.checkNPM (_n : NPMBuilder) (env : Env) (w : World) :
    Option GoError × World :=
  match execCommand env "npm" ["--version"] w with
  | (some _, w) => (some (.errorf "npm 未安装或不在 PATH 中"), w)
  | (none, w) => (none, w)

def NPMBuilder.Validate (n : NPMBuilder) (env : Env) (w : World) :
    Option GoError × World :=
  match n.checkNodeJS env w with
  | (some err, w) => (some (.wrap "Node.js 环境检查失败: " err), w)
  | (none, w) =>
    match n.checkNPM env w with
    | (some err, w) => (some (.wrap "npm 环境检查失败: " err), w)
    | (none, w) =>
      let packageJsonPath := Join n.options.ProjectPath "package.json"
      if env.stat packageJsonPath = .notExist then
        (some (.errorf ("package.json 不存在: " ++ packageJsonPath)), w)
      else (none, w)

def NPMBuilder.installDependencies (n : NPMBuilder) (env : Env) (w : World) :
    Outcome (Option GoError) × World :=
  let installCmd :=
    if n.config.NPM.InstallCommand = "" then "npm ci" else n.config.NPM.InstallCommand
  match runFields env installCmd w with
  | (.panicked m, w) => (.panicked m, w)
  | (.returned (some err), w) =>
    (.returned (some (.wrap ("执行 " ++ installCmd ++ " 失败: ") err)), w)
  | (.returned none, w) => (.returned none, w)

def NPMBuilder.runBuild (n : NPMBuilder) (env : Env) (w : World) :
    Outcome (Option GoError) × World :=
  let buildCmd :=
    if n.config.NPM.BuildCommand = "" then "npm run build" else n.config.NPM.BuildCommand
  match runFields env buildCmd w with
  | (.panicked m, w) => (.panicked m, w)
  | (.returned (some err), w) =>
    (.returned (some (.wrap ("执行 " ++ buildCmd ++ " 失败: ") err)), w)
  | (.returned none, w) => (.returned none, w)

/-- The variables `files` and `totalSize` the walk function of
`NPMBuilder.packageArtifacts` updates. -/
structure WalkAcc where
  files : List String
  totalSize : Int
deriving DecidableEq, Repr

/-- The walk function passed to `filepath.Walk` by
`NPMBuilder.packageArtifacts`, for one callback. -/
def NPMBuilder.walkFn (buildDir : String) (env : Env) (acc : WalkAcc) (w : World)
    (e : WalkEntry) : Option GoError × WalkAcc × World :=
  match e.err with
  | some err => (some err, acc, w)
  | none =>
    match env.rel buildDir e.path with
    | (_, some err) => (some err, acc, w)
    | (relPath, none) =>
      if relPath = "." then (none, acc, w)
      else
        let acc := { acc with files := acc.files ++ [relPath] }
        match env.fileInfoHeader e.path with
        | some err => (some err, acc, w)
        | none =>
          match env.writeHeader relPath with
          | some err => (some err, acc, w)
          | none =>
            let w := w.record (.tarHeader relPath)
            if !e.IsDir then
              match env.open' e.path with
              | some err => (some err, acc, w)
              | none =>
                match env.ioCopy e.path with
                | (_, some err) => (some err, acc, w)
                | (size, none) =>
                  (none, { acc with totalSize := acc.totalSize + size },
                   w.record (.tarData e.path size))
            else (none, acc, w)

/-- Go `filepath.Walk` with the walk function of `NPMBuilder.packageArtifacts`:
the first error a callback returns ends the walk. -/
def NPMBuilder.walkLoop (buildDir : String) (env : Env) :
    List WalkEntry → WalkAcc → World → Option GoError × WalkAcc × World
  | [], acc, w => (none, acc, w)
  | e :: rest, acc, w =>
    match NPMBuilder.walkFn buildDir env acc w e with
    | (some err, acc, w) => (some err, acc, w)
    | (none, acc, w) => NPMBuilder.walkLoop buildDir env rest acc w

/-- The deferred `tarWriter.Close()`, `gzWriter.Close()`, `file.Close()`. -/
def closeArchive (artifactPath : String) (w : World) : World :=
  ((w.record .tarClose).record .gzipClose).record (.fileClose artifactPath)

def NPMBuilder.packageArtifacts (n : NPMBuilder) (env : Env) (w : World) :
    Packaged × World :=
  let buildDir := if n.config.NPM.BuildDir = "" then "dist" else n.config.NPM.BuildDir
  if env.stat buildDir = .notExist then
    (.fail (.errorf ("构建目录不存在: " ++ buildDir)), w)
  else
    let outputDir := if n.options.OutputPath = "" then "./build" else n.options.OutputPath
    let w := w.record (.mkdirAll outputDir)
    match env.mkdirAll outputDir with
    | some err => (.fail (.wrap "创建输出目录失败: " err), w)
    | none =>
      let version := if n.options.Version = "" then env.now else n.options.Version
      let artifactName := n.config.Project.Name ++ "-" ++ version ++ ".tar.gz"
      let artifactPath := Join outputDir artifactName
      let w := w.record (.create artifactPath)
      match env.create artifactPath with
      | some err => (.fail (.wrap "创建压缩文件失败: " err), w)
      | none =>
        match NPMBuilder.walkLoop buildDir env (env.walk buildDir)
            { files := [], totalSize := 0 } w with
        | (some err, _, w) =>
          (.fail (.wrap "打包文件失败: " err), closeArchive artifactPath w)
        | (none, acc, w) =>
          let w := w.record (.statSize artifactPath)
          let totalSize :=
            if env.stat artifactPath = .ok then env.statSize artifactPath w.trace
            else acc.totalSize
          ({ artifactPath := artifactPath, files := acc.files, size := totalSize,
             err := none }, closeArchive artifactPath w)

/-- `NPMBuilder.Build` from the `os.Chdir` into the project directory on; the
deferred `os.Chdir(originalDir)` runs when this part ends. -/
def NPMBuilder.buildBody (n : NPMBuilder) (env : Env) (w : World) :
    Outcome (Option BuildResult × Option GoError) × World :=
  match osChdir env n.options.ProjectPath w with
  | (some err, w) => (.returned (none, some (.wrap "切换到项目目录失败: " err)), w)
  | (none, w) =>
    match n.installDependencies env w with
    | (.panicked m, w) => (.panicked m, w)
    | (.returned (some err), w) =>
      (.returned (some (failedResult ("安装依赖失败: " ++ err.Error)), some err), w)
    | (.returned none, w) =>
      match n.runBuild env w with
      | (.panicked m, w) => (.panicked m, w)
      | (.returned (some err), w) =>
        (.returned (some (failedResult ("构建失败: " ++ err.Error)), some err), w)
      | (.returned none, w) =>
        match n.packageArtifacts env w with
        | (⟨_, _, _, some err⟩, w) =>
          (.returned (some (failedResult ("打包失败: " ++ err.Error)), some err), w)
        | (⟨artifactPath, files, size, none⟩, w) =>
          (.returned (some { Success := true, ArtifactPath := artifactPath,
                             Version := n.options.Version, BuildTime := env.since,
                             Files := files, Size := size, Message := "构建成功" },
                      none), w)

def NPMBuilder.Build (n : NPMBuilder) (env : Env) (w : World) :
    Outcome (Option BuildResult × Option GoError) × World :=
  let w := w.record .getwd
  match env.getwd with
  | some err => (.returned (none, some (.wrap "获取当前目录失败: " err)), w)
  | none =>
    let originalDir := w.cwd
    match n.buildBody env w with
    | (r, w) => (r, (osChdir env originalDir w).2)

/-! ## internal/builder: Maven and Gradle, shared shapes

`checkJava`, `findJarFiles`, `copyFile` and the tail of `packageArtifacts` are
written twice in the source, once per builder, with the same text. -/

/-- Method `checkJava` of `MavenBuilder` and of `GradleBuilder`. -/
def checkJava (env : Env) (w : World) : Option GoError × World :=
  match execCommand env "java" ["-version"] w with
  | (some _, w) => (some (.errorf "Java 未安装或不在 PATH 中"), w)
  | (none, w) => (none, w)

/-- The walk function of `findJarFiles`, over the callbacks of the walk. -/
def findJarLoop : List WalkEntry → List String → List String × Option GoError
  | [], jarFiles => (jarFiles, none)
  | e :: rest, jarFiles =>
    match e.err with
    | some err => (jarFiles, some err)
    | none =>
      findJarLoop rest (if HasSuffix e.Name ".jar" then jarFiles ++ [e.path] else jarFiles)

/-- Method `copyFile(src, dst)` of `MavenBuilder` and of `GradleBuilder`. -/
def copyFile (env : Env) (src dst : String) (w : World) : Option GoError × World :=
  match env.open' src with
  | some err => (some err, w)
  | none =>
    let w := w.record (.create dst)
    match env.create dst with
    | some err => (some err, w)
    | none => (env.readFrom src dst, w.record (.copy src dst))

/-- The part of `packageArtifacts` of `MavenBuilder` and of `GradleBuilder`
after the main JAR is chosen. -/
def packageJar (config : Config) (options : BuildOptions) (mainJar : String)
    (env : Env) (w : World) : Packaged × World :=
  let outputDir := if options.OutputPath = "" then "./build" else options.OutputPath
  let w := w.record (.mkdirAll outputDir)
  match env.mkdirAll outputDir with
  | some err => (.fail (.wrap "创建输出目录失败: " err), w)
  | none =>
    let version := if options.Version = "" then env.now else options.Version
    let artifactName := config.Project.Name ++ "-" ++ version ++ ".jar"
    let artifactPath := Join outputDir artifactName
    match copyFile env mainJar artifactPath w with
    | (some err, w) => (.fail (.wrap "复制 JAR 文件失败: " err), w)
    | (none, w) =>
      let w := w.record (.statSize artifactPath)
      if env.stat artifactPath ≠ .ok then
        (.fail (.wrap "获取文件信息失败: " (env.statErr artifactPath)), w)
      else
        ({ artifactPath := artifactPath, files := [Base artifactPath],
           size := env.statSize artifactPath w.trace, err := none }, w)

/-- The tail of `Build` of `MavenBuilder` and of `GradleBuilder`: the result
built from the outcome of `packageArtifacts`. -/
def packagedResult (options : BuildOptions) (env : Env) (p : Packaged) :
    Option BuildResult × Option GoError :=
  match p with
  | ⟨_, _, _, some err⟩ => (some (failedResult ("打包失败: " ++ err.Error)), some err)
  | ⟨artifactPath, files, size, none⟩ =>
    (some { Success := true, ArtifactPath := artifactPath, Version := options.Version,
            BuildTime := env.since, Files := files, Size := size,
            Message := "构建成功" }, none)

/-! ## internal/builder: Maven -/

structure MavenBuilder where
  config : Config
  options : BuildOptions
deriving DecidableEq, Repr

def NewMavenBuilder (config : Config) (options : BuildOptions) : MavenBuilder :=
  { config := config, options := options }

def MavenBuilder.GetType (_m : MavenBuilder) : ProjectType := ProjectTypeMaven

def MavenBuilder.checkMaven (_m : MavenBuilder) (env : Env) (w : World) :
    Option GoError × World :=
  match execCommand env "mvn" ["--version"] w with
  | (some _, w) => (some (.errorf "Maven 未安装或不在 PATH 中"), w)
  | (none, w) => (none, w)

def MavenBuilder.Validate (m : MavenBuilder) (env : Env) (w : World) :
    Option GoError × World :=
  match checkJava env w with
  | (some err, w) => (some (.wrap "Java 环境检查失败: " err), w)
  | (none, w) =>
    match m.checkMaven env w with
    | (some err, w) => (some (.wrap "Maven 环境检查失败: " err), w)
    | (none, w) =>
      let pomPath := Join m.options.ProjectPath "pom.xml"
      if env.stat pomPath = .notExist then
        (some (.errorf ("pom.xml 不存在: " ++ pomPath)), w)
      else (none, w)

def MavenBuilder.runMavenBuild (m : MavenBuilder) (env : Env) (w : World) :
    Outcome (Option GoError) × World :=
  let buildCmd :=
    if m.config.Java.BuildCommand = "" then
      if m.options.SkipTests then "mvn clean package -DskipTests" else "mvn clean package"
    else m.config.Java.BuildCommand
  match runFields env buildCmd w with
  | (.panicked msg, w) => (.panicked msg, w)
  | (.returned (some err), w) =>
    (.returned (some (.wrap ("执行 " ++ buildCmd ++ " 失败: ") err)), w)
  | (.returned none, w) => (.returned none, w)

def MavenBuilder.findJarFiles (_m : MavenBuilder) (env : Env) :
    List String × Option GoError :=
  findJarLoop (env.walk "target") []

/-- The loop of `MavenBuilder.selectMainJar`: the first JAR whose base name
has none of `sources`, `javadoc`, `tests`. -/
def MavenBuilder.selectLoop : List String → Option String
  | [] => none
  | jar :: rest =>
    let name := Base jar
    if !Contains name "sources" && !Contains name "javadoc" && !Contains name "tests" then
      some jar
    else MavenBuilder.selectLoop rest

def MavenBuilder.selectMainJar (jarFiles : List String) : String :=
  match MavenBuilder.selectLoop jarFiles with
  | some jar => jar
  | none =>
    match jarFiles with
    | first :: _ => first
    | [] => ""

def MavenBuilder.packageArtifacts (m : MavenBuilder) (env : Env) (w : World) :
    Packaged × World :=
  match m.findJarFiles env with
  | (_, some err) => (.fail (.wrap "查找 JAR 文件失败: " err), w)
  | (jarFiles, none) =>
    if jarFiles.length = 0 then (.fail (.errorf "未找到 JAR 文件"), w)
    else
      let mainJar := MavenBuilder.selectMainJar jarFiles
      packageJar m.config m.options mainJar env w

def MavenBuilder.buildBody (m : MavenBuilder) (env : Env) (w : World) :
    Outcome (Option BuildResult × Option GoError) × World :=
  match osChdir env m.options.ProjectPath w with
  | (some err, w) => (.returned (none, some (.wrap "切换到项目目录失败: " err)), w)
  | (none, w) =>
    match m.runMavenBuild env w with
    | (.panicked msg, w) => (.panicked msg, w)
    | (.returned (some err), w) =>
      (.returned (some (failedResult ("Maven 构建失败: " ++ err.Error)), some err), w)
    | (.returned none, w) =>
      match m.packageArtifacts env w with
      | (p, w) => (.returned (packagedResult m.options env p), w)

def MavenBuilder.Build (m : MavenBuilder) (env : Env) (w : World) :
    Outcome (Option BuildResult × Option GoError) × World :=
  let w := w.record .getwd
  match env.getwd with
  | some err => (.returned (none, some (.wrap "获取当前目录失败: " err)), w)
  | none =>
    let originalDir := w.cwd
    match m.buildBody env w with
    | (r, w) => (r, (osChdir env originalDir w).2)

/-! ## internal/builder: Gradle -/

structure GradleBuilder where
  config : Config
  options : BuildOptions
deriving DecidableEq, Repr

def NewGradleBuilder (config : Config) (options : BuildOptions) : GradleBuilder :=
  { config := config, options := options }

def GradleBuilder.GetType (_g : GradleBuilder) : ProjectType := ProjectTypeGradle

def GradleBuilder.checkGradle (g : GradleBuilder) (env : Env) (w : World) :
    Option GoError × World :=
  let gradlewPath := Join g.options.ProjectPath "gradlew"
  let system (w : World) : Option GoError × World :=
    match execCommand env "gradle" ["--version"] w with
    | (some _, w) =>
      (some (.errorf "Gradle 未安装或不在 PATH 中，且项目没有可用的 gradlew"), w)
    | (none, w) => (none, w)
  if env.stat gradlewPath = .ok then
    let w := w.record (.chmod gradlewPath)
    match execCommand env gradlewPath ["--version"] w with
    | (none, w) => (none, w)
    | (some _, w) => system w
  else system w

def GradleBuilder.Validate (g : GradleBuilder) (env : Env) (w : World) :
    Option GoError × World :=
  match checkJava env w with
  | (some err, w) => (some (.wrap "Java 环境检查失败: " err), w)
  | (none, w) =>
    match g.checkGradle env w with
    | (some err, w) => (some (.wrap "Gradle 环境检查失败: " err), w)
    | (none, w) =>
      let buildGradlePath := Join g.options.ProjectPath "build.gradle"
      let buildGradleKtsPath := Join g.options.ProjectPath "build.gradle.kts"
      if env.stat buildGradlePath ≠ .ok ∧ env.stat buildGradleKtsPath ≠ .ok then
        (some (.errorf "build.gradle 或 build.gradle.kts 不存在"), w)
      else (none, w)

def GradleBuilder.getGradleCommand (g : GradleBuilder) (env : Env) : String :=
  let gradlewPath := Join g.options.ProjectPath "gradlew"
  if env.stat gradlewPath = .ok then gradlewPath else "gradle"

/-- The task list `runGradleBuild` passes to the Gradle command. -/
def GradleBuilder.tasks (g : GradleBuilder) : List String :=
  let tasks := if g.options.SkipTests then ["clean", "build", "-x", "test"] else ["clean", "build"]
  if g.config.Java.BuildCommand ≠ "" ∧ g.config.Java.BuildTool = "gradle" then
    let parts := Fields g.config.Java.BuildCommand
    if parts.length > 1 then parts.drop 1 else tasks
  else tasks

def GradleBuilder.runGradleBuild (g : GradleBuilder) (env : Env) (w : World) :
    Option GoError × World :=
  let gradleCmd := g.getGradleCommand env
  let tasks := g.tasks
  match execCommand env gradleCmd tasks w with
  | (some err, w) =>
    (some (.wrap ("执行 " ++ gradleCmd ++ " " ++ " ".intercalate tasks ++ " 失败: ") err), w)
  | (none, w) => (none, w)

def GradleBuilder.findJarFiles (_g : GradleBuilder) (env : Env) :
    List String × Option GoError :=
  findJarLoop (env.walk "build/libs") []

/-- The loop of `GradleBuilder.selectMainJar`: the first JAR whose base name
has none of `sources`, `javadoc`, `tests`, `plain`. -/
def GradleBuilder.selectLoop : List String → Option String
  | [] => none
  | jar :: rest =>
    let name := Base jar
    if !Contains name "sources" && !Contains name "javadoc" && !Contains name "tests" &&
        !Contains name "plain" then
      some jar
    else GradleBuilder.selectLoop rest

def GradleBuilder.selectMainJar (jarFiles : List String) : String :=
  match GradleBuilder.selectLoop jarFiles with
  | some jar => jar
  | none =>
    match jarFiles with
    | first :: _ => first
    | [] => ""

def GradleBuilder.packageArtifacts (g : GradleBuilder) (env : Env) (w : World) :
    Packaged × World :=
  match g.findJarFiles env with
  | (_, some err) => (.fail (.wrap "查找 JAR 文件失败: " err), w)
  | (jarFiles, none) =>
    if jarFiles.length = 0 then (.fail (.errorf "未找到 JAR 文件"), w)
    else
      let mainJar := GradleBuilder.selectMainJar jarFiles
      packageJar g.config g.options mainJar env w

def GradleBuilder.buildBody (g : GradleBuilder) (env : Env) (w : World) :
    Outcome (Option BuildResult × Option GoError) × World :=
  match osChdir env g.options.ProjectPath w with
  | (some err, w) => (.returned (none, some (.wrap "切换到项目目录失败: " err)), w)
  | (none, w) =>
    match g.runGradleBuild env w with
    | (some err, w) =>
      (.returned (some (failedResult ("Gradle 构建失败: " ++ err.Error)), some err), w)
    | (none, w) =>
      match g.packageArtifacts env w with
      | (p, w) => (.returned (packagedResult g.options env p), w)

def GradleBuilder.Build (g : GradleBuilder) (env : Env) (w : World) :
    Outcome (Option BuildResult × Option GoError) × World :=
  let w := w.record .getwd
  match env.getwd with
  | some err => (.returned (none, some (.wrap "获取当前目录失败: " err)), w)
  | none =>
    let originalDir := w.cwd
    match g.buildBody env w with
    | (r, w) => (r, (osChdir env originalDir w).2)

/-! ## internal/builder: the Builder interface and the coordinator -/

/-- The interface `Builder`, with its three implementations. -/
inductive Builder where
  | npm (n : NPMBuilder)
  | maven (m : MavenBuilder)
  | gradle (g : GradleBuilder)
deriving DecidableEq, Repr

def Builder.GetType : Builder → ProjectType
  | .npm n => n.GetType
  | .maven m => m.GetType
  | .gradle g => g.GetType

def Builder.Validate : Builder → Env → World → Option GoError × World
  | .npm n => n.Validate
  | .maven m => m.Validate
  | .gradle g => g.Validate

def Builder.Build : Builder → Env → World →
    Outcome (Option BuildResult × Option GoError) × World
  | .npm n => n.Build
  | .maven m => m.Build
  | .gradle g => g.Build

def NewBuilder (projectType : ProjectType) (config : Config) (options : BuildOptions) :
    Option Builder × Option GoError :=
  if projectType = ProjectTypeNPM then (some (.npm (NewNPMBuilder config options)), none)
  else if projectType = ProjectTypeMaven then
    (some (.maven (NewMavenBuilder config options)), none)
  else if projectType = ProjectTypeGradle then
    (some (.gradle (NewGradleBuilder config options)), none)
  else (none, some ErrUnsupportedProjectType)

def BuildProject (config : Config) (options : BuildOptions) (env : Env) (w : World) :
    Outcome (Option BuildResult × Option GoError) × World :=
  let w := w.record (.DetectProject options.ProjectPath)
  match DetectProject env.stat options.ProjectPath with
  | (_, some err) => (.returned (none, some err), w)
  | (none, none) => (.panicked "nil pointer dereference", w)
  | (some projectInfo, none) =>
    let w := w.record (.NewBuilder projectInfo.Type')
    match NewBuilder projectInfo.Type' config options with
    | (_, some err) => (.returned (none, some err), w)
    | (none, none) => (.panicked "nil pointer dereference", w)
    | (some builder, none) =>
      let w := w.record (.Validate builder.GetType)
      match builder.Validate env w with
      | (some err, w) => (.returned (none, some err), w)
      | (none, w) => builder.Build env (w.record (.Build builder.GetType))

/-! ## internal/utils, internal/config and cmd: the build command -/

/-- The outcomes of the calls that only the command layer makes. -/
structure CmdEnv where
  /-- Result of `IsDir()` on the information returned by `os.Stat(path)`. -/
  isDir : String → Bool
  /-- Error of `viper.ReadInConfig()` for the configuration file at `path`. -/
  readInConfig : String → Option GoError
  /-- Result of `viper.Unmarshal(&config)` for the configuration file at `path`. -/
  unmarshal : String → Config × Option GoError

/-- Function `DirExists` of `internal/utils`. -/
def DirExists (env : Env) (cenv : CmdEnv) (path : String) : Bool :=
  decide (env.stat path = .ok) && cenv.isDir path

/-- Go `filepath.Abs(path)` on Unix. -/
def Abs (env : Env) (path : String) (w : World) : (String × Option GoError) × World :=
  if path.data.head? = some '/' then ((Clean path, none), w)
  else
    let w := w.record .getwd
    match env.getwd with
    | some err => (("", some err), w)
    | none => ((Join w.cwd path, none), w)

/-- Function `GetProjectName` of `internal/utils`. -/
def GetProjectName (env : Env) (projectPath : String) (w : World) : String × World :=
  if projectPath = "" ∨ projectPath = "." then
    let w := w.record .getwd
    match env.getwd with
    | none => (Base w.cwd, w)
    | some _ => ("unknown", w)
  else (Base projectPath, w)

/-- Function `GetDefaultConfig` of `internal/config`, on the fields of `Config`. -/
def GetDefaultConfig : Config :=
  { Project := { Name := "my-app", Type' := "auto" },
    NPM := { BuildCommand := "npm run build", BuildDir := "dist", InstallCommand := "npm ci",
             NodeVersion := "18" },
    Java := { BuildTool := "maven", BuildCommand := "mvn clean package -DskipTests",
              ArtifactPath := "target/*.jar", JavaVersion := "11" } }

/-- Function `LoadConfig` of `internal/config`. -/
def LoadConfig (env : Env) (cenv : CmdEnv) (configPath : String) :
    Option Config × Option GoError :=
  let configPath := if configPath = "" then "deploy.yaml" else configPath
  if env.stat configPath = .notExist then
    (none, some (.errorf ("配置文件不存在: " ++ configPath)))
  else
    match cenv.readInConfig configPath with
    | some err => (none, some (.wrap "读取配置文件失败: " err))
    | none =>
      match cenv.unmarshal configPath with
      | (_, some err) => (none, some (.wrap "解析配置文件失败: " err))
      | (config, none) => (some config, none)

/-- Function `loadConfig` of `cmd/build.go`; `configFile` is the `--config` flag. -/
def loadConfig (env : Env) (cenv : CmdEnv) (configFile : String) :
    Option Config × Option GoError :=
  let configPath := if configFile = "" then "deploy.yaml" else configFile
  if !FileExists env.stat configPath then
    (none, some (.errorf ("配置文件不存在: " ++ configPath)))
  else LoadConfig env cenv configPath

/-- The flags of `deploy build`, and the two global flags. -/
structure BuildFlags where
  buildType : String
  outputPath : String
  version : String
  skipTests : Bool
  projectPath : String
  configFile : String
  verbose : Bool
deriving DecidableEq, Repr

/-- The flag values when none is given on the command line. -/
def defaultFlags : BuildFlags :=
  { buildType := "auto", outputPath := "", version := "", skipTests := false,
    projectPath := ".", configFile := "", verbose := false }

/-- The statement of `runBuild` that sets `projectType`: by detection when the
type is `auto`, from the flag otherwise. -/
def selectProjectType (buildType absProjectPath : String) (env : Env) (w : World) :
    (Option ProjectType × Option GoError) × World :=
  if buildType = "auto" then
    let w := w.record (.DetectProject absProjectPath)
    match DetectProject env.stat absProjectPath with
    | (_, some err) => ((none, some (.wrap "自动检测项目类型失败: " err)), w)
    | (none, none) => ((none, none), w)
    | (some projectInfo, none) => ((some projectInfo.Type', none), w)
  else if buildType = "npm" then ((some ProjectTypeNPM, none), w)
  else if buildType = "maven" then ((some ProjectTypeMaven, none), w)
  else if buildType = "gradle" then ((some ProjectTypeGradle, none), w)
  else ((none, some (.errorf ("不支持的项目类型: " ++ buildType))), w)

/-- Function `runBuild` of `cmd/build.go`; it returns the error of the command. -/
def runBuild (flags : BuildFlags) (args : List String) (env : Env) (cenv : CmdEnv)
    (w : World) : Outcome (Option GoError) × World :=
  let projectPath :=
    match args with
    | first :: _ => first
    | [] => flags.projectPath
  if !DirExists env cenv projectPath then
    (.returned (some (.errorf ("项目路径不存在: " ++ projectPath))), w)
  else
    match Abs env projectPath w with
    | ((_, some err), w) => (.returned (some (.wrap "获取项目绝对路径失败: " err)), w)
    | ((absProjectPath, none), w) =>
      let cfg :=
        match loadConfig env cenv flags.configFile with
        | (some cfg, none) => cfg
        | _ => GetDefaultConfig
      let named :=
        if cfg.Project.Name = "" ∨ cfg.Project.Name = "my-app" then
          GetProjectName env absProjectPath w
        else (cfg.Project.Name, w)
      let cfg := { cfg with Project := { cfg.Project with Name := named.1 } }
      match selectProjectType flags.buildType absProjectPath env named.2 with
      | ((_, some err), w) => (.returned (some err), w)
      | ((none, none), w) => (.panicked "nil pointer dereference", w)
      | ((some _projectType, none), w) =>
        let buildOptions : BuildOptions :=
          { ProjectPath := absProjectPath, Environment := "build",
            OutputPath := flags.outputPath, Version := flags.version,
            Verbose := flags.verbose, SkipTests := flags.skipTests }
        match BuildProject cfg buildOptions env w with
        | (.panicked msg, w) => (.panicked msg, w)
        | (.returned (_, some err), w) => (.returned (some err), w)
        | (.returned (none, none), w) => (.panicked "nil pointer dereference", w)
        | (.returned (some result, none), w) =>
          if result.Success then (.returned none, w)
          else (.returned (some (.errorf "构建失败")), w)

/-! ## internal/utils: FormatFileSize -/

/-- Conversion of an integer to Go `int64`: the value modulo `2^64`, taken in
the signed range. -/
def wrapInt64 (x : Int) : Int :=
  (x + 2 ^ 63) % 2 ^ 64 - 2 ^ 63

/-- The loop `for n := size / unit; n >= unit; n /= unit { div *= unit; exp++ }`
of `FormatFileSize`, entered with the current `n`, `div` and `exp`; it returns
the final `div` and `exp`. Go `/` on integers truncates toward zero, and the
product is an `int64`. -/
def formatLoop (n div : Int) (exp : Nat) : Int × Nat :=
  if 1024 ≤ n then formatLoop (n.tdiv 1024) (wrapInt64 (div * 1024)) (exp + 1)
  else (div, exp)
termination_by n.toNat
decreasing_by
  have h0 : (0 : Int) ≤ n := by omega
  have h1 : n.tdiv 1024 = n / 1024 := Int.tdiv_eq_ediv h0 (by decide)
  omega

/-- Function `FormatFileSize` of `internal/utils`. The text that
`fmt.Sprintf("%.1f", float64(size)/float64(div))` produces is given by
`sprintf1f size div`; indexing `"KMGTPE"` out of range panics. -/
def FormatFileSize (sprintf1f : Int → Int → String) (size : Int) : Outcome String :=
  if size < 1024 then .returned (toString size ++ " B")
  else
    match formatLoop (size.tdiv 1024) 1024 0 with
    | (div, exp) =>
      match "KMGTPE".data.get? exp with
      | none => .panicked ("index out of range [" ++ toString exp ++ "] with length 6")
      | some c => .returned (sprintf1f size div ++ " " ++ String.singleton c ++ "B")

/-! ## Specification vocabulary -/

/-- The substrings `MavenBuilder.selectMainJar` excludes. -/
def mavenExcluded : List String := ["sources", "javadoc", "tests"]

/-- The substrings `GradleBuilder.selectMainJar` excludes. -/
def gradleExcluded : List String := ["sources", "javadoc", "tests", "plain"]

/-- The base name of `path` contains none of the excluded substrings. -/
def isMainJar (excluded : List String) (path : String) : Prop :=
  ∀ s ∈ excluded, Contains (Base path) s = false

instance (excluded : List String) (path : String) : Decidable (isMainJar excluded path) := by
  unfold isMainJar
  infer_instance

def Builder.options : Builder → BuildOptions
  | .npm n => n.options
  | .maven m => m.options
  | .gradle g => g.options

/-- What the callers of a build may rely on when a call returns `(r, e)`:
a nil error comes with a result whose `Success` is true; a result that comes
with an error has `Success` false and a non-empty `Message`. -/
def consistentReturn (r : Option BuildResult) (e : Option GoError) : Prop :=
  (e = none → ∃ res, r = some res ∧ res.Success = true) ∧
  (e ≠ none → ∀ res, r = some res → res.Success = false ∧ res.Message ≠ "")

/-- The event records a call of a builder's `Build`. -/
def Event.isBuildCall : Event → Bool
  | .Build _ => true
  | _ => false

/-- The event records a call of `NewBuilder` or of a builder's method. -/
def Event.isBuilderCall : Event → Bool
  | .NewBuilder _ => true
  | .Validate _ => true
  | .Build _ => true
  | _ => false

/-- The output directory of a build: `options.OutputPath`, or `./build`. -/
def outputDirOf (options : BuildOptions) : String :=
  if options.OutputPath = "" then "./build" else options.OutputPath

/-- The version of an artifact: `options.Version`, or the time stamp. -/
def versionOf (options : BuildOptions) (env : Env) : String :=
  if options.Version = "" then env.now else options.Version

/-- The name `<project-name>-<version><ext>`. -/
def artifactFileName (config : Config) (version ext : String) : String :=
  config.Project.Name ++ "-" ++ version ++ ext

/-- The command strings a builder splits into words, to run the first word
with the others as arguments: the install and build commands of NPM, the
build command of Maven; Gradle indexes no word list. -/
def Builder.commands : Builder → List String
  | .npm n =>
    [if n.config.NPM.InstallCommand = "" then "npm ci" else n.config.NPM.InstallCommand,
     if n.config.NPM.BuildCommand = "" then "npm run build" else n.config.NPM.BuildCommand]
  | .maven m =>
    [if m.config.Java.BuildCommand = "" then
       if m.options.SkipTests then "mvn clean package -DskipTests" else "mvn clean package"
     else m.config.Java.BuildCommand]
  | .gradle _ => []

/-- The build directory of the NPM builder: `config.NPM.BuildDir`, or `dist`. -/
def npmBuildDir (n : NPMBuilder) : String :=
  if n.config.NPM.BuildDir = "" then "dist" else n.config.NPM.BuildDir

/-- The path of a walked entry relative to the build directory, as
`filepath.Rel` gives it. -/
def relName (buildDir : String) (env : Env) (e : WalkEntry) : String :=
  (env.rel buildDir e.path).1

/-- The archive writes of a walk that runs to its end: for each entry other
than the root a header named by the relative path, followed for a
non-directory by the content of the file. -/
def walkEvents (buildDir : String) (env : Env) : List WalkEntry → List Event
  | [] => []
  | e :: rest =>
    (if relName buildDir env e = "." then []
     else if e.IsDir then [Event.tarHeader (relName buildDir env e)]
     else [Event.tarHeader (relName buildDir env e),
           Event.tarData e.path (env.ioCopy e.path).1]) ++ walkEvents buildDir env rest

/-- The relative paths of the walked entries other than the root. -/
def walkNames (buildDir : String) (env : Env) (entries : List WalkEntry) : List String :=
  (entries.map (relName buildDir env)).filter (fun r => decide (r ≠ "."))

/-- The sum of the sizes `io.Copy` reports for the non-directory entries other
than the root. -/
def walkCopied (buildDir : String) (env : Env) : List WalkEntry → Int
  | [] => 0
  | e :: rest =>
    (if relName buildDir env e = "." ∨ e.IsDir = true then 0 else (env.ioCopy e.path).1) +
      walkCopied buildDir env rest

/-- The shape `YYYYMMDD-HHMMSS`: eight digits, a hyphen, six digits. -/
def isTimestamp (s : String) : Bool :=
  match s.data with
  | [y1, y2, y3, y4, m1, m2, d1, d2, '-', h1, h2, n1, n2, s1, s2] =>
    [y1, y2, y3, y4, m1, m2, d1, d2, h1, h2, n1, n2, s1, s2].all Char.isDigit
  | _ => false

/-- The walk runs to its end and meets no file whose name ends in `.jar`. -/
def noJarWalk (entries : List WalkEntry) : Prop :=
  ∀ e ∈ entries, e.err = none ∧ HasSuffix e.Name ".jar" = false

instance (entries : List WalkEntry) : Decidable (noJarWalk entries) := by
  unfold noJarWalk
  infer_instance

/-- The default command of the Maven builder. -/
def mavenDefaultCommand (skipTests : Bool) : List String :=
  if skipTests then ["mvn", "clean", "package", "-DskipTests"] else ["mvn", "clean", "package"]

/-- The default task list of the Gradle builder. -/
def gradleDefaultTasks (skipTests : Bool) : List String :=
  if skipTests then ["clean", "build", "-x", "test"] else ["clean", "build"]

/-- The configuration a builder was made with. -/
def Builder.config : Builder → Config
  | .npm n => n.config
  | .maven m => m.config
  | .gradle g => g.config

/-- The extension of the artifact a builder packages. -/
def Builder.artifactExt : Builder → String
  | .npm _ => ".tar.gz"
  | .maven _ => ".jar"
  | .gradle _ => ".jar"

/-- Whether a product `div * unit` of the loop of `FormatFileSize`, entered
with `n` and `div`, leaves the range of `int64`. -/
def formatLoopOverflows (n div : Int) : Bool :=
  if 1024 ≤ n then
    decide (div * 1024 < -(2 ^ 63) ∨ 2 ^ 63 ≤ div * 1024) ||
      formatLoopOverflows (n.tdiv 1024) (wrapInt64 (div * 1024))
  else false
termination_by n.toNat
decreasing_by
  have h0 : (0 : Int) ≤ n := by omega
  have h1 : n.tdiv 1024 = n / 1024 := Int.tdiv_eq_ediv h0 (by decide)
  omega

/-- A stand-in for `fmt.Sprintf("%.1f", ...)` that shows its two arguments. -/
def showRatio (size div : Int) : String :=
  toString size ++ "/" ++ toString div

/-- The calls of the deferred `tarWriter.Close()`, `gzWriter.Close()` and
`file.Close()` of NPM `packageArtifacts`, in the order they run. -/
def closeEvents (artifactPath : String) : List Event :=
  [.tarClose, .gzipClose, .fileClose artifactPath]

/-- The archive at `path` grows when its writers are closed: the tar trailer
and the rest of the gzip stream are written by the `Close` calls. -/
def growsOnClose (env : Env) (path : String) : Prop :=
  ∀ trace, Event.gzipClose ∉ trace →
    env.statSize path trace < env.statSize path (trace ++ closeEvents path)

/-- The first error a walk passes to its walk function. -/
def firstWalkError : List WalkEntry → Option GoError
  | [] => none
  | e :: rest =>
    match e.err with
    | some err => some err
    | none => firstWalkError rest

/-! ## Example inputs -/

/-- A directory whose entries cannot be examined: every `os.Stat` below it
fails with an error other than not-exist (the process may not search the
directory, or the path names a regular file). -/
def unreadableDir : FileSystem := fun _ => .otherErr

/-- The directory `/srv/app` holding a regular `pom.xml` and a `package.json`
that cannot be examined (a symbolic link whose target lies in a directory the
process may not search); nothing else exists. -/
def brokenManifestDir : FileSystem := fun path =>
  if path = "/srv/app/package.json" then .otherErr
  else if path = "/srv/app/pom.xml" then .ok
  else .notExist

/-- A configuration with project name `app` and no custom commands. -/
def sampleConfig : Config :=
  { Project := { Name := "app", Type' := "auto" },
    NPM := { BuildCommand := "", BuildDir := "", InstallCommand := "", NodeVersion := "" },
    Java := { BuildTool := "", BuildCommand := "", ArtifactPath := "", JavaVersion := "" } }

/-- Options for the project at `/srv/app` with the explicit version `1.0.0`. -/
def sampleOptions : BuildOptions :=
  { ProjectPath := "/srv/app", Environment := "build", OutputPath := "",
    Version := "1.0.0", Verbose := false, SkipTests := false }

/-- The process starts in `/home/dev` and has made no call yet. -/
def startWorld : World := { cwd := "/home/dev", trace := [] }

/-- An environment in which no file exists (a walk reports its missing root)
and every other call succeeds. -/
def emptyDirEnv : Env :=
  { stat := fun _ => .notExist
    statErr := fun _ => .external "no such file or directory"
    statSize := fun _ _ => 0
    getwd := none
    chdir := fun _ => none
    run := fun _ _ => none
    now := "20240102-030405"
    since := "1s"
    mkdirAll := fun _ => none
    create := fun _ => none
    open' := fun _ => none
    readFrom := fun _ _ => none
    walk := fun root =>
      [{ path := root, Name := "", IsDir := false, Size := 0,
         err := some (.external "lstat: no such file or directory") }]
    rel := fun _ _ => (".", none)
    fileInfoHeader := fun _ => none
    writeHeader := fun _ => none
    ioCopy := fun _ => (0, none) }

/-- The project at `/srv/app` has a `package.json`; `node` cannot be run. -/
def noNodeEnv : Env :=
  { emptyDirEnv with
    stat := fun path => if path = "/srv/app/package.json" then .ok else .notExist
    run := fun name _ =>
      if name = "node" then some (.external "executable file not found") else none }

/-- The project at `/srv/app` has a `package.json`; `npm ci` fails. -/
def installFailsEnv : Env :=
  { emptyDirEnv with
    stat := fun path => if path = "/srv/app/package.json" then .ok else .notExist
    run := fun name args =>
      if name = "npm" ∧ args = ["ci"] then some (.external "exit status 1") else none }

/-- The process cannot read its working directory. -/
def getwdFailsEnv : Env :=
  { emptyDirEnv with getwd := some (.external "getwd: no such file or directory") }

/-- As `emptyDirEnv`, but the `os.Chdir` back into `/home/dev` fails (the
directory was removed while the build ran). -/
def restoreFailsEnv : Env :=
  { emptyDirEnv with
    chdir := fun path =>
      if path = "/home/dev" then some (.external "chdir /home/dev: no such file or directory")
      else none }

/-- As `emptyDirEnv`, but the `os.Chdir` into the project directory `/srv/app`
fails. -/
def enterFailsEnv : Env :=
  { emptyDirEnv with
    chdir := fun path =>
      if path = "/srv/app" then some (.external "chdir /srv/app: permission denied")
      else none }

/-- A `target` directory holding `app-sources.jar` and `app.jar`; every call
succeeds, and the copied artifact has 2048 bytes. -/
def mavenTargetEnv : Env :=
  { emptyDirEnv with
    stat := fun path =>
      if path = "/srv/app/pom.xml" ∨ path = "build/app-1.0.0.jar" then .ok else .notExist
    statSize := fun _ _ => 2048
    walk := fun root =>
      if root = "target" then
        [{ path := "target", Name := "target", IsDir := true, Size := 0, err := none },
         { path := "target/app-sources.jar", Name := "app-sources.jar", IsDir := false,
           Size := 512, err := none },
         { path := "target/app.jar", Name := "app.jar", IsDir := false, Size := 2048,
           err := none }]
      else [] }

/-- The environment `mavenTargetEnv` at a later time. -/
def mavenTargetLaterEnv : Env :=
  { mavenTargetEnv with now := "20250607-080910", since := "2m3s" }

/-- The result of `filepath.Rel("dist", path)` for the paths of a walk of
`dist`. -/
def distRel (basepath targpath : String) : String × Option GoError :=
  if basepath = "dist" ∧ targpath = "dist" then (".", none)
  else if basepath = "dist" ∧ targpath = "dist/assets" then ("assets", none)
  else if basepath = "dist" ∧ targpath = "dist/assets/app.js" then ("assets/app.js", none)
  else if basepath = "dist" ∧ targpath = "dist/index.html" then ("index.html", none)
  else ("", some (.external "Rel: can't make path relative"))

/-- The project at `/srv/app` has a `package.json` and, after the build, a
`dist` directory holding `index.html` (300 bytes) and `assets/app.js` (120
bytes); every call succeeds, and the `os.Stat` of the new archive reports 257
bytes. -/
def distEnv : Env :=
  { emptyDirEnv with
    stat := fun path =>
      if path = "/srv/app/package.json" ∨ path = "dist" ∨ path = "build/app-1.0.0.tar.gz"
      then .ok else .notExist
    statSize := fun _ _ => 257
    rel := distRel
    ioCopy := fun path =>
      if path = "dist/index.html" then (300, none)
      else if path = "dist/assets/app.js" then (120, none)
      else (0, none)
    walk := fun root =>
      if root = "dist" then
        [{ path := "dist", Name := "dist", IsDir := true, Size := 4096, err := none },
         { path := "dist/assets", Name := "assets", IsDir := true, Size := 4096, err := none },
         { path := "dist/assets/app.js", Name := "app.js", IsDir := false, Size := 120,
           err := none },
         { path := "dist/index.html", Name := "index.html", IsDir := false, Size := 300,
           err := none }]
      else [] }

/-- As `distEnv`, with `dist` holding the single file `index.html`. -/
def singleFileEnv : Env :=
  { distEnv with
    walk := fun root =>
      if root = "dist" then
        [{ path := "dist", Name := "dist", IsDir := true, Size := 4096, err := none },
         { path := "dist/index.html", Name := "index.html", IsDir := false, Size := 300,
           err := none }]
      else [] }

/-- As `distEnv`, but the `os.Stat` of the new archive fails. -/
def distNoStatEnv : Env :=
  { distEnv with
    stat := fun path =>
      if path = "/srv/app/package.json" ∨ path = "dist" then .ok else .notExist }

/-- Options for the project at `/srv/app` with no version and no output
directory given. -/
def plainOptions : BuildOptions :=
  { ProjectPath := "/srv/app", Environment := "build", OutputPath := "",
    Version := "", Verbose := false, SkipTests := false }

/-- The project at `/srv/app` has a `pom.xml` and a `build.gradle`; the build
tools run, and the output directories `target` and `build/libs` hold no JAR. -/
def noJarEnv : Env :=
  { emptyDirEnv with
    stat := fun path =>
      if path = "/srv/app/pom.xml" ∨ path = "/srv/app/build.gradle" then .ok else .notExist
    walk := fun root =>
      if root = "target" then
        [{ path := "target", Name := "target", IsDir := true, Size := 4096, err := none },
         { path := "target/classes", Name := "classes", IsDir := true, Size := 4096,
           err := none }]
      else if root = "build/libs" then
        [{ path := "build/libs", Name := "libs", IsDir := true, Size := 4096, err := none }]
      else [] }

/-- A configuration for the Gradle tool whose build command is the single
word `gradlew`. -/
def oneWordGradleConfig : Config :=
  { sampleConfig with
    Java := { BuildTool := "gradle", BuildCommand := "gradlew", ArtifactPath := "",
              JavaVersion := "" } }

/-- A configuration for the Gradle tool with the build command
`./gradlew assemble`. -/
def gradleToolConfig : Config :=
  { sampleConfig with
    Java := { BuildTool := "gradle", BuildCommand := "./gradlew assemble", ArtifactPath := "",
              JavaVersion := "" } }

/-- A configuration for the Maven tool with the build command
`mvn -B verify`. -/
def mavenToolConfig : Config :=
  { sampleConfig with
    Java := { BuildTool := "maven", BuildCommand := "mvn -B verify", ArtifactPath := "",
              JavaVersion := "" } }

/-- The build tools run, and nothing below `/srv/app` can be examined: every
`os.Stat` fails with an error other than not-exist. -/
def unreadableManifestEnv : Env :=
  { emptyDirEnv with stat := unreadableDir }

/-- The directory `/srv/app` holds a `package.json` and a `pom.xml`; every
call succeeds. -/
def bothMarkersEnv : Env :=
  { emptyDirEnv with
    stat := fun path =>
      if path = "/srv/app" ∨ path = "/srv/app/package.json" ∨ path = "/srv/app/pom.xml"
      then .ok else .notExist }

/-- Every path that exists is a directory, and there is no configuration file
to read. -/
def plainCmdEnv : CmdEnv :=
  { isDir := fun _ => true
    readInConfig := fun _ => none
    unmarshal := fun _ => (GetDefaultConfig, none) }

/-- The flags of `deploy build --type=maven --path=/srv/app`. -/
def mavenTypeFlags : BuildFlags :=
  { defaultFlags with buildType := "maven", projectPath := "/srv/app" }

/-- The directory `/srv/app` in which `package.json` cannot be examined (its
`os.Stat` fails with an error other than not-exist) and nothing else exists. -/
def unreadablePackageDir : FileSystem := fun path =>
  if path = "/srv/app/package.json" then .otherErr else .notExist

/-- The directory `/srv/app` in which `pom.xml` cannot be examined and nothing
else exists. -/
def unreadablePomDir : FileSystem := fun path =>
  if path = "/srv/app/pom.xml" then .otherErr else .notExist

/-- A configuration whose NPM install command consists of three spaces. -/
def blankInstallConfig : Config :=
  { sampleConfig with
    NPM := { BuildCommand := "", BuildDir := "", InstallCommand := "   ", NodeVersion := "" } }

/-- A configuration whose NPM build command consists of a tab and a space. -/
def blankBuildConfig : Config :=
  { sampleConfig with
    NPM := { BuildCommand := "\t ", BuildDir := "", InstallCommand := "", NodeVersion := "" } }

/-- A configuration whose Java build command consists of one space. -/
def blankJavaConfig : Config :=
  { sampleConfig with
    Java := { BuildTool := "maven", BuildCommand := " ", ArtifactPath := "",
              JavaVersion := "" } }

/-- The project at `/srv/app` has a `build.gradle` and a `gradlew` that
cannot be run (for example a wrapper script whose interpreter or JAR is
missing); the system `gradle` runs. -/
def brokenWrapperEnv : Env :=
  { emptyDirEnv with
    stat := fun path =>
      if path = "/srv/app/build.gradle" ∨ path = "/srv/app/gradlew" then .ok else .notExist
    run := fun name _ =>
      if name = "/srv/app/gradlew" then some (.external "exit status 1") else none }

/-- As `distEnv`, with the size of a file that is being written: `os.Stat`
reports 10 bytes (the gzip header) for the archive while the gzip writer is
open, and 173 bytes once the gzip writer is closed. -/
def archiveEnv : Env :=
  { distEnv with
    statSize := fun _ trace => if Event.gzipClose ∈ trace then 173 else 10 }

/-! # Theorems -/

/-! ## Detection: case analysis -/

theorem DetectProject_npm (fs : FileSystem) (p : String)
    (h : fs (Join (detectPath p) "package.json") ≠ .notExist) :
    DetectProject fs p =
      (some { Type' := ProjectTypeNPM, Name := Base (detectPath p), Version := "",
              BuildCommand := "npm run build", ArtifactPath := "dist" }, none) := by
  simp [DetectProject, detectNPMProject, h]

theorem DetectProject_maven (fs : FileSystem) (p : String)
    (h1 : fs (Join (detectPath p) "package.json") = .notExist)
    (h2 : fs (Join (detectPath p) "pom.xml") ≠ .notExist) :
    DetectProject fs p =
      (some { Type' := ProjectTypeMaven, Name := Base (detectPath p), Version := "",
              BuildCommand := "mvn clean package -DskipTests",
              ArtifactPath := "target/*.jar" }, none) := by
  simp [DetectProject, detectNPMProject, detectMavenProject, h1, h2]

theorem DetectProject_gradle (fs : FileSystem) (p : String)
    (h1 : fs (Join (detectPath p) "package.json") = .notExist)
    (h2 : fs (Join (detectPath p) "pom.xml") = .notExist)
    (h3 : fs (Join (detectPath p) "build.gradle") = .ok ∨
      fs (Join (detectPath p) "build.gradle.kts") = .ok) :
    DetectProject fs p =
      (some { Type' := ProjectTypeGradle, Name := Base (detectPath p), Version := "",
              BuildCommand := "./gradlew build",
              ArtifactPath := "build/libs/*.jar" }, none) := by
  have h3' : ¬ (fs (Join (detectPath p) "build.gradle") ≠ .ok ∧
      fs (Join (detectPath p) "build.gradle.kts") ≠ .ok) := by
    rintro ⟨a, b⟩
    rcases h3 with h | h
    · exact a h
    · exact b h
  simp [DetectProject, detectNPMProject, detectMavenProject, detectGradleProject, h1, h2, h3']

theorem DetectProject_unknown (fs : FileSystem) (p : String)
    (h1 : fs (Join (detectPath p) "package.json") = .notExist)
    (h2 : fs (Join (detectPath p) "pom.xml") = .notExist)
    (h3 : fs (Join (detectPath p) "build.gradle") ≠ .ok)
    (h4 : fs (Join (detectPath p) "build.gradle.kts") ≠ .ok) :
    DetectProject fs p =
      (some { Type' := ProjectTypeUnknown, Name := Base (detectPath p), Version := "",
              BuildCommand := "", ArtifactPath := "" },
       some (.errorf "无法识别项目类型")) := by
  simp [DetectProject, detectNPMProject, detectMavenProject, detectGradleProject, h1, h2, h3, h4]

/-- C1, evaluated at a failing input. In a directory whose entries cannot be
examined none of the four marker files exists (`FileExists` is false for each,
and so are the three predicates `IsNPMProject`, `IsMavenProject`,
`IsGradleProject`), yet `DetectProject` returns type npm with a nil error
instead of type unknown with an error. -/
theorem DetectProject_unreadableDir_npm :
    (∀ marker ∈ ["package.json", "pom.xml", "build.gradle", "build.gradle.kts"],
      FileExists unreadableDir (Join "/srv/app" marker) = false) ∧
    IsNPMProject unreadableDir "/srv/app" = false ∧
    IsMavenProject unreadableDir "/srv/app" = false ∧
    IsGradleProject unreadableDir "/srv/app" = false ∧
    DetectProject unreadableDir "/srv/app" =
      (some { Type' := ProjectTypeNPM, Name := "app", Version := "",
              BuildCommand := "npm run build", ArtifactPath := "dist" }, none) := by
  decide

/-- C2, evaluated at a failing input. With `package.json` absent for
`FileExists` and `IsNPMProject` (its `os.Stat` fails, with an error other than
not-exist) and `pom.xml` present, `DetectProject` returns npm, not maven. -/
theorem DetectProject_brokenManifestDir_npm :
    FileExists brokenManifestDir (Join "/srv/app" "package.json") = false ∧
    FileExists brokenManifestDir (Join "/srv/app" "pom.xml") = true ∧
    IsNPMProject brokenManifestDir "/srv/app" = false ∧
    IsMavenProject brokenManifestDir "/srv/app" = true ∧
    detectedType (DetectProject brokenManifestDir "/srv/app") = some ProjectTypeNPM ∧
    (DetectProject brokenManifestDir "/srv/app").2 = none := by
  decide

/-! ## Selection of the main JAR -/

theorem maven_test_iff (jar : String) :
    (!Contains (Base jar) "sources" && !Contains (Base jar) "javadoc" &&
      !Contains (Base jar) "tests") = true ↔ isMainJar mavenExcluded jar := by
  simp [isMainJar, mavenExcluded, and_assoc]

theorem gradle_test_iff (jar : String) :
    (!Contains (Base jar) "sources" && !Contains (Base jar) "javadoc" &&
      !Contains (Base jar) "tests" && !Contains (Base jar) "plain") = true ↔
      isMainJar gradleExcluded jar := by
  simp [isMainJar, gradleExcluded, and_assoc]

theorem maven_selectLoop_first (jars : List String) (i : Nat) (hi : i < jars.length)
    (hmain : isMainJar mavenExcluded (jars.get ⟨i, hi⟩))
    (hbefore : ∀ k (hk : k < i), ¬ isMainJar mavenExcluded (jars.get ⟨k, hk.trans hi⟩)) :
    MavenBuilder.selectLoop jars = some (jars.get ⟨i, hi⟩) := by
  induction jars generalizing i with
  | nil => simp at hi
  | cons jar rest ih =>
    cases i with
    | zero =>
      have h := (maven_test_iff jar).2 hmain
      simp only [MavenBuilder.selectLoop, h]
      simp
    | succ j =>
      have h0 : ¬ isMainJar mavenExcluded jar := hbefore 0 (Nat.succ_pos j)
      have h := mt (maven_test_iff jar).1 h0
      simp only [MavenBuilder.selectLoop, h]
      simp only [List.length_cons, Nat.succ_lt_succ_iff] at hi
      have := ih j hi hmain (fun k hk => hbefore (k + 1) (Nat.succ_lt_succ hk))
      simpa using this

theorem gradle_selectLoop_first (jars : List String) (i : Nat) (hi : i < jars.length)
    (hmain : isMainJar gradleExcluded (jars.get ⟨i, hi⟩))
    (hbefore : ∀ k (hk : k < i), ¬ isMainJar gradleExcluded (jars.get ⟨k, hk.trans hi⟩)) :
    GradleBuilder.selectLoop jars = some (jars.get ⟨i, hi⟩) := by
  induction jars generalizing i with
  | nil => simp at hi
  | cons jar rest ih =>
    cases i with
    | zero =>
      have h := (gradle_test_iff jar).2 hmain
      simp only [GradleBuilder.selectLoop, h]
      simp
    | succ j =>
      have h0 : ¬ isMainJar gradleExcluded jar := hbefore 0 (Nat.succ_pos j)
      have h := mt (gradle_test_iff jar).1 h0
      simp only [GradleBuilder.selectLoop, h]
      simp only [List.length_cons, Nat.succ_lt_succ_iff] at hi
      have := ih j hi hmain (fun k hk => hbefore (k + 1) (Nat.succ_lt_succ hk))
      simpa using this

theorem maven_selectLoop_none (jars : List String)
    (h : ∀ p ∈ jars, ¬ isMainJar mavenExcluded p) : MavenBuilder.selectLoop jars = none := by
  induction jars with
  | nil => rfl
  | cons jar rest ih =>
    have h0 := mt (maven_test_iff jar).1 (h jar (List.mem_cons_self _ _))
    simp only [MavenBuilder.selectLoop, h0]
    exact ih (fun p hp => h p (List.mem_cons_of_mem _ hp))

theorem gradle_selectLoop_none (jars : List String)
    (h : ∀ p ∈ jars, ¬ isMainJar gradleExcluded p) : GradleBuilder.selectLoop jars = none := by
  induction jars with
  | nil => rfl
  | cons jar rest ih =>
    have h0 := mt (gradle_test_iff jar).1 (h jar (List.mem_cons_self _ _))
    simp only [GradleBuilder.selectLoop, h0]
    exact ih (fun p hp => h p (List.mem_cons_of_mem _ hp))

theorem maven_selectLoop_mem (jars : List String) (j : String)
    (h : MavenBuilder.selectLoop jars = some j) : j ∈ jars := by
  induction jars with
  | nil => simp [MavenBuilder.selectLoop] at h
  | cons jar rest ih =>
    simp only [MavenBuilder.selectLoop] at h
    split at h
    · simp only [Option.some.injEq] at h
      simp [h]
    · exact List.mem_cons_of_mem _ (ih h)

theorem gradle_selectLoop_mem (jars : List String) (j : String)
    (h : GradleBuilder.selectLoop jars = some j) : j ∈ jars := by
  induction jars with
  | nil => simp [GradleBuilder.selectLoop] at h
  | cons jar rest ih =>
    simp only [GradleBuilder.selectLoop] at h
    split at h
    · simp only [Option.some.injEq] at h
      simp [h]
    · exact List.mem_cons_of_mem _ (ih h)

theorem maven_selectMainJar_mem (jars : List String) (h : jars ≠ []) :
    MavenBuilder.selectMainJar jars ∈ jars := by
  unfold MavenBuilder.selectMainJar
  cases hl : MavenBuilder.selectLoop jars with
  | some j => exact maven_selectLoop_mem jars j hl
  | none =>
    cases jars with
    | nil => exact absurd rfl h
    | cons a t => simp

theorem gradle_selectMainJar_mem (jars : List String) (h : jars ≠ []) :
    GradleBuilder.selectMainJar jars ∈ jars := by
  unfold GradleBuilder.selectMainJar
  cases hl : GradleBuilder.selectLoop jars with
  | some j => exact gradle_selectLoop_mem jars j hl
  | none =>
    cases jars with
    | nil => exact absurd rfl h
    | cons a t => simp

/-! ### The base name drops the directory part -/

theorem takeWhile_append_stop {α : Type} (p : α → Bool) (l r : List α) (a : α)
    (hl : ∀ x ∈ l, p x = true) (ha : p a = false) :
    (l ++ a :: r).takeWhile p = l := by
  induction l with
  | nil => simp [List.takeWhile, ha]
  | cons x xs ih =>
    have hx : p x = true := hl x (List.mem_cons_self _ _)
    have ih' := ih (fun y hy => hl y (List.mem_cons_of_mem _ hy))
    simp [List.takeWhile_cons, hx, ih']

theorem dropWhile_of_head_false {α : Type} (p : α → Bool) (l : List α)
    (h : ∀ x, l.head? = some x → p x = false) : l.dropWhile p = l := by
  cases l with
  | nil => rfl
  | cons x xs =>
    have hx : p x = false := h x rfl
    simp [List.dropWhile, hx]

theorem Base_dir_name (dir name : String) (hne : name ≠ "")
    (hsl : '/' ∉ name.data) : Base (dir ++ "/" ++ name) = name := by
  have hdata : (dir ++ "/" ++ name).data = dir.data ++ '/' :: name.data := by
    simp [String.data_append]
  have hnd : name.data ≠ [] := by
    intro h
    apply hne
    cases name
    simp_all
  have hpath : dir ++ "/" ++ name ≠ "" := by
    intro h
    have := congrArg String.data h
    rw [hdata] at this
    simp at this
  have hrev : (dir.data ++ '/' :: name.data).reverse =
      name.data.reverse ++ '/' :: dir.data.reverse := by simp
  have hstrip : stripTrailingSlashes (dir.data ++ '/' :: name.data) =
      dir.data ++ '/' :: name.data := by
    unfold stripTrailingSlashes
    rw [dropWhile_of_head_false]
    · simp
    · intro x hx
      rw [hrev] at hx
      have hx' : name.data.reverse.head? = some x := by
        cases hr : name.data.reverse with
        | nil => simp at hr; exact absurd hr hnd
        | cons y ys => rw [hr] at hx; simpa using hx
      have hmem : x ∈ name.data := by
        have := List.mem_of_mem_head? hx'
        simpa using this
      have : x ≠ '/' := fun hxe => hsl (hxe ▸ hmem)
      simpa using this
  have hlast : lastElement (dir.data ++ '/' :: name.data) = name.data := by
    unfold lastElement
    rw [hrev, takeWhile_append_stop]
    · simp
    · intro x hx
      have hmem : x ∈ name.data := by simpa using hx
      have : x ≠ '/' := fun hxe => hsl (hxe ▸ hmem)
      simpa using this
    · simp
  unfold Base
  rw [if_neg hpath, hdata, hstrip, hlast]
  simp [hnd]

theorem isMainJar_dir_name (excluded : List String) (dir name : String) (hne : name ≠ "")
    (hsl : '/' ∉ name.data) :
    isMainJar excluded (dir ++ "/" ++ name) ↔ ∀ s ∈ excluded, Contains name s = false := by
  unfold isMainJar
  rw [Base_dir_name dir name hne hsl]

/-- C3. `selectMainJar` (Maven and Gradle) returns the first element, in list
order, whose base name contains none of the builder's excluded substrings,
whenever there is one: at position `i` when the base name at `i` passes and no
earlier base name does. For `[app-sources.jar, app-tests.jar, app.jar]` it
returns `app.jar`. The test reads the base name only: for a path
`dir/name` it is the test on `name`, whatever `dir` is. -/
theorem selectMainJar_first_main :
    (∀ (jars : List String) (i : Nat) (hi : i < jars.length),
      (isMainJar mavenExcluded (jars.get ⟨i, hi⟩) →
        (∀ k (hk : k < i), ¬ isMainJar mavenExcluded (jars.get ⟨k, hk.trans hi⟩)) →
        MavenBuilder.selectMainJar jars = jars.get ⟨i, hi⟩) ∧
      (isMainJar gradleExcluded (jars.get ⟨i, hi⟩) →
        (∀ k (hk : k < i), ¬ isMainJar gradleExcluded (jars.get ⟨k, hk.trans hi⟩)) →
        GradleBuilder.selectMainJar jars = jars.get ⟨i, hi⟩)) ∧
    (MavenBuilder.selectMainJar ["app-sources.jar", "app-tests.jar", "app.jar"] = "app.jar" ∧
      GradleBuilder.selectMainJar ["app-sources.jar", "app-tests.jar", "app.jar"] = "app.jar") ∧
    (∀ dir name : String, name ≠ "" → '/' ∉ name.data →
      (isMainJar mavenExcluded (dir ++ "/" ++ name) ↔
        ∀ s ∈ mavenExcluded, Contains name s = false) ∧
      (isMainJar gradleExcluded (dir ++ "/" ++ name) ↔
        ∀ s ∈ gradleExcluded, Contains name s = false)) := by
  refine ⟨fun jars i hi => ⟨fun hmain hbefore => ?_, fun hmain hbefore => ?_⟩,
    ⟨by decide, by decide⟩, fun dir name hne hsl => ⟨?_, ?_⟩⟩
  · simp only [MavenBuilder.selectMainJar, maven_selectLoop_first jars i hi hmain hbefore]
  · simp only [GradleBuilder.selectMainJar, gradle_selectLoop_first jars i hi hmain hbefore]
  · exact isMainJar_dir_name mavenExcluded dir name hne hsl
  · exact isMainJar_dir_name gradleExcluded dir name hne hsl

/-- Witness for C3: in `[sources/app-sources.jar, tests/app.jar]` the second
path is chosen, although its directory is named `tests`. -/
theorem selectMainJar_first_main_witness :
    isMainJar mavenExcluded "tests/app.jar" ∧
    ¬ isMainJar mavenExcluded "sources/app-sources.jar" ∧
    MavenBuilder.selectMainJar ["sources/app-sources.jar", "tests/app.jar"] = "tests/app.jar" :=
  ⟨by decide, by decide,
    (selectMainJar_first_main.1 ["sources/app-sources.jar", "tests/app.jar"] 1
      (by decide)).1 (by decide)
      (fun k hk => by
        have hk0 : k = 0 := by omega
        subst hk0
        show ¬ isMainJar mavenExcluded "sources/app-sources.jar"
        decide)⟩

/-- C4. For a non-empty list in which every base name contains an excluded
substring, `selectMainJar` (Maven and Gradle) returns the first element; for
every non-empty list the result is a member of the list; and, candidate paths
being non-empty strings, the result is the empty string exactly for the empty
list. -/
theorem selectMainJar_fallback (jars : List String) :
    ((jars ≠ [] → (∀ p ∈ jars, ¬ isMainJar mavenExcluded p) →
        jars.head? = some (MavenBuilder.selectMainJar jars)) ∧
      (jars ≠ [] → MavenBuilder.selectMainJar jars ∈ jars) ∧
      ((∀ p ∈ jars, p ≠ "") → (MavenBuilder.selectMainJar jars = "" ↔ jars = []))) ∧
    ((jars ≠ [] → (∀ p ∈ jars, ¬ isMainJar gradleExcluded p) →
        jars.head? = some (GradleBuilder.selectMainJar jars)) ∧
      (jars ≠ [] → GradleBuilder.selectMainJar jars ∈ jars) ∧
      ((∀ p ∈ jars, p ≠ "") → (GradleBuilder.selectMainJar jars = "" ↔ jars = []))) := by
  refine ⟨⟨fun hne hall => ?_, maven_selectMainJar_mem jars, fun hp => ⟨fun h => ?_, fun h => ?_⟩⟩,
    ⟨fun hne hall => ?_, gradle_selectMainJar_mem jars, fun hp => ⟨fun h => ?_, fun h => ?_⟩⟩⟩
  · cases jars with
    | nil => exact absurd rfl hne
    | cons a t => simp [MavenBuilder.selectMainJar, maven_selectLoop_none _ hall]
  · by_contra hne
    exact hp _ (maven_selectMainJar_mem jars hne) h
  · subst h
    rfl
  · cases jars with
    | nil => exact absurd rfl hne
    | cons a t => simp [GradleBuilder.selectMainJar, gradle_selectLoop_none _ hall]
  · by_contra hne
    exact hp _ (gradle_selectMainJar_mem jars hne) h
  · subst h
    rfl

/-- Witness for C4: the single candidate `app-sources.jar` is returned. -/
theorem selectMainJar_fallback_witness :
    MavenBuilder.selectMainJar ["app-sources.jar"] = "app-sources.jar" ∧
    GradleBuilder.selectMainJar ["app-plain.jar", "app-sources.jar"] = "app-plain.jar" :=
  ⟨(Option.some.inj ((selectMainJar_fallback ["app-sources.jar"]).1.1 (by decide)
      (by decide))).symm,
   (Option.some.inj ((selectMainJar_fallback ["app-plain.jar", "app-sources.jar"]).2.1
      (by decide) (by decide))).symm⟩

/-! ## What a build returns -/

theorem append_ne_empty (s t : String) (h : s ≠ "") : s ++ t ≠ "" := by
  intro hst
  apply h
  have hd : (s ++ t).data = [] := by rw [hst]
  rw [String.data_append] at hd
  have hs : s.data = [] := (List.append_eq_nil.1 hd).1
  cases s
  simp_all

theorem failedResult_shape (pre msg : String) (h : pre ≠ "") :
    (failedResult (pre ++ msg)).Success = false ∧ (failedResult (pre ++ msg)).Message ≠ "" :=
  ⟨rfl, append_ne_empty pre msg h⟩

theorem NPM_buildBody_shape (n : NPMBuilder) (env : Env) (w : World)
    (r : Option BuildResult) (e : Option GoError)
    (h : (n.buildBody env w).1 = .returned (r, e)) :
    (e = none → ∃ res, r = some res ∧ res.Success = true) ∧
    (e ≠ none → (r = none ↔ env.chdir n.options.ProjectPath ≠ none) ∧
      ∀ res, r = some res → res.Success = false ∧ res.Message ≠ "") := by
  unfold NPMBuilder.buildBody osChdir at h
  cases hc : env.chdir n.options.ProjectPath with
  | some ce =>
    simp only [hc] at h
    simp only [Outcome.returned.injEq, Prod.mk.injEq] at h
    obtain ⟨rfl, rfl⟩ := h
    simp
  | none =>
    simp only [hc] at h
    split at h
    · simp at h
    · simp only [Outcome.returned.injEq, Prod.mk.injEq] at h
      obtain ⟨rfl, rfl⟩ := h
      simp [failedResult, append_ne_empty]
    · split at h
      · simp at h
      · simp only [Outcome.returned.injEq, Prod.mk.injEq] at h
        obtain ⟨rfl, rfl⟩ := h
        simp [failedResult, append_ne_empty]
      · split at h
        · simp only [Outcome.returned.injEq, Prod.mk.injEq] at h
          obtain ⟨rfl, rfl⟩ := h
          simp [failedResult, append_ne_empty]
        · simp only [Outcome.returned.injEq, Prod.mk.injEq] at h
          obtain ⟨rfl, rfl⟩ := h
          simp

theorem packagedResult_shape (options : BuildOptions) (env : Env) (p : Packaged)
    (r : Option BuildResult) (e : Option GoError)
    (h : packagedResult options env p = (r, e)) :
    (e = none → ∃ res, r = some res ∧ res.Success = true) ∧
    (e ≠ none → r ≠ none ∧ ∀ res, r = some res → res.Success = false ∧ res.Message ≠ "") := by
  unfold packagedResult at h
  split at h
  · simp only [Prod.mk.injEq] at h
    obtain ⟨rfl, rfl⟩ := h
    simp [failedResult, append_ne_empty]
  · simp only [Prod.mk.injEq] at h
    obtain ⟨rfl, rfl⟩ := h
    simp

theorem Maven_buildBody_shape (m : MavenBuilder) (env : Env) (w : World)
    (r : Option BuildResult) (e : Option GoError)
    (h : (m.buildBody env w).1 = .returned (r, e)) :
    (e = none → ∃ res, r = some res ∧ res.Success = true) ∧
    (e ≠ none → (r = none ↔ env.chdir m.options.ProjectPath ≠ none) ∧
      ∀ res, r = some res → res.Success = false ∧ res.Message ≠ "") := by
  unfold MavenBuilder.buildBody osChdir at h
  cases hc : env.chdir m.options.ProjectPath with
  | some ce =>
    simp only [hc] at h
    simp only [Outcome.returned.injEq, Prod.mk.injEq] at h
    obtain ⟨rfl, rfl⟩ := h
    simp
  | none =>
    simp only [hc] at h
    split at h
    · simp at h
    · simp only [Outcome.returned.injEq, Prod.mk.injEq] at h
      obtain ⟨rfl, rfl⟩ := h
      simp [failedResult, append_ne_empty]
    · simp only [Outcome.returned.injEq] at h
      have hs := packagedResult_shape _ _ _ r e h
      refine ⟨hs.1, fun he => ⟨?_, (hs.2 he).2⟩⟩
      simp [(hs.2 he).1]

theorem Gradle_buildBody_shape (g : GradleBuilder) (env : Env) (w : World)
    (r : Option BuildResult) (e : Option GoError)
    (h : (g.buildBody env w).1 = .returned (r, e)) :
    (e = none → ∃ res, r = some res ∧ res.Success = true) ∧
    (e ≠ none → (r = none ↔ env.chdir g.options.ProjectPath ≠ none) ∧
      ∀ res, r = some res → res.Success = false ∧ res.Message ≠ "") := by
  unfold GradleBuilder.buildBody osChdir at h
  cases hc : env.chdir g.options.ProjectPath with
  | some ce =>
    simp only [hc] at h
    simp only [Outcome.returned.injEq, Prod.mk.injEq] at h
    obtain ⟨rfl, rfl⟩ := h
    simp
  | none =>
    simp only [hc] at h
    split at h
    · simp only [Outcome.returned.injEq, Prod.mk.injEq] at h
      obtain ⟨rfl, rfl⟩ := h
      simp [failedResult, append_ne_empty]
    · simp only [Outcome.returned.injEq] at h
      have hs := packagedResult_shape _ _ _ r e h
      refine ⟨hs.1, fun he => ⟨?_, (hs.2 he).2⟩⟩
      simp [(hs.2 he).1]

/-- What `Build` of any builder returns: with a nil error a successful result;
with an error either no result (exactly when `os.Getwd` or the `os.Chdir` into
the project directory failed) or a result with `Success` false and a message. -/
theorem Build_shape (b : Builder) (env : Env) (w : World)
    (r : Option BuildResult) (e : Option GoError)
    (h : (b.Build env w).1 = .returned (r, e)) :
    (e = none → ∃ res, r = some res ∧ res.Success = true) ∧
    (e ≠ none →
      (r = none ↔ (env.getwd ≠ none ∨ env.chdir b.options.ProjectPath ≠ none)) ∧
      ∀ res, r = some res → res.Success = false ∧ res.Message ≠ "") := by
  cases b with
  | npm n =>
    simp only [Builder.Build, NPMBuilder.Build, Builder.options] at h ⊢
    cases hg : env.getwd with
    | some ge =>
      simp only [hg, Outcome.returned.injEq, Prod.mk.injEq] at h
      obtain ⟨rfl, rfl⟩ := h
      simp
    | none =>
      simp only [hg] at h
      have hs := NPM_buildBody_shape n env _ r e h
      refine ⟨hs.1, fun he => ⟨?_, (hs.2 he).2⟩⟩
      simp [(hs.2 he).1]
  | maven m =>
    simp only [Builder.Build, MavenBuilder.Build, Builder.options] at h ⊢
    cases hg : env.getwd with
    | some ge =>
      simp only [hg, Outcome.returned.injEq, Prod.mk.injEq] at h
      obtain ⟨rfl, rfl⟩ := h
      simp
    | none =>
      simp only [hg] at h
      have hs := Maven_buildBody_shape m env _ r e h
      refine ⟨hs.1, fun he => ⟨?_, (hs.2 he).2⟩⟩
      simp [(hs.2 he).1]
  | gradle g =>
    simp only [Builder.Build, GradleBuilder.Build, Builder.options] at h ⊢
    cases hg : env.getwd with
    | some ge =>
      simp only [hg, Outcome.returned.injEq, Prod.mk.injEq] at h
      obtain ⟨rfl, rfl⟩ := h
      simp
    | none =>
      simp only [hg] at h
      have hs := Gradle_buildBody_shape g env _ r e h
      refine ⟨hs.1, fun he => ⟨?_, (hs.2 he).2⟩⟩
      simp [(hs.2 he).1]

/-! ## The coordinator, phase by phase -/

theorem BuildProject_detect_fail (config : Config) (options : BuildOptions) (env : Env)
    (w : World) (info : Option ProjectInfo) (err : GoError)
    (hd : DetectProject env.stat options.ProjectPath = (info, some err)) :
    BuildProject config options env w =
      (.returned (none, some err), w.record (.DetectProject options.ProjectPath)) := by
  simp [BuildProject, hd]

theorem BuildProject_validate_fail (config : Config) (options : BuildOptions) (env : Env)
    (w w' : World) (info : ProjectInfo) (b : Builder) (err : GoError)
    (hd : DetectProject env.stat options.ProjectPath = (some info, none))
    (hn : NewBuilder info.Type' config options = (some b, none))
    (hv : b.Validate env
      (((w.record (.DetectProject options.ProjectPath)).record (.NewBuilder info.Type')).record
        (.Validate b.GetType)) = (some err, w')) :
    BuildProject config options env w = (.returned (none, some err), w') := by
  simp [BuildProject, hd, hn, hv]

theorem BuildProject_build (config : Config) (options : BuildOptions) (env : Env)
    (w w' : World) (info : ProjectInfo) (b : Builder)
    (hd : DetectProject env.stat options.ProjectPath = (some info, none))
    (hn : NewBuilder info.Type' config options = (some b, none))
    (hv : b.Validate env
      (((w.record (.DetectProject options.ProjectPath)).record (.NewBuilder info.Type')).record
        (.Validate b.GetType)) = (none, w')) :
    BuildProject config options env w = b.Build env (w'.record (.Build b.GetType)) := by
  simp [BuildProject, hd, hn, hv]

theorem Validate_no_build_call (b : Builder) (env : Env) (w : World) :
    (b.Validate env w).2.trace.filter Event.isBuildCall =
      w.trace.filter Event.isBuildCall := by
  cases b with
  | npm n =>
    simp only [Builder.Validate, NPMBuilder.Validate, NPMBuilder.checkNodeJS,
      NPMBuilder.checkNPM, execCommand]
    cases env.run "node" ["--version"] <;> cases env.run "npm" ["--version"] <;>
      simp [World.record, Event.isBuildCall]
    all_goals (split <;> simp [World.record, Event.isBuildCall])
  | maven m =>
    simp only [Builder.Validate, MavenBuilder.Validate, checkJava,
      MavenBuilder.checkMaven, execCommand]
    cases env.run "java" ["-version"] <;> cases env.run "mvn" ["--version"] <;>
      simp [World.record, Event.isBuildCall]
    all_goals (split <;> simp [World.record, Event.isBuildCall])
  | gradle g =>
    simp only [Builder.Validate, GradleBuilder.Validate, checkJava,
      GradleBuilder.checkGradle, execCommand]
    by_cases hs : env.stat (Join g.options.ProjectPath "gradlew") = .ok <;>
      cases env.run "java" ["-version"] <;> cases env.run "gradle" ["--version"] <;>
      cases env.run (Join g.options.ProjectPath "gradlew") ["--version"] <;>
      simp [World.record, Event.isBuildCall, hs]
    all_goals (split <;> simp [World.record, Event.isBuildCall])

/-! ## Build returns -/

theorem runFields_returned (env : Env) (command : String) (w : World)
    (h : Fields command ≠ []) :
    ∃ e w', runFields env command w = (.returned e, w') := by
  unfold runFields
  cases hf : Fields command with
  | nil => exact absurd hf h
  | cons name args => exact ⟨_, _, rfl⟩

theorem outcome_match_returned (pre : String) (x : Outcome (Option GoError) × World)
    (h : ∃ e w', x = (.returned e, w')) :
    ∃ e w', (match x with
      | (Outcome.panicked m, w) => ((Outcome.panicked m : Outcome (Option GoError)), w)
      | (Outcome.returned (some err), w) => (Outcome.returned (some (GoError.wrap pre err)), w)
      | (Outcome.returned none, w) => (Outcome.returned none, w)) = (.returned e, w') := by
  obtain ⟨e, w', rfl⟩ := h
  cases e with
  | none => exact ⟨_, _, rfl⟩
  | some err => exact ⟨_, _, rfl⟩

theorem NPM_buildBody_returns (n : NPMBuilder) (env : Env) (w : World)
    (h : ∀ c ∈ (Builder.npm n).commands, Fields c ≠ []) :
    ∃ r e, (n.buildBody env w).1 = .returned (r, e) := by
  have h1 := h _ (List.mem_cons_self _ _)
  have h2 := h _ (List.mem_cons_of_mem _ (List.mem_cons_self _ _))
  unfold NPMBuilder.buildBody
  rcases osChdir env n.options.ProjectPath w with ⟨ce, w1⟩
  cases ce with
  | some e => exact ⟨_, _, rfl⟩
  | none =>
    dsimp only
    have hi : ∃ e w', n.installDependencies env w1 = (.returned e, w') := by
      unfold NPMBuilder.installDependencies
      exact outcome_match_returned _ _ (runFields_returned env _ w1 h1)
    obtain ⟨e1, w2, hi⟩ := hi
    rw [hi]
    cases e1 with
    | some err => exact ⟨_, _, rfl⟩
    | none =>
      dsimp only
      have hb : ∃ e w', n.runBuild env w2 = (.returned e, w') := by
        unfold NPMBuilder.runBuild
        exact outcome_match_returned _ _ (runFields_returned env _ w2 h2)
      obtain ⟨e2, w3, hb⟩ := hb
      rw [hb]
      cases e2 with
      | some err => exact ⟨_, _, rfl⟩
      | none =>
        dsimp only
        rcases n.packageArtifacts env w3 with ⟨⟨ap, fl, sz, pe⟩, w4⟩
        cases pe <;> exact ⟨_, _, rfl⟩

theorem Maven_buildBody_returns (m : MavenBuilder) (env : Env) (w : World)
    (h : ∀ c ∈ (Builder.maven m).commands, Fields c ≠ []) :
    ∃ r e, (m.buildBody env w).1 = .returned (r, e) := by
  have h1 := h _ (List.mem_cons_self _ _)
  unfold MavenBuilder.buildBody
  rcases osChdir env m.options.ProjectPath w with ⟨ce, w1⟩
  cases ce with
  | some e => exact ⟨_, _, rfl⟩
  | none =>
    dsimp only
    have hi : ∃ e w', m.runMavenBuild env w1 = (.returned e, w') := by
      unfold MavenBuilder.runMavenBuild
      exact outcome_match_returned _ _ (runFields_returned env _ w1 h1)
    obtain ⟨e1, w2, hi⟩ := hi
    rw [hi]
    cases e1 with
    | some err => exact ⟨_, _, rfl⟩
    | none =>
      dsimp only
      rcases hp : m.packageArtifacts env w2 with ⟨p, w3⟩
      exact ⟨(packagedResult m.options env p).1, (packagedResult m.options env p).2, rfl⟩

theorem Gradle_buildBody_returns (g : GradleBuilder) (env : Env) (w : World) :
    ∃ r e, (g.buildBody env w).1 = .returned (r, e) := by
  unfold GradleBuilder.buildBody
  rcases osChdir env g.options.ProjectPath w with ⟨ce, w1⟩
  cases ce with
  | some e => exact ⟨_, _, rfl⟩
  | none =>
    dsimp only
    rcases g.runGradleBuild env w1 with ⟨e1, w2⟩
    cases e1 with
    | some err => exact ⟨_, _, rfl⟩
    | none =>
      dsimp only
      rcases hp : g.packageArtifacts env w2 with ⟨p, w3⟩
      exact ⟨(packagedResult g.options env p).1, (packagedResult g.options env p).2, rfl⟩

/-- `Build` returns (it does not panic) when each command string the builder
splits has at least one word. -/
theorem Build_returns (b : Builder) (env : Env) (w : World)
    (h : ∀ c ∈ b.commands, Fields c ≠ []) :
    ∃ r e, (b.Build env w).1 = .returned (r, e) := by
  cases b with
  | npm n =>
    simp only [Builder.Build, NPMBuilder.Build]
    cases env.getwd with
    | some e => exact ⟨_, _, rfl⟩
    | none => exact NPM_buildBody_returns n env _ h
  | maven m =>
    simp only [Builder.Build, MavenBuilder.Build]
    cases env.getwd with
    | some e => exact ⟨_, _, rfl⟩
    | none => exact Maven_buildBody_returns m env _ h
  | gradle g =>
    simp only [Builder.Build, GradleBuilder.Build]
    cases env.getwd with
    | some e => exact ⟨_, _, rfl⟩
    | none => exact Gradle_buildBody_returns g env _

/-! ## Results and errors of the coordinator -/

theorem consistentReturn_none (err : GoError) : consistentReturn none (some err) := by
  simp [consistentReturn]

theorem BuildProject_shape (config : Config) (options : BuildOptions) (env : Env) (w : World)
    (r : Option BuildResult) (e : Option GoError)
    (h : (BuildProject config options env w).1 = .returned (r, e)) :
    consistentReturn r e := by
  unfold BuildProject at h
  split at h
  · simp only [Outcome.returned.injEq, Prod.mk.injEq] at h
    obtain ⟨rfl, rfl⟩ := h
    exact consistentReturn_none _
  · simp at h
  · split at h
    · simp only [Outcome.returned.injEq, Prod.mk.injEq] at h
      obtain ⟨rfl, rfl⟩ := h
      exact consistentReturn_none _
    · simp at h
    · dsimp only at h
      split at h
      · simp only [Outcome.returned.injEq, Prod.mk.injEq] at h
        obtain ⟨rfl, rfl⟩ := h
        exact consistentReturn_none _
      · have hs := Build_shape _ env _ r e h
        exact ⟨hs.1, fun he => (hs.2 he).2⟩

/-- C5, counterexample. Two failure paths return a nil result with the
error: `BuildProject` when validation fails (here `node` cannot be run), and
`NPMBuilder.Build` when `os.Getwd` fails. -/
theorem failure_with_nil_result :
    (BuildProject sampleConfig sampleOptions noNodeEnv startWorld).1 =
      .returned (none, some (.wrap "Node.js 环境检查失败: "
        (.errorf "Node.js 未安装或不在 PATH 中"))) ∧
    ((NewNPMBuilder sampleConfig sampleOptions).Build getwdFailsEnv startWorld).1 =
      .returned (none, some (.wrap "获取当前目录失败: "
        (.external "getwd: no such file or directory"))) := by
  decide

/-- C5, as amended. Whatever `Build` of a builder or `BuildProject` returns, a
nil error comes with a result whose `Success` is true, and a result that comes
with an error has `Success` false and a non-empty `Message`. `Build` returns an
error without a result exactly when `os.Getwd` or the `os.Chdir` into the
project directory failed; a failure in a later phase (install or build
command, packaging) returns both a result and the error. `BuildProject`
returns the error without a result when detection or validation fails.
`Build` does return whenever each command string it splits has a word. -/
theorem failure_results (config : Config) (options : BuildOptions) (env : Env) (w : World) :
    (∀ b : Builder, (∀ c ∈ b.commands, Fields c ≠ []) →
      ∃ r e, (b.Build env w).1 = .returned (r, e)) ∧
    (∀ (b : Builder) (r : Option BuildResult) (e : Option GoError),
      (b.Build env w).1 = .returned (r, e) →
        consistentReturn r e ∧
        (e ≠ none →
          (r = none ↔ (env.getwd ≠ none ∨ env.chdir b.options.ProjectPath ≠ none)))) ∧
    (∀ (r : Option BuildResult) (e : Option GoError),
      (BuildProject config options env w).1 = .returned (r, e) → consistentReturn r e) ∧
    (∀ (info : Option ProjectInfo) (err : GoError),
      DetectProject env.stat options.ProjectPath = (info, some err) →
        (BuildProject config options env w).1 = .returned (none, some err)) ∧
    (∀ (info : ProjectInfo) (b : Builder) (err : GoError) (w' : World),
      DetectProject env.stat options.ProjectPath = (some info, none) →
      NewBuilder info.Type' config options = (some b, none) →
      b.Validate env
        (((w.record (.DetectProject options.ProjectPath)).record
          (.NewBuilder info.Type')).record (.Validate b.GetType)) = (some err, w') →
        (BuildProject config options env w).1 = .returned (none, some err)) := by
  refine ⟨fun b h => Build_returns b env w h, fun b r e h => ?_,
    fun r e h => BuildProject_shape config options env w r e h,
    fun info err hd => ?_, fun info b err w' hd hn hv => ?_⟩
  · have hs := Build_shape b env w r e h
    exact ⟨⟨hs.1, fun he => (hs.2 he).2⟩, fun he => (hs.2 he).1⟩
  · rw [BuildProject_detect_fail config options env w info err hd]
  · rw [BuildProject_validate_fail config options env w w' info b err hd hn hv]

/-- Witness for C5: when `npm ci` fails, `NPMBuilder.Build` returns the error
together with a result whose `Success` is false and whose `Message` is not
empty. -/
theorem failure_results_witness :
    ((Builder.npm (NewNPMBuilder sampleConfig sampleOptions)).Build installFailsEnv
        startWorld).1 =
      .returned (some (failedResult "安装依赖失败: 执行 npm ci 失败: exit status 1"),
        some (.wrap "执行 npm ci 失败: " (.external "exit status 1"))) ∧
    consistentReturn (some (failedResult "安装依赖失败: 执行 npm ci 失败: exit status 1"))
      (some (.wrap "执行 npm ci 失败: " (.external "exit status 1"))) :=
  ⟨by decide,
    ((failure_results sampleConfig sampleOptions installFailsEnv startWorld).2.1
      (Builder.npm (NewNPMBuilder sampleConfig sampleOptions)) _ _ (by decide)).1⟩

/-- C6. `BuildProject` runs detection, builder construction, `Validate` and
`Build` in that order and stops at the first error. If detection fails the
error is returned and the only call made is the detection: no builder is
constructed. If `Validate` returns an error, that same error is returned, the
world is the one `Validate` left, and no `Build` call was added. When the
earlier phases succeed, the outcome and the world of `BuildProject` are those
of the builder's `Build`, called in the world `Validate` left. -/
theorem BuildProject_phases (config : Config) (options : BuildOptions) (env : Env)
    (w : World) :
    (∀ (info : Option ProjectInfo) (err : GoError),
      DetectProject env.stat options.ProjectPath = (info, some err) →
        BuildProject config options env w =
          (.returned (none, some err), w.record (.DetectProject options.ProjectPath)) ∧
        (BuildProject config options env w).2.trace.filter Event.isBuilderCall =
          w.trace.filter Event.isBuilderCall) ∧
    (∀ (info : ProjectInfo) (b : Builder) (err : GoError) (w' : World),
      DetectProject env.stat options.ProjectPath = (some info, none) →
      NewBuilder info.Type' config options = (some b, none) →
      b.Validate env
        (((w.record (.DetectProject options.ProjectPath)).record
          (.NewBuilder info.Type')).record (.Validate b.GetType)) = (some err, w') →
        BuildProject config options env w = (.returned (none, some err), w') ∧
        (BuildProject config options env w).2.trace.filter Event.isBuildCall =
          w.trace.filter Event.isBuildCall) ∧
    (∀ (info : ProjectInfo) (b : Builder) (w' : World),
      DetectProject env.stat options.ProjectPath = (some info, none) →
      NewBuilder info.Type' config options = (some b, none) →
      b.Validate env
        (((w.record (.DetectProject options.ProjectPath)).record
          (.NewBuilder info.Type')).record (.Validate b.GetType)) = (none, w') →
        BuildProject config options env w =
          b.Build env (w'.record (.Build b.GetType))) := by
  refine ⟨fun info err hd => ?_, fun info b err w' hd hn hv => ?_,
    fun info b w' hd hn hv => BuildProject_build config options env w w' info b hd hn hv⟩
  · rw [BuildProject_detect_fail config options env w info err hd]
    simp [World.record, Event.isBuilderCall]
  · rw [BuildProject_validate_fail config options env w w' info b err hd hn hv]
    refine ⟨rfl, ?_⟩
    have hw : w' = (b.Validate env
        (((w.record (.DetectProject options.ProjectPath)).record
          (.NewBuilder info.Type')).record (.Validate b.GetType))).2 := by rw [hv]
    rw [hw, Validate_no_build_call]
    simp [World.record, Event.isBuildCall]

/-- Witness for C6: with a `package.json` and no `node`, validation fails and
`BuildProject` returns its error after the calls of `Validate` only. -/
theorem BuildProject_phases_witness :
    BuildProject sampleConfig sampleOptions noNodeEnv startWorld =
      (.returned (none, some (.wrap "Node.js 环境检查失败: "
        (.errorf "Node.js 未安装或不在 PATH 中"))),
       { cwd := "/home/dev",
         trace := [.DetectProject "/srv/app", .NewBuilder "npm", .Validate "npm",
                   .exec "node" ["--version"]] }) :=
  ((BuildProject_phases sampleConfig sampleOptions noNodeEnv startWorld).2.1
    { Type' := ProjectTypeNPM, Name := "app", Version := "",
      BuildCommand := "npm run build", ArtifactPath := "dist" }
    (.npm (NewNPMBuilder sampleConfig sampleOptions))
    (.wrap "Node.js 环境检查失败: " (.errorf "Node.js 未安装或不在 PATH 中"))
    { cwd := "/home/dev",
      trace := [.DetectProject "/srv/app", .NewBuilder "npm", .Validate "npm",
                .exec "node" ["--version"]] }
    (by decide) (by decide) (by decide)).1

/-! ## Unknown project types -/

theorem DetectProject_unknown_of_type (fs : FileSystem) (p : String)
    (h : detectedType (DetectProject fs p) = some ProjectTypeUnknown) :
    DetectProject fs p =
      (some { Type' := ProjectTypeUnknown, Name := Base (detectPath p), Version := "",
              BuildCommand := "", ArtifactPath := "" },
       some (.errorf "无法识别项目类型")) := by
  by_cases h1 : fs (Join (detectPath p) "package.json") = .notExist
  · by_cases h2 : fs (Join (detectPath p) "pom.xml") = .notExist
    · by_cases h3 : fs (Join (detectPath p) "build.gradle") = .ok
      · rw [DetectProject_gradle fs p h1 h2 (Or.inl h3)] at h
        simp only [detectedType, Option.map_some', Option.some.injEq] at h
        exact absurd h (by decide)
      · by_cases h4 : fs (Join (detectPath p) "build.gradle.kts") = .ok
        · rw [DetectProject_gradle fs p h1 h2 (Or.inr h4)] at h
          simp only [detectedType, Option.map_some', Option.some.injEq] at h
          exact absurd h (by decide)
        · exact DetectProject_unknown fs p h1 h2 h3 h4
    · rw [DetectProject_maven fs p h1 h2] at h
      simp only [detectedType, Option.map_some', Option.some.injEq] at h
      exact absurd h (by decide)
  · rw [DetectProject_npm fs p h1] at h
    simp only [detectedType, Option.map_some', Option.some.injEq] at h
    exact absurd h (by decide)

/-- C7, counterexample. In a directory without any marker `BuildProject`
fails with the error of the detector, which is not
`ErrUnsupportedProjectType` and does not wrap it. -/
theorem BuildProject_unknown_not_typed :
    detectedType (DetectProject emptyDirEnv.stat sampleOptions.ProjectPath) =
      some ProjectTypeUnknown ∧
    (BuildProject sampleConfig sampleOptions emptyDirEnv startWorld).1 =
      .returned (none, some (.errorf "无法识别项目类型")) ∧
    GoError.errorf "无法识别项目类型" ≠ ErrUnsupportedProjectType ∧
    errorsIs (.errorf "无法识别项目类型") ErrUnsupportedProjectType = false := by
  decide

/-- C7, as amended. When detection finds no recognized marker (project type
unknown), `BuildProject` fails with the classification error of the detector
(an untyped error, not `ErrUnsupportedProjectType`), and the detection is the
only call it makes: no builder is constructed, validated or run. -/
theorem BuildProject_unknown (config : Config) (options : BuildOptions) (env : Env)
    (w : World)
    (h : detectedType (DetectProject env.stat options.ProjectPath) =
      some ProjectTypeUnknown) :
    BuildProject config options env w =
      (.returned (none, some (.errorf "无法识别项目类型")),
       w.record (.DetectProject options.ProjectPath)) ∧
    errorsIs (.errorf "无法识别项目类型") ErrUnsupportedProjectType = false ∧
    (BuildProject config options env w).2.trace.filter Event.isBuilderCall =
      w.trace.filter Event.isBuilderCall := by
  have hd := DetectProject_unknown_of_type env.stat options.ProjectPath h
  rw [BuildProject_detect_fail config options env w _ _ hd]
  refine ⟨rfl, by decide, ?_⟩
  simp [World.record, Event.isBuilderCall]

/-- Witness for C7: the directory `/srv/app` without any marker. -/
theorem BuildProject_unknown_witness :
    BuildProject sampleConfig sampleOptions emptyDirEnv startWorld =
      (.returned (none, some (.errorf "无法识别项目类型")),
       { cwd := "/home/dev", trace := [.DetectProject "/srv/app"] }) :=
  (BuildProject_unknown sampleConfig sampleOptions emptyDirEnv startWorld (by decide)).1

/-! ## Dispatch on the project type -/

/-- C8. `NewBuilder` is a total dispatch on the project type: for npm, maven
and gradle it returns a nil error and the builder of that type, whose
`GetType()` is the requested type and which holds the given configuration and
options; for every other value it returns a nil builder and
`ErrUnsupportedProjectType`. -/
theorem NewBuilder_dispatch (config : Config) (options : BuildOptions) :
    (NewBuilder ProjectTypeNPM config options =
        (some (.npm { config := config, options := options }), none) ∧
      (Builder.npm { config := config, options := options }).GetType = ProjectTypeNPM) ∧
    (NewBuilder ProjectTypeMaven config options =
        (some (.maven { config := config, options := options }), none) ∧
      (Builder.maven { config := config, options := options }).GetType = ProjectTypeMaven) ∧
    (NewBuilder ProjectTypeGradle config options =
        (some (.gradle { config := config, options := options }), none) ∧
      (Builder.gradle { config := config, options := options }).GetType =
        ProjectTypeGradle) ∧
    (∀ t : ProjectType, t ≠ ProjectTypeNPM → t ≠ ProjectTypeMaven → t ≠ ProjectTypeGradle →
      NewBuilder t config options = (none, some ErrUnsupportedProjectType)) ∧
    (∀ (t : ProjectType) (b : Builder),
      (NewBuilder t config options).1 = some b → b.GetType = t) := by
  refine ⟨⟨rfl, rfl⟩, ⟨rfl, rfl⟩, ⟨rfl, rfl⟩, fun t h1 h2 h3 => ?_, fun t b h => ?_⟩
  · simp [NewBuilder, h1, h2, h3]
  · unfold NewBuilder at h
    split at h
    · simp only [Option.some.injEq] at h
      subst h
      simp_all [Builder.GetType, NPMBuilder.GetType]
    · split at h
      · simp only [Option.some.injEq] at h
        subst h
        simp_all [Builder.GetType, MavenBuilder.GetType]
      · split at h
        · simp only [Option.some.injEq] at h
          subst h
          simp_all [Builder.GetType, GradleBuilder.GetType]
        · simp at h

/-- Witness for C8: the types `unknown`, the empty string and `NPM` in
capitals are not supported. -/
theorem NewBuilder_dispatch_witness :
    NewBuilder ProjectTypeUnknown sampleConfig sampleOptions =
      (none, some ErrUnsupportedProjectType) ∧
    NewBuilder "" sampleConfig sampleOptions = (none, some ErrUnsupportedProjectType) ∧
    NewBuilder "NPM" sampleConfig sampleOptions = (none, some ErrUnsupportedProjectType) :=
  ⟨(NewBuilder_dispatch sampleConfig sampleOptions).2.2.2.1 ProjectTypeUnknown
      (by decide) (by decide) (by decide),
   (NewBuilder_dispatch sampleConfig sampleOptions).2.2.2.1 "" (by decide) (by decide)
      (by decide),
   (NewBuilder_dispatch sampleConfig sampleOptions).2.2.2.1 "NPM" (by decide) (by decide)
      (by decide)⟩

/-! ## The working directory -/

theorem record_cwd (w : World) (e : Event) : (w.record e).cwd = w.cwd := rfl

theorem osChdir_cwd (env : Env) (path : String) (w : World) :
    (osChdir env path w).2.cwd = if env.chdir path = none then path else w.cwd := by
  unfold osChdir
  cases h : env.chdir path <;> simp [World.record]

theorem runFields_cwd (env : Env) (command : String) (w : World) :
    (runFields env command w).2.cwd = w.cwd := by
  unfold runFields
  split <;> simp [World.record]

theorem execCommand_cwd (env : Env) (name : String) (args : List String) (w : World) :
    (execCommand env name args w).2.cwd = w.cwd := rfl

theorem outcome_match_cwd (pre : String) (x : Outcome (Option GoError) × World) :
    (match x with
      | (Outcome.panicked m, w) => ((Outcome.panicked m : Outcome (Option GoError)), w)
      | (Outcome.returned (some err), w) => (Outcome.returned (some (GoError.wrap pre err)), w)
      | (Outcome.returned none, w) => (Outcome.returned none, w)).2 = x.2 := by
  rcases x with ⟨o, w⟩
  cases o with
  | panicked m => rfl
  | returned v => cases v <;> rfl

theorem NPM_installDependencies_cwd (n : NPMBuilder) (env : Env) (w : World) :
    (n.installDependencies env w).2.cwd = w.cwd := by
  unfold NPMBuilder.installDependencies
  dsimp only
  rw [outcome_match_cwd, runFields_cwd]

theorem NPM_runBuild_cwd (n : NPMBuilder) (env : Env) (w : World) :
    (n.runBuild env w).2.cwd = w.cwd := by
  unfold NPMBuilder.runBuild
  dsimp only
  rw [outcome_match_cwd, runFields_cwd]

theorem NPM_walkFn_cwd (buildDir : String) (env : Env) (acc : WalkAcc) (w : World)
    (e : WalkEntry) : (NPMBuilder.walkFn buildDir env acc w e).2.2.cwd = w.cwd := by
  unfold NPMBuilder.walkFn
  repeat' split
  all_goals simp [World.record]

theorem NPM_walkLoop_cwd (buildDir : String) (env : Env) (entries : List WalkEntry)
    (acc : WalkAcc) (w : World) :
    (NPMBuilder.walkLoop buildDir env entries acc w).2.2.cwd = w.cwd := by
  induction entries generalizing acc w with
  | nil => rfl
  | cons e rest ih =>
    unfold NPMBuilder.walkLoop
    have h := NPM_walkFn_cwd buildDir env acc w e
    split
    · simp_all
    · rename_i acc' w' heq
      rw [ih]
      simp_all

theorem closeArchive_cwd (path : String) (w : World) : (closeArchive path w).cwd = w.cwd := rfl

theorem NPM_packageArtifacts_cwd (n : NPMBuilder) (env : Env) (w : World) :
    (n.packageArtifacts env w).2.cwd = w.cwd := by
  unfold NPMBuilder.packageArtifacts
  dsimp only
  generalize (if n.config.NPM.BuildDir = "" then "dist" else n.config.NPM.BuildDir) = buildDir
  generalize (if n.options.OutputPath = "" then "./build" else n.options.OutputPath) = outputDir
  generalize Join outputDir (n.config.Project.Name ++ "-" ++
    (if n.options.Version = "" then env.now else n.options.Version) ++ ".tar.gz") = artifactPath
  by_cases h1 : env.stat buildDir = .notExist
  · simp [h1]
  · simp only [h1, if_false]
    cases h2 : env.mkdirAll outputDir with
    | some e => simp [World.record]
    | none =>
      cases h3 : env.create artifactPath with
      | some e => simp [World.record]
      | none =>
        have h := NPM_walkLoop_cwd buildDir env (env.walk buildDir)
          { files := [], totalSize := 0 }
          ((w.record (.mkdirAll outputDir)).record (.create artifactPath))
        rcases hw : NPMBuilder.walkLoop buildDir env (env.walk buildDir)
          { files := [], totalSize := 0 }
          ((w.record (.mkdirAll outputDir)).record (.create artifactPath)) with ⟨e, acc, w'⟩
        rw [hw] at h
        cases e with
        | some err => simpa [closeArchive, World.record] using h
        | none => simpa [closeArchive, World.record] using h

theorem copyFile_cwd (env : Env) (src dst : String) (w : World) :
    (copyFile env src dst w).2.cwd = w.cwd := by
  unfold copyFile
  cases env.open' src with
  | some e => rfl
  | none =>
    dsimp only
    cases env.create dst <;> rfl

theorem packageJar_cwd (config : Config) (options : BuildOptions) (mainJar : String)
    (env : Env) (w : World) : (packageJar config options mainJar env w).2.cwd = w.cwd := by
  unfold packageJar
  dsimp only
  generalize (if options.OutputPath = "" then "./build" else options.OutputPath) = outputDir
  generalize Join outputDir (config.Project.Name ++ "-" ++
    (if options.Version = "" then env.now else options.Version) ++ ".jar") = artifactPath
  cases h2 : env.mkdirAll outputDir with
  | some e => simp [World.record]
  | none =>
    have h := copyFile_cwd env mainJar artifactPath (w.record (.mkdirAll outputDir))
    rcases hc : copyFile env mainJar artifactPath (w.record (.mkdirAll outputDir)) with ⟨e, w'⟩
    rw [hc] at h
    cases e with
    | some err => simpa [World.record] using h
    | none =>
      dsimp only
      split <;> simpa [World.record] using h

theorem Maven_packageArtifacts_cwd (m : MavenBuilder) (env : Env) (w : World) :
    (m.packageArtifacts env w).2.cwd = w.cwd := by
  unfold MavenBuilder.packageArtifacts
  split
  · rfl
  · split
    · rfl
    · exact packageJar_cwd _ _ _ _ _

theorem Gradle_packageArtifacts_cwd (g : GradleBuilder) (env : Env) (w : World) :
    (g.packageArtifacts env w).2.cwd = w.cwd := by
  unfold GradleBuilder.packageArtifacts
  split
  · rfl
  · split
    · rfl
    · exact packageJar_cwd _ _ _ _ _

theorem Maven_runMavenBuild_cwd (m : MavenBuilder) (env : Env) (w : World) :
    (m.runMavenBuild env w).2.cwd = w.cwd := by
  unfold MavenBuilder.runMavenBuild
  dsimp only
  rw [outcome_match_cwd, runFields_cwd]

theorem Gradle_runGradleBuild_cwd (g : GradleBuilder) (env : Env) (w : World) :
    (g.runGradleBuild env w).2.cwd = w.cwd := by
  unfold GradleBuilder.runGradleBuild execCommand
  dsimp only
  cases env.run (g.getGradleCommand env) g.tasks <;> rfl

theorem NPM_buildBody_cwd (n : NPMBuilder) (env : Env) (w : World) :
    (n.buildBody env w).2.cwd =
      if env.chdir n.options.ProjectPath = none then n.options.ProjectPath else w.cwd := by
  unfold NPMBuilder.buildBody
  have hc := osChdir_cwd env n.options.ProjectPath w
  rcases ho : osChdir env n.options.ProjectPath w with ⟨ce, w1⟩
  rw [ho] at hc
  cases ce with
  | some e => simpa using hc
  | none =>
    dsimp only at hc ⊢
    have h1 := NPM_installDependencies_cwd n env w1
    rcases hi : n.installDependencies env w1 with ⟨o1, w2⟩
    rw [hi] at h1
    cases o1 with
    | panicked msg => simpa [← hc] using h1
    | returned v1 =>
      cases v1 with
      | some e1 => simpa [← hc] using h1
      | none =>
        dsimp only at h1 ⊢
        have h2 := NPM_runBuild_cwd n env w2
        rcases hb : n.runBuild env w2 with ⟨o2, w3⟩
        rw [hb] at h2
        cases o2 with
        | panicked msg => simp only; rw [← hc, ← h1]; exact h2
        | returned v2 =>
          cases v2 with
          | some e2 => simp only; rw [← hc, ← h1]; exact h2
          | none =>
            dsimp only at h2 ⊢
            have h3 := NPM_packageArtifacts_cwd n env w3
            rcases hp : n.packageArtifacts env w3 with ⟨⟨ap, fl, sz, pe⟩, w4⟩
            rw [hp] at h3
            cases pe <;> (simp only; rw [← hc, ← h1, ← h2]; exact h3)

theorem Maven_buildBody_cwd (m : MavenBuilder) (env : Env) (w : World) :
    (m.buildBody env w).2.cwd =
      if env.chdir m.options.ProjectPath = none then m.options.ProjectPath else w.cwd := by
  unfold MavenBuilder.buildBody
  have hc := osChdir_cwd env m.options.ProjectPath w
  rcases ho : osChdir env m.options.ProjectPath w with ⟨ce, w1⟩
  rw [ho] at hc
  cases ce with
  | some e => simpa using hc
  | none =>
    dsimp only at hc ⊢
    have h1 := Maven_runMavenBuild_cwd m env w1
    rcases hi : m.runMavenBuild env w1 with ⟨o1, w2⟩
    rw [hi] at h1
    cases o1 with
    | panicked msg => simpa [← hc] using h1
    | returned v1 =>
      cases v1 with
      | some e1 => simpa [← hc] using h1
      | none =>
        dsimp only at h1 ⊢
        have h3 := Maven_packageArtifacts_cwd m env w2
        rcases hp : m.packageArtifacts env w2 with ⟨p, w3⟩
        rw [hp] at h3
        simp only
        rw [← hc, ← h1]
        exact h3

theorem Gradle_buildBody_cwd (g : GradleBuilder) (env : Env) (w : World) :
    (g.buildBody env w).2.cwd =
      if env.chdir g.options.ProjectPath = none then g.options.ProjectPath else w.cwd := by
  unfold GradleBuilder.buildBody
  have hc := osChdir_cwd env g.options.ProjectPath w
  rcases ho : osChdir env g.options.ProjectPath w with ⟨ce, w1⟩
  rw [ho] at hc
  cases ce with
  | some e => simpa using hc
  | none =>
    dsimp only at hc ⊢
    have h1 := Gradle_runGradleBuild_cwd g env w1
    rcases hi : g.runGradleBuild env w1 with ⟨o1, w2⟩
    rw [hi] at h1
    cases o1 with
    | some e1 => simpa [← hc] using h1
    | none =>
      dsimp only at h1 ⊢
      have h3 := Gradle_packageArtifacts_cwd g env w2
      rcases hp : g.packageArtifacts env w2 with ⟨p, w3⟩
      rw [hp] at h3
      simp only
      rw [← hc, ← h1]
      exact h3

/-- The working directory after `Build` of any builder: the project directory
when the process entered it and the deferred `os.Chdir(originalDir)` failed,
the directory before the call in every other case. -/
theorem Build_cwd (b : Builder) (env : Env) (w : World) :
    (b.Build env w).2.cwd =
      if env.getwd = none ∧ env.chdir b.options.ProjectPath = none ∧ env.chdir w.cwd ≠ none
      then b.options.ProjectPath else w.cwd := by
  cases b with
  | npm n =>
    simp only [Builder.Build, NPMBuilder.Build, Builder.options]
    cases hg : env.getwd with
    | some e => simp [World.record]
    | none =>
      have hb := NPM_buildBody_cwd n env (w.record .getwd)
      rcases hbb : n.buildBody env (w.record .getwd) with ⟨r, w1⟩
      rw [hbb] at hb
      simp only [osChdir_cwd, record_cwd] at hb ⊢
      by_cases h1 : env.chdir n.options.ProjectPath = none <;>
        by_cases h2 : env.chdir w.cwd = none <;> simp_all
  | maven m =>
    simp only [Builder.Build, MavenBuilder.Build, Builder.options]
    cases hg : env.getwd with
    | some e => simp [World.record]
    | none =>
      have hb := Maven_buildBody_cwd m env (w.record .getwd)
      rcases hbb : m.buildBody env (w.record .getwd) with ⟨r, w1⟩
      rw [hbb] at hb
      simp only [osChdir_cwd, record_cwd] at hb ⊢
      by_cases h1 : env.chdir m.options.ProjectPath = none <;>
        by_cases h2 : env.chdir w.cwd = none <;> simp_all
  | gradle g =>
    simp only [Builder.Build, GradleBuilder.Build, Builder.options]
    cases hg : env.getwd with
    | some e => simp [World.record]
    | none =>
      have hb := Gradle_buildBody_cwd g env (w.record .getwd)
      rcases hbb : g.buildBody env (w.record .getwd) with ⟨r, w1⟩
      rw [hbb] at hb
      simp only [osChdir_cwd, record_cwd] at hb ⊢
      by_cases h1 : env.chdir g.options.ProjectPath = none <;>
        by_cases h2 : env.chdir w.cwd = none <;> simp_all

/-- C9, counterexample. The process is in `/home/dev`, enters `/srv/app`, and
the deferred `os.Chdir` back fails (its error is discarded): after `Build` of
each builder the working directory is `/srv/app`. -/
theorem Build_leaves_project_dir :
    ((NewNPMBuilder sampleConfig sampleOptions).Build restoreFailsEnv startWorld).2.cwd =
      "/srv/app" ∧
    ((NewMavenBuilder sampleConfig sampleOptions).Build restoreFailsEnv startWorld).2.cwd =
      "/srv/app" ∧
    ((NewGradleBuilder sampleConfig sampleOptions).Build restoreFailsEnv startWorld).2.cwd =
      "/srv/app" ∧
    startWorld.cwd = "/home/dev" := by
  decide

/-- C9, as amended. For each builder and every outcome of `Build` (a result,
an error, a panic), the working directory after `Build` equals the one before
the call whenever the deferred `os.Chdir(originalDir)` succeeds, and also
whenever `os.Getwd` or the `os.Chdir` into the project directory fails (the
directory was never left). -/
theorem Build_restores_cwd (b : Builder) (env : Env) (w : World)
    (h : env.chdir w.cwd = none ∨ env.getwd ≠ none ∨
      env.chdir b.options.ProjectPath ≠ none) :
    (b.Build env w).2.cwd = w.cwd := by
  rw [Build_cwd]
  split
  · rename_i hc
    rcases h with h | h | h
    · exact absurd h hc.2.2
    · exact absurd hc.1 h
    · exact absurd hc.2.1 h
  · rfl

/-- Witness for C9: a failing build (the project directory cannot be entered)
and a build that runs to its packaging both end in `/home/dev`. -/
theorem Build_restores_cwd_witness :
    ((Builder.maven (NewMavenBuilder sampleConfig sampleOptions)).Build enterFailsEnv
      startWorld).2.cwd = "/home/dev" ∧
    ((Builder.npm (NewNPMBuilder sampleConfig sampleOptions)).Build emptyDirEnv
      startWorld).2.cwd = "/home/dev" :=
  ⟨Build_restores_cwd (.maven (NewMavenBuilder sampleConfig sampleOptions)) enterFailsEnv
      startWorld (Or.inr (Or.inr (by decide))),
   Build_restores_cwd (.npm (NewNPMBuilder sampleConfig sampleOptions)) emptyDirEnv
      startWorld (Or.inl (by decide))⟩

/-! ## Artifact naming -/

theorem NPM_packageArtifacts_path (n : NPMBuilder) (env : Env) (w : World)
    (h : (n.packageArtifacts env w).1.err = none) :
    (n.packageArtifacts env w).1.artifactPath =
      Join (outputDirOf n.options)
        (artifactFileName n.config (versionOf n.options env) ".tar.gz") := by
  unfold NPMBuilder.packageArtifacts at h ⊢
  dsimp only [outputDirOf, versionOf, artifactFileName] at h ⊢
  generalize (if n.config.NPM.BuildDir = "" then "dist" else n.config.NPM.BuildDir) = buildDir
    at h ⊢
  generalize (if n.options.OutputPath = "" then "./build" else n.options.OutputPath) = outputDir
    at h ⊢
  generalize Join outputDir (n.config.Project.Name ++ "-" ++
    (if n.options.Version = "" then env.now else n.options.Version) ++ ".tar.gz") = artifactPath
    at h ⊢
  by_cases h1 : env.stat buildDir = .notExist
  · simp [h1, Packaged.fail] at h
  · simp only [h1, if_false] at h ⊢
    cases h2 : env.mkdirAll outputDir with
    | some e => simp [h2, Packaged.fail] at h
    | none =>
      simp only [h2] at h ⊢
      cases h3 : env.create artifactPath with
      | some e => simp [h3, Packaged.fail] at h
      | none =>
        simp only [h3] at h ⊢
        rcases hw : NPMBuilder.walkLoop buildDir env (env.walk buildDir)
          { files := [], totalSize := 0 }
          ((w.record (.mkdirAll outputDir)).record (.create artifactPath)) with ⟨e, acc, w'⟩
        rw [hw] at h
        cases e with
        | some err => simp [Packaged.fail] at h
        | none => rfl

theorem packageJar_path (config : Config) (options : BuildOptions) (mainJar : String)
    (env : Env) (w : World) (h : (packageJar config options mainJar env w).1.err = none) :
    (packageJar config options mainJar env w).1.artifactPath =
        Join (outputDirOf options) (artifactFileName config (versionOf options env) ".jar") ∧
      (packageJar config options mainJar env w).1.files =
        [Base (packageJar config options mainJar env w).1.artifactPath] := by
  unfold packageJar at h ⊢
  dsimp only [outputDirOf, versionOf, artifactFileName] at h ⊢
  generalize (if options.OutputPath = "" then "./build" else options.OutputPath) = outputDir
    at h ⊢
  generalize Join outputDir (config.Project.Name ++ "-" ++
    (if options.Version = "" then env.now else options.Version) ++ ".jar") = artifactPath
    at h ⊢
  cases h2 : env.mkdirAll outputDir with
  | some e => simp [h2, Packaged.fail] at h
  | none =>
    simp only [h2] at h ⊢
    rcases hc : copyFile env mainJar artifactPath (w.record (.mkdirAll outputDir)) with ⟨e, w'⟩
    rw [hc] at h
    cases e with
    | some err => simp [Packaged.fail] at h
    | none =>
      dsimp only at h ⊢
      by_cases h4 : env.stat artifactPath = .ok
      · simp [h4]
      · simp [h4, Packaged.fail] at h

theorem Maven_packageArtifacts_path (m : MavenBuilder) (env : Env) (w : World)
    (h : (m.packageArtifacts env w).1.err = none) :
    (m.packageArtifacts env w).1.artifactPath =
        Join (outputDirOf m.options) (artifactFileName m.config (versionOf m.options env) ".jar") ∧
      (m.packageArtifacts env w).1.files = [Base (m.packageArtifacts env w).1.artifactPath] := by
  unfold MavenBuilder.packageArtifacts at h ⊢
  split at h
  · simp [Packaged.fail] at h
  · rename_i jarFiles hf
    dsimp only at h ⊢
    split at h
    · simp [Packaged.fail] at h
    · rename_i hl
      rw [if_neg hl]
      exact packageJar_path _ _ _ _ _ h

theorem Gradle_packageArtifacts_path (g : GradleBuilder) (env : Env) (w : World)
    (h : (g.packageArtifacts env w).1.err = none) :
    (g.packageArtifacts env w).1.artifactPath =
        Join (outputDirOf g.options) (artifactFileName g.config (versionOf g.options env) ".jar") ∧
      (g.packageArtifacts env w).1.files = [Base (g.packageArtifacts env w).1.artifactPath] := by
  unfold GradleBuilder.packageArtifacts at h ⊢
  split at h
  · simp [Packaged.fail] at h
  · rename_i jarFiles hf
    dsimp only at h ⊢
    split at h
    · simp [Packaged.fail] at h
    · rename_i hl
      rw [if_neg hl]
      exact packageJar_path _ _ _ _ _ h

/-! ### The base name of a joined path -/

theorem splitSlash_ne_nil (cs : List Char) : splitSlash cs ≠ [] := by
  cases cs with
  | nil => simp [splitSlash]
  | cons c cs =>
    unfold splitSlash
    split
    · simp
    · split <;> simp

theorem splitSlash_of_no_slash (n : List Char) (h : '/' ∉ n) : splitSlash n = [n] := by
  induction n with
  | nil => rfl
  | cons c cs ih =>
    have hc : c ≠ '/' := fun hc => h (hc ▸ List.mem_cons_self _ _)
    have hcs : '/' ∉ cs := fun hm => h (List.mem_cons_of_mem _ hm)
    unfold splitSlash
    rw [if_neg hc, ih hcs]

theorem splitSlash_append (a n : List Char) (h : '/' ∉ n) :
    splitSlash (a ++ '/' :: n) = splitSlash a ++ [n] := by
  induction a with
  | nil => simp [splitSlash, splitSlash_of_no_slash n h]
  | cons c cs ih =>
    by_cases hc : c = '/'
    · simp [splitSlash, hc, ih]
    · have hne := splitSlash_ne_nil cs
      cases hs : splitSlash cs with
      | nil => exact absurd hs hne
      | cons x xs =>
        have ih' : splitSlash (cs.append ('/' :: n)) = x :: (xs ++ [n]) := by
          rw [hs] at ih
          exact ih
        simp only [List.cons_append, splitSlash, if_neg hc, ih', hs]

theorem cleanStep_normal (rooted : Bool) (out : List (List Char)) (n : List Char)
    (h : '-' ∈ n) : cleanStep rooted out n = n :: out := by
  have h1 : ¬ (n = [] ∨ n = ['.']) := by
    rintro (rfl | rfl) <;> simp at h
  have h2 : n ≠ ['.', '.'] := by
    rintro rfl
    simp at h
  simp [cleanStep, h1, h2]

theorem intersperse_append_singleton {α : Type} (sep : α) (R : List α) (n : α)
    (h : R ≠ []) : List.intersperse sep (R ++ [n]) = List.intersperse sep R ++ [sep, n] := by
  induction R with
  | nil => exact absurd rfl h
  | cons x xs ih =>
    cases xs with
    | nil => simp
    | cons y ys =>
      have := ih (by simp)
      simp only [List.cons_append, List.intersperse_cons_cons] at this ⊢
      rw [this]

theorem intercalate_append_singleton (R : List (List Char)) (n : List Char) (h : R ≠ []) :
    List.intercalate ['/'] (R ++ [n]) = List.intercalate ['/'] R ++ '/' :: n := by
  simp [List.intercalate, intersperse_append_singleton _ R n h]

theorem Base_mk_dir_name (Y n : List Char) (hne : n ≠ []) (hsl : '/' ∉ n) :
    Base (String.mk (Y ++ '/' :: n)) = String.mk n := by
  have h := Base_dir_name (String.mk Y) (String.mk n)
    (by intro hh; exact hne (congrArg String.data hh)) hsl
  have he : String.mk Y ++ "/" ++ String.mk n = String.mk (Y ++ '/' :: n) := by
    apply String.ext
    simp [String.data_append]
  rw [← he]
  exact h

theorem Base_mk_name (n : List Char) (hne : n ≠ []) (hsl : '/' ∉ n) :
    Base (String.mk n) = String.mk n := by
  have hs : String.mk n ≠ "" := by
    intro hh
    exact hne (congrArg String.data hh)
  have hstrip : stripTrailingSlashes n = n := by
    unfold stripTrailingSlashes
    rw [dropWhile_of_head_false]
    · simp
    · intro x hx
      have hmem : x ∈ n := by
        have := List.mem_of_mem_head? hx
        simpa using this
      have : x ≠ '/' := fun hxe => hsl (hxe ▸ hmem)
      simpa using this
  have hlast : lastElement n = n := by
    unfold lastElement
    have : List.takeWhile (fun c => c != '/') n.reverse = n.reverse := by
      rw [List.takeWhile_eq_self_iff]
      intro x hx
      have hmem : x ∈ n := by simpa using hx
      have : x ≠ '/' := fun hxe => hsl (hxe ▸ hmem)
      simpa using this
    rw [this]
    simp
  unfold Base
  rw [if_neg hs]
  simp [hstrip, hlast, hne]

/-- The base name of `filepath.Join(dir, name)` is `name`, for a non-empty
directory and a name that has a hyphen and no separator. -/
theorem Base_Join (dir name : String) (hd : dir ≠ "") (hy : '-' ∈ name.data)
    (hsl : '/' ∉ name.data) : Base (Join dir name) = name := by
  have hne : name.data ≠ [] := by
    intro h
    rw [h] at hy
    simp at hy
  have hdata : (dir ++ "/" ++ name).data = dir.data ++ '/' :: name.data := by
    simp [String.data_append]
  unfold Join
  rw [if_pos hd]
  unfold Clean
  simp only [hdata]
  rw [splitSlash_append _ _ hsl, List.foldl_append]
  simp only [List.foldl_cons, List.foldl_nil, cleanStep_normal _ _ _ hy, List.reverse_cons]
  generalize (List.foldl (cleanStep ((dir.data ++ '/' :: name.data).head? == some '/')) []
    (splitSlash dir.data)).reverse = R
  generalize ((dir.data ++ '/' :: name.data).head? == some '/') = rooted
  have hnm : String.mk name.data = name := rfl
  by_cases hR : R = []
  · subst hR
    cases rooted
    · simp only [List.nil_append, Bool.false_eq_true, if_false]
      rw [if_neg (by simp)]
      simp only [List.intercalate, List.intersperse, List.flatten, List.append_nil]
      rw [Base_mk_name _ hne hsl]
    · simp only [List.nil_append, if_true]
      simp only [List.intercalate, List.intersperse, List.flatten, List.append_nil]
      have := Base_mk_dir_name [] name.data hne hsl
      simpa using this
  · rw [intercalate_append_singleton R _ hR]
    cases rooted
    · simp only [Bool.false_eq_true, if_false]
      rw [if_neg (by simp)]
      rw [Base_mk_dir_name _ _ hne hsl]
    · simp only [if_true]
      have := Base_mk_dir_name ('/' :: List.intercalate ['/'] R) name.data hne hsl
      simpa using this

theorem outputDirOf_ne_empty (options : BuildOptions) : outputDirOf options ≠ "" := by
  unfold outputDirOf
  split
  · decide
  · assumption

theorem hyphen_mem_artifactFileName (config : Config) (version ext : String) :
    '-' ∈ (artifactFileName config version ext).data := by
  simp [artifactFileName, String.data_append]

/-- C10. For each builder, a successful `packageArtifacts` returns the path
`filepath.Join(outputDir, name)` where `name` is exactly
`Project.Name ++ "-" ++ version ++ ext`, with `ext` `.tar.gz` for NPM and
`.jar` for Maven and Gradle, and `version` is `options.Version` whenever that
is non-empty; unless the name holds a path separator, it is the base name of
that path. Hence two successful runs with the same configuration, output
directory and explicit version return the same artifact name and path,
whatever the environments (clock, file system) and starting worlds are. -/
theorem artifact_name (config : Config) (options : BuildOptions) :
    (∀ version ext : String,
      artifactFileName config version ext = config.Project.Name ++ "-" ++ version ++ ext ∧
      ('/' ∉ (artifactFileName config version ext).data →
        Base (Join (outputDirOf options) (artifactFileName config version ext)) =
          artifactFileName config version ext)) ∧
    (∀ (env : Env) (w : World),
      ((NewNPMBuilder config options).packageArtifacts env w).1.err = none →
      ((NewNPMBuilder config options).packageArtifacts env w).1.artifactPath =
        Join (outputDirOf options) (artifactFileName config (versionOf options env) ".tar.gz")) ∧
    (∀ (env : Env) (w : World),
      ((NewMavenBuilder config options).packageArtifacts env w).1.err = none →
      ((NewMavenBuilder config options).packageArtifacts env w).1.artifactPath =
        Join (outputDirOf options) (artifactFileName config (versionOf options env) ".jar")) ∧
    (∀ (env : Env) (w : World),
      ((NewGradleBuilder config options).packageArtifacts env w).1.err = none →
      ((NewGradleBuilder config options).packageArtifacts env w).1.artifactPath =
        Join (outputDirOf options) (artifactFileName config (versionOf options env) ".jar")) ∧
    (options.Version ≠ "" →
      (∀ env : Env, versionOf options env = options.Version) ∧
      ∀ (env₁ env₂ : Env) (w₁ w₂ : World),
        (((NewNPMBuilder config options).packageArtifacts env₁ w₁).1.err = none →
          ((NewNPMBuilder config options).packageArtifacts env₂ w₂).1.err = none →
          ((NewNPMBuilder config options).packageArtifacts env₁ w₁).1.artifactPath =
            ((NewNPMBuilder config options).packageArtifacts env₂ w₂).1.artifactPath) ∧
        (((NewMavenBuilder config options).packageArtifacts env₁ w₁).1.err = none →
          ((NewMavenBuilder config options).packageArtifacts env₂ w₂).1.err = none →
          ((NewMavenBuilder config options).packageArtifacts env₁ w₁).1.artifactPath =
            ((NewMavenBuilder config options).packageArtifacts env₂ w₂).1.artifactPath) ∧
        (((NewGradleBuilder config options).packageArtifacts env₁ w₁).1.err = none →
          ((NewGradleBuilder config options).packageArtifacts env₂ w₂).1.err = none →
          ((NewGradleBuilder config options).packageArtifacts env₁ w₁).1.artifactPath =
            ((NewGradleBuilder config options).packageArtifacts env₂ w₂).1.artifactPath)) := by
  have hn := fun env w h => NPM_packageArtifacts_path (NewNPMBuilder config options) env w h
  have hm := fun env w h => (Maven_packageArtifacts_path (NewMavenBuilder config options) env w h).1
  have hg := fun env w h =>
    (Gradle_packageArtifacts_path (NewGradleBuilder config options) env w h).1
  have hv : options.Version ≠ "" → ∀ env : Env, versionOf options env = options.Version :=
    fun h env => by simp [versionOf, h]
  refine ⟨fun version ext => ⟨rfl, fun hsl => Base_Join _ _ (outputDirOf_ne_empty options)
      (hyphen_mem_artifactFileName config version ext) hsl⟩,
    hn, hm, hg, fun h => ⟨hv h, fun env₁ env₂ w₁ w₂ => ⟨?_, ?_, ?_⟩⟩⟩
  · intro h₁ h₂
    rw [hn env₁ w₁ h₁, hn env₂ w₂ h₂]
    simp only [NewNPMBuilder, hv h]
  · intro h₁ h₂
    rw [hm env₁ w₁ h₁, hm env₂ w₂ h₂]
    simp only [NewMavenBuilder, hv h]
  · intro h₁ h₂
    rw [hg env₁ w₁ h₁, hg env₂ w₂ h₂]
    simp only [NewGradleBuilder, hv h]

/-- Witness for C10: two Maven packaging runs of version `1.0.0` at different
times both succeed, with the artifact `build/app-1.0.0.jar`. -/
theorem artifact_name_witness :
    sampleOptions.Version ≠ "" ∧
    ((NewMavenBuilder sampleConfig sampleOptions).packageArtifacts mavenTargetEnv
      startWorld).1.artifactPath = "build/app-1.0.0.jar" ∧
    ((NewMavenBuilder sampleConfig sampleOptions).packageArtifacts mavenTargetEnv
      startWorld).1.artifactPath =
    ((NewMavenBuilder sampleConfig sampleOptions).packageArtifacts mavenTargetLaterEnv
      startWorld).1.artifactPath :=
  ⟨by decide, by decide,
    (((artifact_name sampleConfig sampleOptions).2.2.2.2 (by decide)).2
      mavenTargetEnv mavenTargetLaterEnv startWorld startWorld).2.1 (by decide) (by decide)⟩

/-! ## The NPM archive -/

theorem NPM_walkFn_ok (buildDir : String) (env : Env) (acc acc' : WalkAcc) (w w' : World)
    (e : WalkEntry) (h : NPMBuilder.walkFn buildDir env acc w e = (none, acc', w')) :
    acc'.files = acc.files ++ walkNames buildDir env [e] ∧
    acc'.totalSize = acc.totalSize + walkCopied buildDir env [e] ∧
    w'.trace = w.trace ++ walkEvents buildDir env [e] ∧ w'.cwd = w.cwd := by
  unfold NPMBuilder.walkFn at h
  simp only [walkNames, walkCopied, walkEvents, relName, List.map_cons, List.map_nil,
    List.append_nil, Int.add_zero]
  cases he : e.err with
  | some err => simp [he] at h
  | none =>
    simp only [he] at h
    obtain ⟨relPath, re, hr⟩ : ∃ a b, env.rel buildDir e.path = (a, b) := ⟨_, _, rfl⟩
    simp only [hr] at h ⊢
    cases re with
    | some err => simp at h
    | none =>
      dsimp only at h ⊢
      by_cases hdot : relPath = "."
      · simp only [hdot, if_true, Prod.mk.injEq, true_and] at h
        obtain ⟨rfl, rfl⟩ := h
        simp [hdot]
      · simp only [hdot, if_false] at h
        cases hh : env.fileInfoHeader e.path with
        | some err => simp [hh] at h
        | none =>
          simp only [hh] at h
          cases hw : env.writeHeader relPath with
          | some err => simp [hw] at h
          | none =>
            simp only [hw] at h
            cases hd : e.IsDir with
            | true =>
              simp only [hd, Bool.not_true, Bool.false_eq_true, if_false, Prod.mk.injEq,
                true_and] at h
              obtain ⟨rfl, rfl⟩ := h
              simp [hdot, World.record]
            | false =>
              simp only [hd, Bool.not_false, if_true] at h
              cases ho : env.open' e.path with
              | some err => simp [ho] at h
              | none =>
                simp only [ho] at h
                obtain ⟨size, ce, hc⟩ : ∃ a b, env.ioCopy e.path = (a, b) := ⟨_, _, rfl⟩
                simp only [hc] at h ⊢
                cases ce with
                | some err => simp at h
                | none =>
                  simp only [Prod.mk.injEq, true_and] at h
                  obtain ⟨rfl, rfl⟩ := h
                  simp [hdot, World.record]

theorem walkNames_cons (buildDir : String) (env : Env) (e : WalkEntry) (rest : List WalkEntry) :
    walkNames buildDir env (e :: rest) =
      walkNames buildDir env [e] ++ walkNames buildDir env rest := by
  simp only [walkNames, List.map_cons, List.map_nil]
  rw [← List.filter_append]
  rfl

theorem walkEvents_cons (buildDir : String) (env : Env) (e : WalkEntry)
    (rest : List WalkEntry) :
    walkEvents buildDir env (e :: rest) =
      walkEvents buildDir env [e] ++ walkEvents buildDir env rest := by
  simp [walkEvents]

theorem walkCopied_cons (buildDir : String) (env : Env) (e : WalkEntry)
    (rest : List WalkEntry) :
    walkCopied buildDir env (e :: rest) =
      walkCopied buildDir env [e] + walkCopied buildDir env rest := by
  simp [walkCopied]

theorem NPM_walkLoop_ok (buildDir : String) (env : Env) (entries : List WalkEntry)
    (acc acc' : WalkAcc) (w w' : World)
    (h : NPMBuilder.walkLoop buildDir env entries acc w = (none, acc', w')) :
    acc'.files = acc.files ++ walkNames buildDir env entries ∧
    acc'.totalSize = acc.totalSize + walkCopied buildDir env entries ∧
    w'.trace = w.trace ++ walkEvents buildDir env entries := by
  induction entries generalizing acc w with
  | nil =>
    simp only [NPMBuilder.walkLoop, Prod.mk.injEq, true_and] at h
    obtain ⟨rfl, rfl⟩ := h
    simp [walkNames, walkCopied, walkEvents]
  | cons e rest ih =>
    unfold NPMBuilder.walkLoop at h
    obtain ⟨oe, acc1, w1, hf⟩ : ∃ a b c, NPMBuilder.walkFn buildDir env acc w e = (a, b, c) :=
      ⟨_, _, _, rfl⟩
    rw [hf] at h
    cases oe with
    | some err => simp at h
    | none =>
      dsimp only at h
      have h1 := NPM_walkFn_ok buildDir env acc acc1 w w1 e hf
      have h2 := ih acc1 w1 h
      rw [walkNames_cons, walkEvents_cons, walkCopied_cons]
      refine ⟨?_, ?_, ?_⟩
      · rw [h2.1, h1.1, List.append_assoc]
      · rw [h2.2.1, h1.2.1, Int.add_assoc]
      · rw [h2.2.2, h1.2.2.1, List.append_assoc]

/-- What a successful `NPMBuilder.packageArtifacts` returns and does. -/
theorem NPM_packageArtifacts_ok (n : NPMBuilder) (env : Env) (w : World)
    (h : (n.packageArtifacts env w).1.err = none) :
    (n.packageArtifacts env w).1.files =
        walkNames (npmBuildDir n) env (env.walk (npmBuildDir n)) ∧
      (n.packageArtifacts env w).1.size =
        (if env.stat (n.packageArtifacts env w).1.artifactPath = .ok then
          env.statSize (n.packageArtifacts env w).1.artifactPath
            (w.trace ++
              [Event.mkdirAll (outputDirOf n.options),
               Event.create (n.packageArtifacts env w).1.artifactPath] ++
              walkEvents (npmBuildDir n) env (env.walk (npmBuildDir n)) ++
              [Event.statSize (n.packageArtifacts env w).1.artifactPath])
         else walkCopied (npmBuildDir n) env (env.walk (npmBuildDir n))) ∧
      (n.packageArtifacts env w).2.trace =
        w.trace ++
          [Event.mkdirAll (outputDirOf n.options),
           Event.create (n.packageArtifacts env w).1.artifactPath] ++
          walkEvents (npmBuildDir n) env (env.walk (npmBuildDir n)) ++
          [Event.statSize (n.packageArtifacts env w).1.artifactPath, Event.tarClose,
           Event.gzipClose, Event.fileClose (n.packageArtifacts env w).1.artifactPath] := by
  unfold NPMBuilder.packageArtifacts at h ⊢
  dsimp only [outputDirOf, npmBuildDir] at h ⊢
  generalize (if n.config.NPM.BuildDir = "" then "dist" else n.config.NPM.BuildDir) = buildDir
    at h ⊢
  generalize (if n.options.OutputPath = "" then "./build" else n.options.OutputPath) = outputDir
    at h ⊢
  generalize Join outputDir (n.config.Project.Name ++ "-" ++
    (if n.options.Version = "" then env.now else n.options.Version) ++ ".tar.gz") = artifactPath
    at h ⊢
  by_cases h1 : env.stat buildDir = .notExist
  · simp [h1, Packaged.fail] at h
  · simp only [h1, if_false] at h ⊢
    cases h2 : env.mkdirAll outputDir with
    | some e => simp [h2, Packaged.fail] at h
    | none =>
      simp only [h2] at h ⊢
      cases h3 : env.create artifactPath with
      | some e => simp [h3, Packaged.fail] at h
      | none =>
        simp only [h3] at h ⊢
        obtain ⟨oe, acc, w', hw⟩ : ∃ a b c, NPMBuilder.walkLoop buildDir env (env.walk buildDir)
            { files := [], totalSize := 0 }
            ((w.record (.mkdirAll outputDir)).record (.create artifactPath)) = (a, b, c) :=
          ⟨_, _, _, rfl⟩
        rw [hw] at h ⊢
        cases oe with
        | some err => simp [Packaged.fail] at h
        | none =>
          have hl := NPM_walkLoop_ok buildDir env _ _ acc _ w' hw
          dsimp only
          refine ⟨?_, ?_, ?_⟩
          · simpa using hl.1
          · simp [hl.2.1, World.record, hl.2.2]
          · simp [closeArchive, World.record, hl.2.2]

theorem tarHeader_dot_not_mem_walkEvents (buildDir : String) (env : Env)
    (entries : List WalkEntry) : Event.tarHeader "." ∉ walkEvents buildDir env entries := by
  induction entries with
  | nil => simp [walkEvents]
  | cons e rest ih =>
    rw [walkEvents_cons]
    intro hm
    rcases List.mem_append.1 hm with h | h
    · simp only [walkEvents, List.append_nil] at h
      split at h
      · simp at h
      · rename_i hdot
        split at h
        · simp only [List.mem_singleton, Event.tarHeader.injEq] at h
          exact hdot h.symm
        · simp only [List.mem_cons, Event.tarHeader.injEq, List.mem_singleton] at h
          rcases h with h | h
          · exact hdot h.symm
          · rcases h with h | h
            · cases h
            · simp at h
    · exact ih h

theorem mem_walkEvents (buildDir : String) (env : Env) (entries : List WalkEntry)
    (e : WalkEntry) (he : e ∈ entries) (hf : e.IsDir = false)
    (hdot : relName buildDir env e ≠ ".") :
    Event.tarHeader (relName buildDir env e) ∈ walkEvents buildDir env entries ∧
    Event.tarData e.path (env.ioCopy e.path).1 ∈ walkEvents buildDir env entries := by
  induction entries with
  | nil => simp at he
  | cons x rest ih =>
    rw [walkEvents_cons]
    rcases List.mem_cons.1 he with h | h
    · subst h
      simp [walkEvents, hdot, hf]
    · have := ih h
      exact ⟨List.mem_append_right _ this.1, List.mem_append_right _ this.2⟩

theorem NPM_walkFn_no_dot (buildDir : String) (env : Env) (acc : WalkAcc) (w : World)
    (e : WalkEntry)
    (h : Event.tarHeader "." ∈ (NPMBuilder.walkFn buildDir env acc w e).2.2.trace) :
    Event.tarHeader "." ∈ w.trace := by
  unfold NPMBuilder.walkFn at h
  cases he : e.err with
  | some err => simpa [he] using h
  | none =>
    simp only [he] at h
    obtain ⟨relPath, re, hr⟩ : ∃ a b, env.rel buildDir e.path = (a, b) := ⟨_, _, rfl⟩
    simp only [hr] at h
    cases re with
    | some err => simpa using h
    | none =>
      dsimp only at h
      by_cases hdot : relPath = "."
      · simpa [hdot] using h
      · have hne : ¬ ("." = relPath) := fun hh => hdot hh.symm
        simp only [hdot, if_false] at h
        cases hh : env.fileInfoHeader e.path with
        | some err => simpa [hh] using h
        | none =>
          simp only [hh] at h
          cases hw : env.writeHeader relPath with
          | some err => simpa [hw] using h
          | none =>
            simp only [hw] at h
            cases hd : e.IsDir with
            | true => simpa [hd, World.record, hne] using h
            | false =>
              simp only [hd, Bool.not_false, if_true] at h
              cases ho : env.open' e.path with
              | some err => simpa [ho, World.record, hne] using h
              | none =>
                simp only [ho] at h
                obtain ⟨size, ce, hc⟩ : ∃ a b, env.ioCopy e.path = (a, b) := ⟨_, _, rfl⟩
                simp only [hc] at h
                cases ce with
                | some err => simpa [World.record, hne] using h
                | none => simpa [World.record, hne] using h

theorem NPM_walkLoop_no_dot (buildDir : String) (env : Env) (entries : List WalkEntry)
    (acc : WalkAcc) (w : World)
    (h : Event.tarHeader "." ∈ (NPMBuilder.walkLoop buildDir env entries acc w).2.2.trace) :
    Event.tarHeader "." ∈ w.trace := by
  induction entries generalizing acc w with
  | nil => simpa [NPMBuilder.walkLoop] using h
  | cons e rest ih =>
    unfold NPMBuilder.walkLoop at h
    have hf := NPM_walkFn_no_dot buildDir env acc w e
    obtain ⟨oe, acc1, w1, hfn⟩ : ∃ a b c, NPMBuilder.walkFn buildDir env acc w e = (a, b, c) :=
      ⟨_, _, _, rfl⟩
    rw [hfn] at h hf
    cases oe with
    | some err => exact hf h
    | none => exact hf (ih acc1 w1 h)

theorem NPM_packageArtifacts_no_dot (n : NPMBuilder) (env : Env) (w : World)
    (h : Event.tarHeader "." ∈ (n.packageArtifacts env w).2.trace) :
    Event.tarHeader "." ∈ w.trace := by
  unfold NPMBuilder.packageArtifacts at h
  dsimp only at h
  generalize (if n.config.NPM.BuildDir = "" then "dist" else n.config.NPM.BuildDir) = buildDir
    at h
  generalize (if n.options.OutputPath = "" then "./build" else n.options.OutputPath) = outputDir
    at h
  generalize Join outputDir (n.config.Project.Name ++ "-" ++
    (if n.options.Version = "" then env.now else n.options.Version) ++ ".tar.gz") = artifactPath
    at h
  by_cases h1 : env.stat buildDir = .notExist
  · simpa [h1] using h
  · simp only [h1, if_false] at h
    cases h2 : env.mkdirAll outputDir with
    | some e => simpa [h2, World.record] using h
    | none =>
      simp only [h2] at h
      cases h3 : env.create artifactPath with
      | some e => simpa [h3, World.record] using h
      | none =>
        simp only [h3] at h
        have hl := NPM_walkLoop_no_dot buildDir env (env.walk buildDir)
          { files := [], totalSize := 0 }
          ((w.record (.mkdirAll outputDir)).record (.create artifactPath))
        obtain ⟨oe, acc, w', hw⟩ : ∃ a b c, NPMBuilder.walkLoop buildDir env (env.walk buildDir)
            { files := [], totalSize := 0 }
            ((w.record (.mkdirAll outputDir)).record (.create artifactPath)) = (a, b, c) :=
          ⟨_, _, _, rfl⟩
        rw [hw] at h hl
        have hl' : Event.tarHeader "." ∈ w'.trace → Event.tarHeader "." ∈ w.trace := by
          intro hm
          simpa [World.record] using hl hm
        cases oe with
        | some err => exact hl' (by simpa [closeArchive, World.record] using h)
        | none => exact hl' (by simpa [closeArchive, World.record] using h)

/-- C11. A successful NPM `packageArtifacts` makes exactly these calls, in
order: it creates the output directory and the archive file, writes for every
walked entry other than the build directory root a header whose name is the
path of the entry relative to the build directory (`filepath.Rel`), followed
for a non-directory by the content of the file, and then reads the size and
closes the writers. So each regular file under the build directory is written
under its relative path (`dist/index.html` as `index.html`,
`dist/assets/app.js` as `assets/app.js`), and no run, successful or not,
writes an entry named `.` for the root. -/
theorem NPM_archive_entries (n : NPMBuilder) (env : Env) (w : World) :
    (Event.tarHeader "." ∈ (n.packageArtifacts env w).2.trace →
      Event.tarHeader "." ∈ w.trace) ∧
    ((n.packageArtifacts env w).1.err = none →
      (n.packageArtifacts env w).2.trace =
        w.trace ++
          [Event.mkdirAll (outputDirOf n.options),
           Event.create (n.packageArtifacts env w).1.artifactPath] ++
          walkEvents (npmBuildDir n) env (env.walk (npmBuildDir n)) ++
          [Event.statSize (n.packageArtifacts env w).1.artifactPath, Event.tarClose,
           Event.gzipClose, Event.fileClose (n.packageArtifacts env w).1.artifactPath] ∧
      ∀ e ∈ env.walk (npmBuildDir n), e.IsDir = false →
        relName (npmBuildDir n) env e ≠ "." →
        Event.tarHeader (relName (npmBuildDir n) env e) ∈
            (n.packageArtifacts env w).2.trace ∧
          Event.tarData e.path (env.ioCopy e.path).1 ∈
            (n.packageArtifacts env w).2.trace) ∧
    ((NewNPMBuilder sampleConfig sampleOptions).packageArtifacts distEnv startWorld).2.trace =
      [.mkdirAll "./build", .create "build/app-1.0.0.tar.gz",
       .tarHeader "assets", .tarHeader "assets/app.js", .tarData "dist/assets/app.js" 120,
       .tarHeader "index.html", .tarData "dist/index.html" 300,
       .statSize "build/app-1.0.0.tar.gz", .tarClose, .gzipClose,
       .fileClose "build/app-1.0.0.tar.gz"] := by
  refine ⟨NPM_packageArtifacts_no_dot n env w, fun h => ?_, by decide⟩
  have hok := (NPM_packageArtifacts_ok n env w h).2.2
  refine ⟨hok, fun e he hf hdot => ?_⟩
  have hm := mem_walkEvents (npmBuildDir n) env _ e he hf hdot
  rw [hok]
  constructor
  · exact List.mem_append_left _ (List.mem_append_right _ hm.1)
  · exact List.mem_append_left _ (List.mem_append_right _ hm.2)

/-- Witness for C11: in the run over `dist/index.html` and
`dist/assets/app.js` the file `dist/assets/app.js` is written under the name
`assets/app.js`. -/
theorem NPM_archive_entries_witness :
    ((NewNPMBuilder sampleConfig sampleOptions).packageArtifacts distEnv startWorld).1.err =
      none ∧
    Event.tarHeader "assets/app.js" ∈
      ((NewNPMBuilder sampleConfig sampleOptions).packageArtifacts distEnv
        startWorld).2.trace ∧
    Event.tarData "dist/assets/app.js" 120 ∈
      ((NewNPMBuilder sampleConfig sampleOptions).packageArtifacts distEnv
        startWorld).2.trace :=
  ⟨by decide,
    ((NPM_archive_entries (NewNPMBuilder sampleConfig sampleOptions) distEnv startWorld).2.1
      (by decide)).2
      { path := "dist/assets/app.js", Name := "app.js", IsDir := false, Size := 120,
        err := none }
      (by decide) rfl (by decide)⟩

/-- C12, counterexample. For the tree holding `index.html` and
`assets/app.js` two non-directory entries are walked, and the `Files` list has
three entries: the directory `assets` is listed too. -/
theorem NPM_files_counts_directories :
    ((distEnv.walk "dist").filter (fun e => !e.IsDir)).length = 2 ∧
    ((NewNPMBuilder sampleConfig sampleOptions).packageArtifacts distEnv startWorld).1.err =
      none ∧
    ((NewNPMBuilder sampleConfig sampleOptions).packageArtifacts distEnv startWorld).1.files =
      ["assets", "assets/app.js", "index.html"] := by
  decide

/-- C12, as amended. The `Files` list of a successful NPM `packageArtifacts`
holds the relative path of every walked entry other than the build directory
root, directories included, so its length is the number of walked entries
whose relative path is not `.`; for the tree holding `index.html` and
`assets/app.js` it has three entries, and for a build directory holding the
single file `index.html` it is `["index.html"]`. -/
theorem NPM_files_list (n : NPMBuilder) (env : Env) (w : World)
    (h : (n.packageArtifacts env w).1.err = none) :
    (n.packageArtifacts env w).1.files =
        walkNames (npmBuildDir n) env (env.walk (npmBuildDir n)) ∧
      (n.packageArtifacts env w).1.files.length =
        ((env.walk (npmBuildDir n)).filter
          (fun e => decide (relName (npmBuildDir n) env e ≠ "."))).length ∧
      ((NewNPMBuilder sampleConfig sampleOptions).packageArtifacts distEnv
          startWorld).1.files.length = 3 ∧
      ((NewNPMBuilder sampleConfig sampleOptions).packageArtifacts singleFileEnv
          startWorld).1.files = ["index.html"] := by
  have hf := (NPM_packageArtifacts_ok n env w h).1
  refine ⟨hf, ?_, by decide, by decide⟩
  rw [hf, walkNames, List.filter_map, List.length_map]
  rfl

/-- Witness for C12: the run over the single file `index.html`. -/
theorem NPM_files_list_witness :
    ((NewNPMBuilder sampleConfig sampleOptions).packageArtifacts singleFileEnv
        startWorld).1.files =
      walkNames "dist" singleFileEnv (singleFileEnv.walk "dist") ∧
    walkNames "dist" singleFileEnv (singleFileEnv.walk "dist") = ["index.html"] :=
  ⟨(NPM_files_list (NewNPMBuilder sampleConfig sampleOptions) singleFileEnv startWorld
      (by decide)).1, by decide⟩

/-! ## The default output directory and the time stamp -/

theorem Join_build (name : String) (hy : '-' ∈ name.data) (hsl : '/' ∉ name.data) :
    Join "./build" name = "build/" ++ name := by
  have hdata : ("./build" ++ "/" ++ name).data = "./build".data ++ '/' :: name.data := by
    simp [String.data_append]
  have hroot : (("./build".data ++ '/' :: name.data).head? == some '/') = false := by
    rfl
  have hfold : List.foldl (cleanStep false) [] (splitSlash "./build".data) =
      [['b', 'u', 'i', 'l', 'd']] := by
    decide
  unfold Join
  rw [if_pos (by decide)]
  unfold Clean
  simp only [hdata]
  rw [splitSlash_append _ _ hsl, List.foldl_append, hroot, hfold]
  simp only [List.foldl_cons, List.foldl_nil, cleanStep_normal _ _ _ hy]
  apply String.ext
  simp [List.intercalate, String.data_append]

theorem isTimestamp_no_slash (s : String) (h : isTimestamp s = true) : '/' ∉ s.data := by
  unfold isTimestamp at h
  split at h
  · rename_i heq
    rw [heq]
    simp only [List.all_cons, List.all_nil, Bool.and_true, Bool.and_eq_true] at h
    intro hm
    have hd : Char.isDigit '/' = false := by decide
    simp only [List.mem_cons, List.mem_singleton, List.not_mem_nil, or_false] at hm
    rcases hm with hm | hm | hm | hm | hm | hm | hm | hm | hm | hm | hm | hm | hm | hm | hm
    all_goals first
      | (subst hm; simp_all)
      | exact absurd hm (by decide)
  · simp at h

/-- C13, counterexample. With no version and no output directory the path a
successful NPM packaging returns has no leading `./`: `filepath.Join` cleans
it. -/
theorem NPM_default_path_is_cleaned :
    plainOptions.Version = "" ∧ plainOptions.OutputPath = "" ∧
    isTimestamp distEnv.now = true ∧
    ((NewNPMBuilder sampleConfig plainOptions).packageArtifacts distEnv startWorld).1.err =
      none ∧
    ((NewNPMBuilder sampleConfig plainOptions).packageArtifacts distEnv
        startWorld).1.artifactPath = "build/app-20240102-030405.tar.gz" ∧
    ((NewNPMBuilder sampleConfig plainOptions).packageArtifacts distEnv
        startWorld).1.artifactPath ≠
      "./build/" ++ sampleConfig.Project.Name ++ "-" ++ distEnv.now ++ ".tar.gz" := by
  decide

/-- C13, as amended. For an NPM packaging whose options have an empty
`Version` and an empty `OutputPath`, the directory created is `./build` and
the path returned on success is
`filepath.Join("./build", Project.Name ++ "-" ++ T ++ ".tar.gz")`, where `T`
is the formatted current time; for a project name without a path separator
and `T` of the shape `YYYYMMDD-HHMMSS` that is the string
`"build/" ++ Project.Name ++ "-" ++ T ++ ".tar.gz"`. -/
theorem NPM_default_artifact_path (config : Config) (options : BuildOptions) (env : Env)
    (w : World) (hv : options.Version = "") (ho : options.OutputPath = "")
    (h : ((NewNPMBuilder config options).packageArtifacts env w).1.err = none) :
    Event.mkdirAll "./build" ∈
        ((NewNPMBuilder config options).packageArtifacts env w).2.trace ∧
      ((NewNPMBuilder config options).packageArtifacts env w).1.artifactPath =
        Join "./build" (config.Project.Name ++ "-" ++ env.now ++ ".tar.gz") ∧
      ('/' ∉ config.Project.Name.data → isTimestamp env.now = true →
        ((NewNPMBuilder config options).packageArtifacts env w).1.artifactPath =
          "build/" ++ (config.Project.Name ++ "-" ++ env.now ++ ".tar.gz")) := by
  have hp := NPM_packageArtifacts_path (NewNPMBuilder config options) env w h
  have ht := (NPM_packageArtifacts_ok (NewNPMBuilder config options) env w h).2.2
  have hout : outputDirOf (NewNPMBuilder config options).options = "./build" := by
    simp [outputDirOf, NewNPMBuilder, ho]
  have hname : artifactFileName (NewNPMBuilder config options).config
      (versionOf (NewNPMBuilder config options).options env) ".tar.gz" =
      config.Project.Name ++ "-" ++ env.now ++ ".tar.gz" := by
    simp [artifactFileName, versionOf, NewNPMBuilder, hv]
  rw [hout, hname] at hp
  refine ⟨?_, hp, fun hn hts => ?_⟩
  · rw [ht, hout]
    simp
  · rw [hp]
    apply Join_build
    · simp [String.data_append]
    · have hnow := isTimestamp_no_slash env.now hts
      simp only [String.data_append, List.mem_append, not_or]
      exact ⟨⟨⟨hn, by decide⟩, hnow⟩, by decide⟩

/-- Witness for C13: the packaging of `dist` at `20240102-030405`. -/
theorem NPM_default_artifact_path_witness :
    ((NewNPMBuilder sampleConfig plainOptions).packageArtifacts distEnv
        startWorld).1.artifactPath =
      "build/" ++ (sampleConfig.Project.Name ++ "-" ++ distEnv.now ++ ".tar.gz") :=
  (NPM_default_artifact_path sampleConfig plainOptions distEnv startWorld rfl rfl
    (by decide)).2.2 (by decide) (by decide)

/-! ## No JAR found -/

theorem findJarLoop_none (entries : List WalkEntry) (acc : List String)
    (h : noJarWalk entries) : findJarLoop entries acc = (acc, none) := by
  induction entries generalizing acc with
  | nil => rfl
  | cons e rest ih =>
    have he := h e (List.mem_cons_self _ _)
    unfold findJarLoop
    simp only [he.1, he.2, Bool.false_eq_true, if_false]
    exact ih acc (fun x hx => h x (List.mem_cons_of_mem _ hx))

/-- C14, counterexample. With no JAR under `target` (Maven) or `build/libs`
(Gradle) `packageArtifacts` fails with an untyped error that is not
`ErrArtifactNotFound` and does not wrap it. -/
theorem packageArtifacts_no_jar_untyped :
    noJarWalk (noJarEnv.walk "target") ∧ noJarWalk (noJarEnv.walk "build/libs") ∧
    ((NewMavenBuilder sampleConfig sampleOptions).packageArtifacts noJarEnv startWorld).1.err =
      some (.errorf "未找到 JAR 文件") ∧
    ((NewGradleBuilder sampleConfig sampleOptions).packageArtifacts noJarEnv startWorld).1.err =
      some (.errorf "未找到 JAR 文件") ∧
    GoError.errorf "未找到 JAR 文件" ≠ ErrArtifactNotFound ∧
    errorsIs (.errorf "未找到 JAR 文件") ErrArtifactNotFound = false := by
  decide

theorem findJarLoop_error (entries : List WalkEntry) (acc : List String) (err : GoError)
    (h : firstWalkError entries = some err) :
    (findJarLoop entries acc).2 = some err := by
  induction entries generalizing acc with
  | nil => simp [firstWalkError] at h
  | cons e rest ih =>
    unfold firstWalkError at h
    unfold findJarLoop
    cases he : e.err with
    | some ee =>
      simp only [he, Option.some.injEq] at h
      simp [h]
    | none =>
      simp only [he] at h
      exact ih _ h

theorem firstWalkError_none_of_noJarWalk (entries : List WalkEntry)
    (h : noJarWalk entries) : firstWalkError entries = none := by
  induction entries with
  | nil => rfl
  | cons e rest ih =>
    unfold firstWalkError
    rw [(h e (List.mem_cons_self _ _)).1]
    exact ih (fun x hx => h x (List.mem_cons_of_mem _ hx))

theorem Maven_Build_packaging_fails (m : MavenBuilder) (env : Env) (w w₂ : World)
    (err : GoError) (hgw : env.getwd = none)
    (hr : m.runMavenBuild env (osChdir env m.options.ProjectPath (w.record .getwd)).2 =
      (.returned none, w₂))
    (hc : env.chdir m.options.ProjectPath = none)
    (hp : m.packageArtifacts env w₂ = (Packaged.fail err, w₂)) :
    (m.Build env w).1 =
      .returned (some (failedResult ("打包失败: " ++ err.Error)), some err) := by
  have ho : osChdir env m.options.ProjectPath (w.record .getwd) =
      (none, (osChdir env m.options.ProjectPath (w.record .getwd)).2) := by
    simp [osChdir, hc]
  simp only [MavenBuilder.Build, hgw, MavenBuilder.buildBody]
  rw [ho]
  simp only [hr, hp]
  rfl

theorem Gradle_Build_packaging_fails (g : GradleBuilder) (env : Env) (w w₂ : World)
    (err : GoError) (hgw : env.getwd = none)
    (hr : g.runGradleBuild env (osChdir env g.options.ProjectPath (w.record .getwd)).2 =
      (none, w₂))
    (hc : env.chdir g.options.ProjectPath = none)
    (hp : g.packageArtifacts env w₂ = (Packaged.fail err, w₂)) :
    (g.Build env w).1 =
      .returned (some (failedResult ("打包失败: " ++ err.Error)), some err) := by
  have ho : osChdir env g.options.ProjectPath (w.record .getwd) =
      (none, (osChdir env g.options.ProjectPath (w.record .getwd)).2) := by
    simp [osChdir, hc]
  simp only [GradleBuilder.Build, hgw, GradleBuilder.buildBody]
  rw [ho]
  simp only [hr, hp]
  rfl

/-- C14, as amended. For the Maven and Gradle builders, when the walk of the
tool's output directory runs to its end without an error and discovers no
file whose name ends in `.jar`, `packageArtifacts` fails with the untyped
error `未找到 JAR 文件` (it is not `ErrArtifactNotFound` and does not wrap it)
and makes no call at all, so no file is copied; and `Build`, once the build
command has succeeded, returns `Success` false, the message
`打包失败: 未找到 JAR 文件` and that error. When the walk reports an error (the
output directory does not exist, say), `packageArtifacts` fails with that
error wrapped as `查找 JAR 文件失败: ...`, again without a call, and `Build`
returns `Success` false, the message `打包失败: 查找 JAR 文件失败: ...` and that
error. -/
theorem packageArtifacts_no_jar (env : Env) (w : World) :
    (∀ m : MavenBuilder,
      (noJarWalk (env.walk "target") →
        m.packageArtifacts env w = (Packaged.fail (.errorf "未找到 JAR 文件"), w) ∧
        ∀ w₂ : World, env.getwd = none →
          m.runMavenBuild env (osChdir env m.options.ProjectPath (w.record .getwd)).2 =
            (.returned none, w₂) →
          env.chdir m.options.ProjectPath = none →
          (m.Build env w).1 =
            .returned (some (failedResult "打包失败: 未找到 JAR 文件"),
              some (.errorf "未找到 JAR 文件"))) ∧
      (∀ err : GoError, firstWalkError (env.walk "target") = some err →
        m.packageArtifacts env w = (Packaged.fail (.wrap "查找 JAR 文件失败: " err), w) ∧
        ∀ w₂ : World, env.getwd = none →
          m.runMavenBuild env (osChdir env m.options.ProjectPath (w.record .getwd)).2 =
            (.returned none, w₂) →
          env.chdir m.options.ProjectPath = none →
          (m.Build env w).1 =
            .returned (some (failedResult ("打包失败: 查找 JAR 文件失败: " ++ err.Error)),
              some (.wrap "查找 JAR 文件失败: " err)))) ∧
    (∀ g : GradleBuilder,
      (noJarWalk (env.walk "build/libs") →
        g.packageArtifacts env w = (Packaged.fail (.errorf "未找到 JAR 文件"), w) ∧
        ∀ w₂ : World, env.getwd = none →
          g.runGradleBuild env (osChdir env g.options.ProjectPath (w.record .getwd)).2 =
            (none, w₂) →
          env.chdir g.options.ProjectPath = none →
          (g.Build env w).1 =
            .returned (some (failedResult "打包失败: 未找到 JAR 文件"),
              some (.errorf "未找到 JAR 文件"))) ∧
      (∀ err : GoError, firstWalkError (env.walk "build/libs") = some err →
        g.packageArtifacts env w = (Packaged.fail (.wrap "查找 JAR 文件失败: " err), w) ∧
        ∀ w₂ : World, env.getwd = none →
          g.runGradleBuild env (osChdir env g.options.ProjectPath (w.record .getwd)).2 =
            (none, w₂) →
          env.chdir g.options.ProjectPath = none →
          (g.Build env w).1 =
            .returned (some (failedResult ("打包失败: 查找 JAR 文件失败: " ++ err.Error)),
              some (.wrap "查找 JAR 文件失败: " err)))) ∧
    errorsIs (.errorf "未找到 JAR 文件") ErrArtifactNotFound = false := by
  have hm : ∀ (m : MavenBuilder) (w' : World), noJarWalk (env.walk "target") →
      m.packageArtifacts env w' = (Packaged.fail (.errorf "未找到 JAR 文件"), w') := by
    intro m w' h
    simp [MavenBuilder.packageArtifacts, MavenBuilder.findJarFiles, findJarLoop_none _ _ h]
  have hg : ∀ (g : GradleBuilder) (w' : World), noJarWalk (env.walk "build/libs") →
      g.packageArtifacts env w' = (Packaged.fail (.errorf "未找到 JAR 文件"), w') := by
    intro g w' h
    simp [GradleBuilder.packageArtifacts, GradleBuilder.findJarFiles, findJarLoop_none _ _ h]
  have hme : ∀ (m : MavenBuilder) (w' : World) (err : GoError),
      firstWalkError (env.walk "target") = some err →
      m.packageArtifacts env w' = (Packaged.fail (.wrap "查找 JAR 文件失败: " err), w') := by
    intro m w' err h
    have hf := findJarLoop_error (env.walk "target") [] err h
    obtain ⟨jars, oe, hj⟩ : ∃ a b, findJarLoop (env.walk "target") [] = (a, b) :=
      ⟨_, _, rfl⟩
    rw [hj] at hf
    simp only at hf
    subst hf
    simp [MavenBuilder.packageArtifacts, MavenBuilder.findJarFiles, hj]
  have hge : ∀ (g : GradleBuilder) (w' : World) (err : GoError),
      firstWalkError (env.walk "build/libs") = some err →
      g.packageArtifacts env w' = (Packaged.fail (.wrap "查找 JAR 文件失败: " err), w') := by
    intro g w' err h
    have hf := findJarLoop_error (env.walk "build/libs") [] err h
    obtain ⟨jars, oe, hj⟩ : ∃ a b, findJarLoop (env.walk "build/libs") [] = (a, b) :=
      ⟨_, _, rfl⟩
    rw [hj] at hf
    simp only at hf
    subst hf
    simp [GradleBuilder.packageArtifacts, GradleBuilder.findJarFiles, hj]
  refine ⟨fun m => ⟨fun h => ⟨hm m w h, fun w₂ hgw hr hc => ?_⟩,
      fun err h => ⟨hme m w err h, fun w₂ hgw hr hc => ?_⟩⟩,
    fun g => ⟨fun h => ⟨hg g w h, fun w₂ hgw hr hc => ?_⟩,
      fun err h => ⟨hge g w err h, fun w₂ hgw hr hc => ?_⟩⟩, by decide⟩
  · exact Maven_Build_packaging_fails m env w w₂ _ hgw hr hc (hm m w₂ h)
  · exact Maven_Build_packaging_fails m env w w₂ _ hgw hr hc (hme m w₂ err h)
  · exact Gradle_Build_packaging_fails g env w w₂ _ hgw hr hc (hg g w₂ h)
  · exact Gradle_Build_packaging_fails g env w w₂ _ hgw hr hc (hge g w₂ err h)

/-- Witness for C14: the Maven build of `/srv/app` whose `target` holds no
JAR, and the Maven build of `/srv/app` without a `target` directory. -/
theorem packageArtifacts_no_jar_witness :
    (((NewMavenBuilder sampleConfig sampleOptions).packageArtifacts noJarEnv startWorld) =
        (Packaged.fail (.errorf "未找到 JAR 文件"), startWorld) ∧
      ((NewMavenBuilder sampleConfig sampleOptions).Build noJarEnv startWorld).1 =
        .returned (some (failedResult "打包失败: 未找到 JAR 文件"),
          some (.errorf "未找到 JAR 文件"))) ∧
    (((NewMavenBuilder sampleConfig sampleOptions).packageArtifacts emptyDirEnv startWorld) =
        (Packaged.fail
          (.wrap "查找 JAR 文件失败: " (.external "lstat: no such file or directory")),
          startWorld) ∧
      ((NewMavenBuilder sampleConfig sampleOptions).Build emptyDirEnv startWorld).1 =
        .returned
          (some (failedResult "打包失败: 查找 JAR 文件失败: lstat: no such file or directory"),
            some (.wrap "查找 JAR 文件失败: "
              (.external "lstat: no such file or directory")))) :=
  ⟨⟨(((packageArtifacts_no_jar noJarEnv startWorld).1
        (NewMavenBuilder sampleConfig sampleOptions)).1 (by decide)).1,
     (((packageArtifacts_no_jar noJarEnv startWorld).1
        (NewMavenBuilder sampleConfig sampleOptions)).1 (by decide)).2
        { cwd := "/srv/app",
          trace := [.getwd, .chdir "/srv/app", .exec "mvn" ["clean", "package"]] }
        rfl (by decide) rfl⟩,
   ⟨(((packageArtifacts_no_jar emptyDirEnv startWorld).1
        (NewMavenBuilder sampleConfig sampleOptions)).2
        (.external "lstat: no such file or directory") (by decide)).1,
     ((((packageArtifacts_no_jar emptyDirEnv startWorld).1
        (NewMavenBuilder sampleConfig sampleOptions)).2
        (.external "lstat: no such file or directory") (by decide)).2
        { cwd := "/srv/app",
          trace := [.getwd, .chdir "/srv/app", .exec "mvn" ["clean", "package"]] }
        rfl (by decide) rfl).trans (by decide)⟩⟩

/-! ## The configured build command -/

theorem runFields_trace (env : Env) (command name : String) (args : List String) (w : World)
    (h : Fields command = name :: args) :
    runFields env command w = (.returned (env.run name args), w.record (.exec name args)) := by
  simp [runFields, h]

theorem Maven_runMavenBuild_trace (m : MavenBuilder) (env : Env) (w : World)
    (command name : String) (args : List String)
    (hc : (if m.config.Java.BuildCommand = "" then
        if m.options.SkipTests then "mvn clean package -DskipTests" else "mvn clean package"
      else m.config.Java.BuildCommand) = command)
    (h : Fields command = name :: args) :
    (m.runMavenBuild env w).2 = w.record (.exec name args) := by
  unfold MavenBuilder.runMavenBuild
  dsimp only
  rw [hc, outcome_match_cwd, runFields_trace env command name args w h]

/-- C15, counterexample. The Gradle builder keeps its default tasks although
the configured command is non-empty and the tool is `gradle`, when the
command has a single word; and the Maven builder runs the command configured
for the tool `gradle`. -/
theorem build_command_not_by_tool :
    oneWordGradleConfig.Java.BuildCommand ≠ "" ∧
    oneWordGradleConfig.Java.BuildTool = "gradle" ∧
    (NewGradleBuilder oneWordGradleConfig sampleOptions).tasks = ["clean", "build"] ∧
    ((NewGradleBuilder oneWordGradleConfig sampleOptions).runGradleBuild emptyDirEnv
      startWorld).2.trace = [.exec "gradle" ["clean", "build"]] ∧
    gradleToolConfig.Java.BuildTool ≠ "maven" ∧
    ((NewMavenBuilder gradleToolConfig sampleOptions).runMavenBuild emptyDirEnv
      startWorld).2.trace = [.exec "./gradlew" ["assemble"]] := by
  decide

/-- C15, as amended. The Gradle builder runs its Gradle command with the
words of `Java.BuildCommand` after the first as tasks exactly when the command
is non-empty, `Java.BuildTool` is `gradle` and the command has more than one
word; in every other case it runs the default tasks `clean build`, with
`-x test` appended iff `SkipTests`. The Maven builder runs `mvn clean package`,
with `-DskipTests` appended iff `SkipTests`, when `Java.BuildCommand` is
empty, and the words of `Java.BuildCommand` when that is non-empty and
`Java.BuildTool` is `maven`. -/
theorem build_command_choice (env : Env) (w : World) :
    (∀ g : GradleBuilder,
      (g.runGradleBuild env w).2 = w.record (.exec (g.getGradleCommand env) g.tasks) ∧
      g.tasks =
        if g.config.Java.BuildCommand ≠ "" ∧ g.config.Java.BuildTool = "gradle" ∧
            1 < (Fields g.config.Java.BuildCommand).length
        then (Fields g.config.Java.BuildCommand).drop 1
        else gradleDefaultTasks g.options.SkipTests) ∧
    (∀ m : MavenBuilder, m.config.Java.BuildCommand = "" →
      (m.runMavenBuild env w).2 =
        w.record (.exec "mvn" ((mavenDefaultCommand m.options.SkipTests).drop 1)) ∧
      mavenDefaultCommand m.options.SkipTests =
        ["mvn", "clean", "package"] ++ (if m.options.SkipTests then ["-DskipTests"] else [])) ∧
    (∀ (m : MavenBuilder) (name : String) (args : List String),
      m.config.Java.BuildCommand ≠ "" → m.config.Java.BuildTool = "maven" →
      Fields m.config.Java.BuildCommand = name :: args →
      (m.runMavenBuild env w).2 = w.record (.exec name args)) := by
  refine ⟨fun g => ⟨?_, ?_⟩, fun m hc => ⟨?_, ?_⟩, fun m name args hc _ hf => ?_⟩
  · unfold GradleBuilder.runGradleBuild execCommand
    dsimp only
    cases env.run (g.getGradleCommand env) g.tasks <;> rfl
  · unfold GradleBuilder.tasks gradleDefaultTasks
    dsimp only
    by_cases h1 : g.config.Java.BuildCommand = ""
    · simp [h1]
    · by_cases h2 : g.config.Java.BuildTool = "gradle"
      · by_cases h3 : 1 < (Fields g.config.Java.BuildCommand).length
        · simp [h1, h2, h3]
        · simp [h1, h2, h3]
      · simp [h1, h2]
  · cases hs : m.options.SkipTests
    · exact Maven_runMavenBuild_trace m env w "mvn clean package" "mvn" ["clean", "package"]
        (by simp [hc, hs]) (by decide)
    · exact Maven_runMavenBuild_trace m env w "mvn clean package -DskipTests" "mvn"
        ["clean", "package", "-DskipTests"] (by simp [hc, hs]) (by decide)
  · cases m.options.SkipTests <;> rfl
  · exact Maven_runMavenBuild_trace m env w m.config.Java.BuildCommand name args
      (by simp [hc]) hf

/-- Witness for C15: the Gradle builder with `./gradlew assemble` configured
runs the task `assemble`, and the Maven builder with `mvn -B verify`
configured runs `mvn -B verify`. -/
theorem build_command_choice_witness :
    (NewGradleBuilder gradleToolConfig sampleOptions).tasks = ["assemble"] ∧
    ((NewMavenBuilder mavenToolConfig sampleOptions).runMavenBuild emptyDirEnv startWorld).2 =
      startWorld.record (.exec "mvn" ["-B", "verify"]) :=
  ⟨(((build_command_choice emptyDirEnv startWorld).1
      (NewGradleBuilder gradleToolConfig sampleOptions)).2).trans (by decide),
   (build_command_choice emptyDirEnv startWorld).2.2
      (NewMavenBuilder mavenToolConfig sampleOptions) "mvn" ["-B", "verify"]
      (by decide) (by decide) (by decide)⟩

/-! ## Validation -/

theorem NPM_Validate_nil_iff (n : NPMBuilder) (env : Env) (w : World) :
    (n.Validate env w).1 = none ↔
      env.run "node" ["--version"] = none ∧ env.run "npm" ["--version"] = none ∧
        env.stat (Join n.options.ProjectPath "package.json") ≠ .notExist := by
  simp only [NPMBuilder.Validate, NPMBuilder.checkNodeJS, NPMBuilder.checkNPM, execCommand]
  cases env.run "node" ["--version"] <;> cases env.run "npm" ["--version"] <;> simp
  split <;> simp_all

theorem Maven_Validate_nil_iff (m : MavenBuilder) (env : Env) (w : World) :
    (m.Validate env w).1 = none ↔
      env.run "java" ["-version"] = none ∧ env.run "mvn" ["--version"] = none ∧
        env.stat (Join m.options.ProjectPath "pom.xml") ≠ .notExist := by
  simp only [MavenBuilder.Validate, checkJava, MavenBuilder.checkMaven, execCommand]
  cases env.run "java" ["-version"] <;> cases env.run "mvn" ["--version"] <;> simp
  split <;> simp_all

/-- C16, evaluated at a failing input. The tools run and the manifest cannot
be examined (`os.Stat` fails with an error other than not-exist, so the
manifest does not exist for `FileExists`): `Validate` of the NPM builder and
of the Maven builder return nil, while `Validate` of the Gradle builder
returns its manifest error. -/
theorem Validate_unreadable_manifest :
    FileExists unreadableManifestEnv.stat (Join "/srv/app" "package.json") = false ∧
    ((NewNPMBuilder sampleConfig sampleOptions).Validate unreadableManifestEnv
      startWorld).1 = none ∧
    FileExists unreadableManifestEnv.stat (Join "/srv/app" "pom.xml") = false ∧
    ((NewMavenBuilder sampleConfig sampleOptions).Validate unreadableManifestEnv
      startWorld).1 = none ∧
    ((NewGradleBuilder sampleConfig sampleOptions).Validate unreadableManifestEnv
      startWorld).1 = some (.errorf "build.gradle 或 build.gradle.kts 不存在") := by
  decide

/-! ## The build command and the declared type -/

theorem selectProjectType_explicit (t absProjectPath : String) (env : Env) (w : World)
    (h : t = "npm" ∨ t = "maven" ∨ t = "gradle") :
    ∃ pt, selectProjectType t absProjectPath env w = ((some pt, none), w) := by
  rcases h with h | h | h <;> subst h <;> exact ⟨_, rfl⟩

theorem runBuild_explicit_type (flags : BuildFlags) (args : List String) (env : Env)
    (cenv : CmdEnv) (w : World) (t₁ t₂ : String)
    (h₁ : t₁ = "npm" ∨ t₁ = "maven" ∨ t₁ = "gradle")
    (h₂ : t₂ = "npm" ∨ t₂ = "maven" ∨ t₂ = "gradle") :
    runBuild { flags with buildType := t₁ } args env cenv w =
      runBuild { flags with buildType := t₂ } args env cenv w := by
  unfold runBuild
  dsimp only
  split
  · rfl
  · split
    · rfl
    · rename_i absProjectPath w1 _
      generalize (match loadConfig env cenv flags.configFile with
        | (some cfg, none) => cfg
        | _ => GetDefaultConfig) = cfg
      generalize (if cfg.Project.Name = "" ∨ cfg.Project.Name = "my-app" then
          GetProjectName env absProjectPath w1
        else (cfg.Project.Name, w1)) = named
      obtain ⟨p₁, e₁⟩ := selectProjectType_explicit t₁ absProjectPath env named.2 h₁
      obtain ⟨p₂, e₂⟩ := selectProjectType_explicit t₂ absProjectPath env named.2 h₂
      rw [e₁, e₂]

/-- C17, evaluated at a failing input. With `--type=maven` in a directory that
holds `package.json` and `pom.xml`, `runBuild` detects the project inside
`BuildProject` and validates and builds with the NPM builder. For all flags,
arguments and environments the runs of `runBuild` with the types `npm`,
`maven` and `gradle` are the same: the declared type is not passed on. -/
theorem runBuild_ignores_declared_type :
    mavenTypeFlags.buildType = "maven" ∧
    ((runBuild mavenTypeFlags [] bothMarkersEnv plainCmdEnv startWorld).2.trace.filter
        (fun e => Event.isBuilderCall e || decide (e = .DetectProject "/srv/app"))) =
      [.DetectProject "/srv/app", .NewBuilder "npm", .Validate "npm", .Build "npm"] ∧
    (∀ (flags : BuildFlags) (args : List String) (env : Env) (cenv : CmdEnv) (w : World),
      runBuild { flags with buildType := "maven" } args env cenv w =
          runBuild { flags with buildType := "npm" } args env cenv w ∧
        runBuild { flags with buildType := "gradle" } args env cenv w =
          runBuild { flags with buildType := "npm" } args env cenv w) := by
  refine ⟨by decide, by decide, fun flags args env cenv w => ⟨?_, ?_⟩⟩
  · exact runBuild_explicit_type flags args env cenv w "maven" "npm"
      (Or.inr (Or.inl rfl)) (Or.inl rfl)
  · exact runBuild_explicit_type flags args env cenv w "gradle" "npm"
      (Or.inr (Or.inr rfl)) (Or.inl rfl)

/-! ## The size of the archive -/

/-- The size a successful NPM `packageArtifacts` returns, and when it is read:
the run ends with the three deferred `Close` calls, and the size is what
`os.Stat` reports for the archive before them, or the sum of the byte counts
of `io.Copy` when that `os.Stat` fails. -/
theorem NPM_size_before_close (n : NPMBuilder) (env : Env) (w : World)
    (h : (n.packageArtifacts env w).1.err = none) :
    ∃ before : List Event,
      (n.packageArtifacts env w).2.trace =
        before ++ closeEvents (n.packageArtifacts env w).1.artifactPath ∧
      (env.stat (n.packageArtifacts env w).1.artifactPath = .ok →
        (n.packageArtifacts env w).1.size =
          env.statSize (n.packageArtifacts env w).1.artifactPath before) ∧
      (env.stat (n.packageArtifacts env w).1.artifactPath ≠ .ok →
        (n.packageArtifacts env w).1.size =
          walkCopied (npmBuildDir n) env (env.walk (npmBuildDir n))) := by
  have hs := (NPM_packageArtifacts_ok n env w h).2.1
  have ht := (NPM_packageArtifacts_ok n env w h).2.2
  refine ⟨w.trace ++
      [Event.mkdirAll (outputDirOf n.options),
       Event.create (n.packageArtifacts env w).1.artifactPath] ++
      walkEvents (npmBuildDir n) env (env.walk (npmBuildDir n)) ++
      [Event.statSize (n.packageArtifacts env w).1.artifactPath], ?_, fun hok => ?_,
    fun hno => ?_⟩
  · rw [ht]
    simp [closeEvents]
  · rw [hs, if_pos hok]
  · rw [hs, if_neg hno]

theorem gzipClose_not_mem_walkEvents (buildDir : String) (env : Env)
    (entries : List WalkEntry) : Event.gzipClose ∉ walkEvents buildDir env entries := by
  induction entries with
  | nil => simp [walkEvents]
  | cons e rest ih =>
    rw [walkEvents_cons]
    intro hm
    rcases List.mem_append.1 hm with h | h
    · simp only [walkEvents, List.append_nil] at h
      split at h
      · simp at h
      · split at h <;> simp at h
    · exact ih h

/-- Where the archive grows when its writers are closed, the size a successful
NPM `packageArtifacts` takes from `os.Stat` is smaller than the size of the
archive when the function has returned. -/
theorem NPM_size_not_final (n : NPMBuilder) (env : Env) (w : World)
    (h : (n.packageArtifacts env w).1.err = none)
    (hok : env.stat (n.packageArtifacts env w).1.artifactPath = .ok)
    (hw : Event.gzipClose ∉ w.trace)
    (hg : growsOnClose env (n.packageArtifacts env w).1.artifactPath) :
    (n.packageArtifacts env w).1.size <
      env.statSize (n.packageArtifacts env w).1.artifactPath
        (n.packageArtifacts env w).2.trace := by
  have hs := (NPM_packageArtifacts_ok n env w h).2.1
  have ht := (NPM_packageArtifacts_ok n env w h).2.2
  rw [if_pos hok] at hs
  have hsplit : (n.packageArtifacts env w).2.trace =
      (w.trace ++
        [Event.mkdirAll (outputDirOf n.options),
         Event.create (n.packageArtifacts env w).1.artifactPath] ++
        walkEvents (npmBuildDir n) env (env.walk (npmBuildDir n)) ++
        [Event.statSize (n.packageArtifacts env w).1.artifactPath]) ++
      closeEvents (n.packageArtifacts env w).1.artifactPath := by
    rw [ht]
    simp [closeEvents]
  rw [hs, hsplit]
  apply hg
  have hwalk := gzipClose_not_mem_walkEvents (npmBuildDir n) env (env.walk (npmBuildDir n))
  simp [hw, hwalk]

theorem archiveEnv_growsOnClose (path : String) : growsOnClose archiveEnv path := by
  intro trace h
  simp [archiveEnv, closeEvents, h]

/-- C18, evaluated at a failing input. Packaging `dist/index.html` and
`dist/assets/app.js` succeeds and returns the size 10, which `os.Stat`
reported before the tar writer, the gzip writer and the file were closed; the
finished archive, after these calls, has 173 bytes. -/
theorem NPM_size_read_before_close :
    ((NewNPMBuilder sampleConfig sampleOptions).packageArtifacts archiveEnv
      startWorld).1.err = none ∧
    ((NewNPMBuilder sampleConfig sampleOptions).packageArtifacts archiveEnv
      startWorld).2.trace =
      [.mkdirAll "./build", .create "build/app-1.0.0.tar.gz",
       .tarHeader "assets", .tarHeader "assets/app.js", .tarData "dist/assets/app.js" 120,
       .tarHeader "index.html", .tarData "dist/index.html" 300,
       .statSize "build/app-1.0.0.tar.gz", .tarClose, .gzipClose,
       .fileClose "build/app-1.0.0.tar.gz"] ∧
    ((NewNPMBuilder sampleConfig sampleOptions).packageArtifacts archiveEnv
      startWorld).1.size = 10 ∧
    archiveEnv.statSize "build/app-1.0.0.tar.gz"
      ((NewNPMBuilder sampleConfig sampleOptions).packageArtifacts archiveEnv
        startWorld).2.trace = 173 ∧
    ((NewNPMBuilder sampleConfig sampleOptions).packageArtifacts archiveEnv
      startWorld).1.size ≠
      archiveEnv.statSize "build/app-1.0.0.tar.gz"
        ((NewNPMBuilder sampleConfig sampleOptions).packageArtifacts archiveEnv
          startWorld).2.trace := by
  decide

/-! ## Detection and the independent predicates -/

/-- Where the stats of `package.json` and `pom.xml` succeed or report
not-exist, `DetectProject` agrees with the three predicates. -/
theorem DetectProject_agrees (fs : FileSystem) (p : String)
    (h1 : fs (Join (detectPath p) "package.json") ≠ .otherErr)
    (h2 : fs (Join (detectPath p) "pom.xml") ≠ .otherErr) :
    (detectedType (DetectProject fs p) = some ProjectTypeNPM ↔
      IsNPMProject fs (detectPath p) = true) ∧
    (detectedType (DetectProject fs p) = some ProjectTypeMaven ↔
      IsNPMProject fs (detectPath p) = false ∧ IsMavenProject fs (detectPath p) = true) ∧
    (detectedType (DetectProject fs p) = some ProjectTypeGradle ↔
      IsNPMProject fs (detectPath p) = false ∧ IsMavenProject fs (detectPath p) = false ∧
        IsGradleProject fs (detectPath p) = true) ∧
    (detectedType (DetectProject fs p) = some ProjectTypeUnknown ↔
      IsNPMProject fs (detectPath p) = false ∧ IsMavenProject fs (detectPath p) = false ∧
        IsGradleProject fs (detectPath p) = false) := by
  have n1 : ProjectTypeNPM ≠ ProjectTypeMaven := by decide
  have n2 : ProjectTypeNPM ≠ ProjectTypeGradle := by decide
  have n3 : ProjectTypeNPM ≠ ProjectTypeUnknown := by decide
  have n4 : ProjectTypeMaven ≠ ProjectTypeGradle := by decide
  have n5 : ProjectTypeMaven ≠ ProjectTypeUnknown := by decide
  have n6 : ProjectTypeGradle ≠ ProjectTypeUnknown := by decide
  cases hp : fs (Join (detectPath p) "package.json") with
  | otherErr => exact absurd hp h1
  | ok =>
    rw [DetectProject_npm fs p (by simp [hp])]
    simp [detectedType, IsNPMProject, hp, n1, n2, n3]
  | notExist =>
    cases hm : fs (Join (detectPath p) "pom.xml") with
    | otherErr => exact absurd hm h2
    | ok =>
      rw [DetectProject_maven fs p hp (by simp [hm])]
      simp [detectedType, IsNPMProject, IsMavenProject, hp, hm, n1.symm, n4, n5]
    | notExist =>
      by_cases hg : fs (Join (detectPath p) "build.gradle") = .ok ∨
          fs (Join (detectPath p) "build.gradle.kts") = .ok
      · rw [DetectProject_gradle fs p hp hm hg]
        have hg' : IsGradleProject fs (detectPath p) = true := by
          simpa [IsGradleProject] using hg
        simp [detectedType, IsNPMProject, IsMavenProject, hp, hm, hg', n2.symm, n4.symm, n6]
      · have hg1 : fs (Join (detectPath p) "build.gradle") ≠ .ok := fun h => hg (Or.inl h)
        have hg2 : fs (Join (detectPath p) "build.gradle.kts") ≠ .ok := fun h => hg (Or.inr h)
        rw [DetectProject_unknown fs p hp hm hg1 hg2]
        have hg' : IsGradleProject fs (detectPath p) = false := by
          simp [IsGradleProject, hg1, hg2]
        simp [detectedType, IsNPMProject, IsMavenProject, hp, hm, hg', n3.symm, n5.symm,
          n6.symm]

/-- C19, evaluated at two failing inputs. When the `os.Stat` of `package.json`
fails with an error other than not-exist and nothing else exists, the three
predicates are false and `DetectProject` returns npm, not unknown; when it is
the `os.Stat` of `pom.xml` that fails so, `DetectProject` returns maven while
`IsMavenProject` is false. -/
theorem DetectProject_disagrees_with_predicates :
    (IsNPMProject unreadablePackageDir "/srv/app" = false ∧
      IsMavenProject unreadablePackageDir "/srv/app" = false ∧
      IsGradleProject unreadablePackageDir "/srv/app" = false ∧
      detectedType (DetectProject unreadablePackageDir "/srv/app") = some ProjectTypeNPM ∧
      (DetectProject unreadablePackageDir "/srv/app").2 = none) ∧
    (IsNPMProject unreadablePomDir "/srv/app" = false ∧
      IsMavenProject unreadablePomDir "/srv/app" = false ∧
      IsGradleProject unreadablePomDir "/srv/app" = false ∧
      detectedType (DetectProject unreadablePomDir "/srv/app") = some ProjectTypeMaven ∧
      (DetectProject unreadablePomDir "/srv/app").2 = none) := by
  decide

/-! ## Commands without a word -/

/-- C20, evaluated at failing inputs. A command that consists of white space
only is not the empty string, `strings.Fields` gives no word for it, and the
call `exec.Command(parts[0], parts[1:]...)` panics on the empty word list: in
`installDependencies`, in `runBuild` and in `runMavenBuild`, and so `Build` of
the NPM builder and of the Maven builder panic. -/
theorem blank_command_panics :
    (blankInstallConfig.NPM.InstallCommand ≠ "" ∧
      Fields blankInstallConfig.NPM.InstallCommand = [] ∧
      ((NewNPMBuilder blankInstallConfig sampleOptions).installDependencies emptyDirEnv
        startWorld).1 = .panicked "slice bounds out of range [1:0]") ∧
    (blankBuildConfig.NPM.BuildCommand ≠ "" ∧
      Fields blankBuildConfig.NPM.BuildCommand = [] ∧
      ((NewNPMBuilder blankBuildConfig sampleOptions).runBuild emptyDirEnv
        startWorld).1 = .panicked "slice bounds out of range [1:0]") ∧
    (blankJavaConfig.Java.BuildCommand ≠ "" ∧
      Fields blankJavaConfig.Java.BuildCommand = [] ∧
      ((NewMavenBuilder blankJavaConfig sampleOptions).runMavenBuild emptyDirEnv
        startWorld).1 = .panicked "slice bounds out of range [1:0]") ∧
    ((NewNPMBuilder blankInstallConfig sampleOptions).Build emptyDirEnv startWorld).1 =
      .panicked "slice bounds out of range [1:0]" ∧
    ((NewMavenBuilder blankJavaConfig sampleOptions).Build emptyDirEnv startWorld).1 =
      .panicked "slice bounds out of range [1:0]" := by
  decide

/-! ## The version of a successful result -/

theorem NPM_buildBody_success (n : NPMBuilder) (env : Env) (w : World)
    (r : BuildResult) (e : Option GoError)
    (h : (n.buildBody env w).1 = .returned (some r, e)) (hs : r.Success = true) :
    r.Version = n.options.Version ∧
    r.ArtifactPath =
      Join (outputDirOf n.options)
        (artifactFileName n.config (versionOf n.options env) ".tar.gz") := by
  unfold NPMBuilder.buildBody at h
  split at h
  · simp at h
  · split at h
    · simp at h
    · simp only [Outcome.returned.injEq, Prod.mk.injEq, Option.some.injEq] at h
      rw [← h.1] at hs
      simp [failedResult] at hs
    · split at h
      · simp at h
      · simp only [Outcome.returned.injEq, Prod.mk.injEq, Option.some.injEq] at h
        rw [← h.1] at hs
        simp [failedResult] at hs
      · split at h
        · simp only [Outcome.returned.injEq, Prod.mk.injEq, Option.some.injEq] at h
          rw [← h.1] at hs
          simp [failedResult] at hs
        · rename_i w3 _ _ artifactPath files size w4 hp
          simp only [Outcome.returned.injEq, Prod.mk.injEq, Option.some.injEq] at h
          have hpath := NPM_packageArtifacts_path n env w3 (by rw [hp])
          rw [hp] at hpath
          rw [← h.1]
          exact ⟨rfl, hpath⟩

theorem packagedResult_success (config : Config) (options : BuildOptions) (env : Env)
    (p : Packaged) (r : BuildResult) (e : Option GoError)
    (hpath : p.err = none →
      p.artifactPath =
        Join (outputDirOf options) (artifactFileName config (versionOf options env) ".jar"))
    (h : packagedResult options env p = (some r, e)) (hs : r.Success = true) :
    r.Version = options.Version ∧
    r.ArtifactPath =
      Join (outputDirOf options) (artifactFileName config (versionOf options env) ".jar") := by
  unfold packagedResult at h
  split at h
  · simp only [Prod.mk.injEq, Option.some.injEq] at h
    rw [← h.1] at hs
    simp [failedResult] at hs
  · simp only [Prod.mk.injEq, Option.some.injEq] at h
    rw [← h.1]
    exact ⟨rfl, hpath rfl⟩

theorem Maven_buildBody_success (m : MavenBuilder) (env : Env) (w : World)
    (r : BuildResult) (e : Option GoError)
    (h : (m.buildBody env w).1 = .returned (some r, e)) (hs : r.Success = true) :
    r.Version = m.options.Version ∧
    r.ArtifactPath =
      Join (outputDirOf m.options)
        (artifactFileName m.config (versionOf m.options env) ".jar") := by
  unfold MavenBuilder.buildBody at h
  split at h
  · simp at h
  · split at h
    · simp at h
    · simp only [Outcome.returned.injEq, Prod.mk.injEq, Option.some.injEq] at h
      rw [← h.1] at hs
      simp [failedResult] at hs
    · rename_i w3 _
      simp only [Outcome.returned.injEq] at h
      exact packagedResult_success m.config m.options env _ r e
        (fun hp => (Maven_packageArtifacts_path m env w3 hp).1) h hs

theorem Gradle_buildBody_success (g : GradleBuilder) (env : Env) (w : World)
    (r : BuildResult) (e : Option GoError)
    (h : (g.buildBody env w).1 = .returned (some r, e)) (hs : r.Success = true) :
    r.Version = g.options.Version ∧
    r.ArtifactPath =
      Join (outputDirOf g.options)
        (artifactFileName g.config (versionOf g.options env) ".jar") := by
  unfold GradleBuilder.buildBody at h
  split at h
  · simp at h
  · split at h
    · simp only [Outcome.returned.injEq, Prod.mk.injEq, Option.some.injEq] at h
      rw [← h.1] at hs
      simp [failedResult] at hs
    · rename_i w3 _
      simp only [Outcome.returned.injEq] at h
      exact packagedResult_success g.config g.options env _ r e
        (fun hp => (Gradle_packageArtifacts_path g env w3 hp).1) h hs

/-- C21. For each builder, the result of a successful `Build` has the
`Version` of the options, verbatim, and the `ArtifactPath`
`filepath.Join(outputDir, name-version.ext)` whose version is the one
synthesized during packaging; so when `options.Version` is empty the returned
`Version` is the empty string and the path holds the time stamp. -/
theorem Build_version (b : Builder) (env : Env) (w : World) (r : BuildResult)
    (e : Option GoError) (h : (b.Build env w).1 = .returned (some r, e))
    (hs : r.Success = true) :
    r.Version = b.options.Version ∧
    r.ArtifactPath =
      Join (outputDirOf b.options)
        (artifactFileName b.config (versionOf b.options env) b.artifactExt) ∧
    (b.options.Version = "" →
      r.Version = "" ∧
      r.ArtifactPath =
        Join (outputDirOf b.options)
          (b.config.Project.Name ++ "-" ++ env.now ++ b.artifactExt)) := by
  have key : r.Version = b.options.Version ∧
      r.ArtifactPath =
        Join (outputDirOf b.options)
          (artifactFileName b.config (versionOf b.options env) b.artifactExt) := by
    cases b with
    | npm n =>
      simp only [Builder.Build, NPMBuilder.Build] at h
      cases hg : env.getwd with
      | some ge => simp [hg] at h
      | none =>
        simp only [hg] at h
        exact NPM_buildBody_success n env _ r e h hs
    | maven m =>
      simp only [Builder.Build, MavenBuilder.Build] at h
      cases hg : env.getwd with
      | some ge => simp [hg] at h
      | none =>
        simp only [hg] at h
        exact Maven_buildBody_success m env _ r e h hs
    | gradle g =>
      simp only [Builder.Build, GradleBuilder.Build] at h
      cases hg : env.getwd with
      | some ge => simp [hg] at h
      | none =>
        simp only [hg] at h
        exact Gradle_buildBody_success g env _ r e h hs
  refine ⟨key.1, key.2, fun hv => ⟨key.1.trans hv, ?_⟩⟩
  rw [key.2]
  simp [versionOf, artifactFileName, hv]

/-- Witness for C21: the NPM build of `/srv/app` with no version given
succeeds with the empty `Version` and a path that holds the time stamp. -/
theorem Build_version_witness :
    ((Builder.npm (NewNPMBuilder sampleConfig plainOptions)).Build distEnv startWorld).1 =
      .returned (some { Success := true, ArtifactPath := "build/app-20240102-030405.tar.gz",
                        Version := "", BuildTime := "1s",
                        Files := ["assets", "assets/app.js", "index.html"], Size := 420,
                        Message := "构建成功" }, none) ∧
    ("" : String) = plainOptions.Version :=
  ⟨by decide,
   (Build_version (.npm (NewNPMBuilder sampleConfig plainOptions)) distEnv startWorld
      { Success := true, ArtifactPath := "build/app-20240102-030405.tar.gz",
        Version := "", BuildTime := "1s",
        Files := ["assets", "assets/app.js", "index.html"], Size := 420,
        Message := "构建成功" } none (by decide) rfl).1⟩

/-! ## The Gradle command that is checked and the one that is run -/

theorem checkGradle_command (g : GradleBuilder) (env : Env) (w : World)
    (h : (g.checkGradle env w).1 = none) :
    env.run (g.getGradleCommand env) ["--version"] = none ∨
    (env.stat (Join g.options.ProjectPath "gradlew") = .ok ∧
      env.run (Join g.options.ProjectPath "gradlew") ["--version"] ≠ none ∧
      env.run "gradle" ["--version"] = none ∧
      g.getGradleCommand env = Join g.options.ProjectPath "gradlew") := by
  unfold GradleBuilder.checkGradle execCommand at h
  unfold GradleBuilder.getGradleCommand
  dsimp only at h ⊢
  by_cases hst : env.stat (Join g.options.ProjectPath "gradlew") = .ok
  · simp only [hst, if_true] at h ⊢
    cases hw : env.run (Join g.options.ProjectPath "gradlew") ["--version"] with
    | none => exact Or.inl rfl
    | some we =>
      simp only [hw] at h
      cases hsys : env.run "gradle" ["--version"] with
      | none => exact Or.inr ⟨trivial, by simp, rfl, trivial⟩
      | some se => simp [hsys] at h
  · simp only [hst, if_false] at h ⊢
    cases hsys : env.run "gradle" ["--version"] with
    | none => exact Or.inl rfl
    | some se => simp [hsys] at h

/-- C22, evaluated at a failing input. The project has a `gradlew` that
cannot be run and the system `gradle` runs: `checkGradle` succeeds on the
`--version` call of the system `gradle`, after that of `gradlew` failed, and
`getGradleCommand` returns `gradlew`, which `runGradleBuild` then runs. -/
theorem getGradleCommand_not_checked :
    ((NewGradleBuilder sampleConfig sampleOptions).checkGradle brokenWrapperEnv
      startWorld).1 = none ∧
    ((NewGradleBuilder sampleConfig sampleOptions).checkGradle brokenWrapperEnv
      startWorld).2.trace =
      [.chmod "/srv/app/gradlew", .exec "/srv/app/gradlew" ["--version"],
       .exec "gradle" ["--version"]] ∧
    brokenWrapperEnv.run "/srv/app/gradlew" ["--version"] ≠ none ∧
    brokenWrapperEnv.run "gradle" ["--version"] = none ∧
    (NewGradleBuilder sampleConfig sampleOptions).getGradleCommand brokenWrapperEnv =
      "/srv/app/gradlew" ∧
    ((NewGradleBuilder sampleConfig sampleOptions).runGradleBuild brokenWrapperEnv
      startWorld).2.trace = [.exec "/srv/app/gradlew" ["clean", "build"]] ∧
    ((NewGradleBuilder sampleConfig sampleOptions).Validate brokenWrapperEnv
      startWorld).1 = none := by
  decide

/-! ## FormatFileSize -/

theorem formatLoop_stop (n div : Int) (exp : Nat) (h : n < 1024) :
    formatLoop n div exp = (div, exp) := by
  rw [formatLoop, if_neg (by omega)]

theorem formatLoop_step (n div : Int) (exp : Nat) (h : 1024 ≤ n) :
    formatLoop n div exp = formatLoop (n.tdiv 1024) (wrapInt64 (div * 1024)) (exp + 1) := by
  rw [formatLoop, if_pos h]

theorem formatLoopOverflows_stop (n div : Int) (h : n < 1024) :
    formatLoopOverflows n div = false := by
  rw [formatLoopOverflows, if_neg (by omega)]

theorem formatLoopOverflows_step (n div : Int) (h : 1024 ≤ n) :
    formatLoopOverflows n div =
      (decide (div * 1024 < -(2 ^ 63) ∨ 2 ^ 63 ≤ div * 1024) ||
        formatLoopOverflows (n.tdiv 1024) (wrapInt64 (div * 1024))) := by
  rw [formatLoopOverflows, if_pos h]

/-- The loop of `FormatFileSize`, entered with `n = size / div` (stated as
`n * div ≤ size < (n + 1) * div`) and `div = 1024 ^ (e + 1)`. -/
theorem formatLoop_spec (size : Int) (hs : size < 2 ^ 63) :
    ∀ (k : Nat) (n div : Int) (e : Nat), n.toNat = k → 1 ≤ n → div = 1024 ^ (e + 1) →
      n * div ≤ size → size < (n + 1) * div →
      (formatLoop n div e).1 = 1024 ^ ((formatLoop n div e).2 + 1) ∧
      (formatLoop n div e).1 ≤ size ∧ size < 1024 * (formatLoop n div e).1 ∧
      e ≤ (formatLoop n div e).2 ∧ formatLoopOverflows n div = false := by
  intro k
  induction k using Nat.strong_induction_on with
  | _ k ih =>
    intro n div e hk hn hd hlo hhi
    have hdpos : (0 : Int) < div := by rw [hd]; positivity
    by_cases hlt : 1024 ≤ n
    · rw [formatLoop_step n div e hlt, formatLoopOverflows_step n div hlt]
      have h0 : (0 : Int) ≤ n := by omega
      have ht : n.tdiv 1024 = n / 1024 := Int.tdiv_eq_ediv h0 (by decide)
      have hq1 : n / 1024 * 1024 ≤ n := by omega
      have hq2 : n + 1 ≤ (n / 1024 + 1) * 1024 := by omega
      have hmul : 1024 * div ≤ size :=
        le_trans (mul_le_mul_of_nonneg_right hlt hdpos.le) hlo
      have hw : wrapInt64 (div * 1024) = div * 1024 := by
        unfold wrapInt64
        have h1 : 0 ≤ div * 1024 + 2 ^ 63 := by positivity
        have h2 : div * 1024 + 2 ^ 63 < 2 ^ 64 := by linarith
        rw [Int.emod_eq_of_lt h1 h2]
        ring
      have hno : decide (div * 1024 < -(2 ^ 63) ∨ 2 ^ 63 ≤ div * 1024) = false := by
        rw [decide_eq_false_iff_not]
        intro hor
        rcases hor with hor | hor
        · have : (0 : Int) ≤ div * 1024 := by positivity
          linarith
        · linarith
      rw [ht, hw, hno]
      have hlo2 : n / 1024 * (div * 1024) ≤ size := by
        have := mul_le_mul_of_nonneg_right hq1 hdpos.le
        linarith
      have hhi2 : size < (n / 1024 + 1) * (div * 1024) := by
        have := mul_le_mul_of_nonneg_right hq2 hdpos.le
        linarith
      have hrec := ih (n / 1024).toNat (by omega) (n / 1024) (div * 1024) (e + 1) rfl
        (by omega) (by rw [hd]; ring) hlo2 hhi2
      exact ⟨hrec.1, hrec.2.1, hrec.2.2.1, by omega, by simpa using hrec.2.2.2.2⟩
    · rw [formatLoop_stop n div e (by omega), formatLoopOverflows_stop n div (by omega)]
      refine ⟨hd, ?_, ?_, le_refl _, rfl⟩
      · have := mul_le_mul_of_nonneg_right hn hdpos.le
        linarith
      · have h3 : n + 1 ≤ 1024 := by omega
        have := mul_le_mul_of_nonneg_right h3 hdpos.le
        linarith

theorem exp_le_five (e : Nat) (h : (1024 : Int) ^ (e + 1) < 2 ^ 63) : e ≤ 5 := by
  by_contra hc
  have h7 : 7 ≤ e + 1 := by omega
  have hp : (1024 : Int) ^ 7 ≤ 1024 ^ (e + 1) := pow_le_pow_right₀ (by norm_num) h7
  have h63 : (2 : Int) ^ 63 < 1024 ^ 7 := by norm_num
  linarith

theorem KMGTPE_get (e : Nat) (h : e ≤ 5) : ∃ c, "KMGTPE".data.get? e = some c := by
  have h6 : e < 6 := by omega
  interval_cases e <;> exact ⟨_, rfl⟩

/-- C23. `FormatFileSize` is a total function, and for every size below
`2^63` (every `int64`) it returns and does not panic. For `size < 1024`,
negative values included, the text is the decimal size followed by ` B`. For
`size ≥ 1024` the loop ends with `exp ≤ 5`, so the index into `"KMGTPE"` is in
range, and with `div = 1024^(exp+1)`, `div ≤ size < 1024 * div`; no product
`div * unit` of the loop leaves the range of `int64`. -/
theorem FormatFileSize_safe (sprintf1f : Int → Int → String) (size : Int)
    (hs : size < 2 ^ 63) :
    (∃ text, FormatFileSize sprintf1f size = .returned text) ∧
    (size < 1024 → FormatFileSize sprintf1f size = .returned (toString size ++ " B")) ∧
    (1024 ≤ size →
      (formatLoop (size.tdiv 1024) 1024 0).2 ≤ 5 ∧
      (formatLoop (size.tdiv 1024) 1024 0).1 =
        1024 ^ ((formatLoop (size.tdiv 1024) 1024 0).2 + 1) ∧
      (formatLoop (size.tdiv 1024) 1024 0).1 ≤ size ∧
      size < 1024 * (formatLoop (size.tdiv 1024) 1024 0).1 ∧
      (formatLoop (size.tdiv 1024) 1024 0).1 < 2 ^ 63 ∧
      formatLoopOverflows (size.tdiv 1024) 1024 = false ∧
      ∃ c, "KMGTPE".data.get? (formatLoop (size.tdiv 1024) 1024 0).2 = some c ∧
        FormatFileSize sprintf1f size =
          .returned (sprintf1f size (formatLoop (size.tdiv 1024) 1024 0).1 ++ " " ++
            String.singleton c ++ "B")) := by
  have big : 1024 ≤ size →
      (formatLoop (size.tdiv 1024) 1024 0).2 ≤ 5 ∧
      (formatLoop (size.tdiv 1024) 1024 0).1 =
        1024 ^ ((formatLoop (size.tdiv 1024) 1024 0).2 + 1) ∧
      (formatLoop (size.tdiv 1024) 1024 0).1 ≤ size ∧
      size < 1024 * (formatLoop (size.tdiv 1024) 1024 0).1 ∧
      (formatLoop (size.tdiv 1024) 1024 0).1 < 2 ^ 63 ∧
      formatLoopOverflows (size.tdiv 1024) 1024 = false ∧
      ∃ c, "KMGTPE".data.get? (formatLoop (size.tdiv 1024) 1024 0).2 = some c ∧
        FormatFileSize sprintf1f size =
          .returned (sprintf1f size (formatLoop (size.tdiv 1024) 1024 0).1 ++ " " ++
            String.singleton c ++ "B") := by
    intro hge
    have h0 : (0 : Int) ≤ size := by omega
    have ht : size.tdiv 1024 = size / 1024 := Int.tdiv_eq_ediv h0 (by decide)
    have hspec := formatLoop_spec size hs (size / 1024).toNat (size / 1024) 1024 0 rfl
      (by omega) (by norm_num) (by omega) (by omega)
    rw [← ht] at hspec
    obtain ⟨hd, hle, hlt, _, hov⟩ := hspec
    have hd63 : (formatLoop (size.tdiv 1024) 1024 0).1 < 2 ^ 63 := lt_of_le_of_lt hle hs
    have he : (formatLoop (size.tdiv 1024) 1024 0).2 ≤ 5 := by
      apply exp_le_five
      rw [← hd]
      exact hd63
    obtain ⟨c, hc⟩ := KMGTPE_get _ he
    refine ⟨he, hd, hle, hlt, hd63, hov, c, hc, ?_⟩
    unfold FormatFileSize
    rw [if_neg (by omega)]
    simp only [hc]
  have small : size < 1024 →
      FormatFileSize sprintf1f size = .returned (toString size ++ " B") := by
    intro hlt
    unfold FormatFileSize
    rw [if_pos hlt]
  refine ⟨?_, small, big⟩
  by_cases hlt : size < 1024
  · exact ⟨_, small hlt⟩
  · obtain ⟨_, _, _, _, _, _, c, _, hr⟩ := big (by omega)
    exact ⟨_, hr⟩

/-- Witness for C23: 5000000000 bytes are shown in the unit `GB` with the
divisor `1024^3`, and -5 bytes as `-5 B`. -/
theorem FormatFileSize_safe_witness :
    FormatFileSize showRatio 5000000000 = .returned "5000000000/1073741824 GB" ∧
    (formatLoop (Int.tdiv 5000000000 1024) 1024 0).2 ≤ 5 ∧
    FormatFileSize showRatio (-5) = .returned "-5 B" := by
  have hloop : formatLoop (Int.tdiv 5000000000 1024) 1024 0 = (1073741824, 2) := by
    rw [formatLoop_step _ _ _ (by decide), formatLoop_step _ _ _ (by decide),
      formatLoop_stop _ _ _ (by decide)]
    decide
  have h := FormatFileSize_safe showRatio 5000000000 (by decide)
  have h5 := FormatFileSize_safe showRatio (-5) (by decide)
  refine ⟨?_, (h.2.2 (by decide)).1, (h5.2.1 (by decide)).trans (by decide)⟩
  obtain ⟨c, hc, hr⟩ := (h.2.2 (by decide)).2.2.2.2.2.2
  rw [hr]
  rw [hloop] at hc ⊢
  have hcG : c = 'G' := by
    have : "KMGTPE".data.get? 2 = some 'G' := rfl
    rw [this] at hc
    exact (Option.some.inj hc).symm
  rw [hcG]
  decide

end Deploy
